import Mathlib

/-!
# OPAE SDK: device-object runtime and the N6000 board library

A shallow embedding of

* the device-object model of the OPAE C API (`fpgaTokenGetObject`,
  `fpgaHandleGetObject`, `fpgaObjectGetObject`, `fpgaObjectGetObjectAt`,
  `fpgaObjectGetType`, `fpgaObjectGetSize`, `fpgaObjectRead`,
  `fpgaDestroyObject`, `fpgaOpen`, `fpgaClose`), exercised by
  `tests/opae-c/test_object_c.cpp`;
* `libraries/libboard/board_n6000/board_n6000.c`.

Bytes are natural numbers below 256, C strings are lists of bytes, machine
integers are natural numbers reduced modulo a power of two where the C code
truncates.
-/

namespace OPAE

/-! ## Result codes -/

/-- Modelled from the spec: the shared result enumeration `fpga_result`
(declared in `opae/types_enum.h`, which is not among the sources). The
constructors are the codes of the specification's result-code surface
(section 6) under the names the sources and the tests use. -/
inductive fpga_result
  | FPGA_OK
  | FPGA_INVALID_PARAM
  | FPGA_BUSY
  | FPGA_EXCEPTION
  | FPGA_NOT_FOUND
  | FPGA_NO_MEMORY
  | FPGA_NOT_SUPPORTED
  deriving DecidableEq, Repr

open fpga_result

/-- Bytes of a string literal: the characters' code points. -/
def bytes (s : String) : List Nat := s.toList.map Char.toNat

/-! ## Device object model

The API shell of `libopae-c` and the plugins it dispatches to are not among
the sources; `tests/opae-c/test_object_c.cpp` exercises them. This section
models them from the specification (sections 3, 4.3, 4.4, 6, 7 and 9).
-/

/-- Modelled from the spec: a lookup name or a path segment (section 4.4),
given by its bytes up to its logical end. -/
abbrev Name := List Nat

/-- Modelled from the spec: type tag of an object,
`fpga_sysobject_type` (section 3, "a type tag (container | attribute)"). -/
inductive fpga_sysobject_type
  | FPGA_OBJECT_CONTAINER
  | FPGA_OBJECT_ATTRIBUTE
  deriving DecidableEq, Repr

open fpga_sysobject_type

/-- Modelled from the spec: a node of the hierarchical attribute tree a
device exposes (section 3, "objects form a tree"): an attribute with its raw
bytes, or a container with its named children in enumeration order. -/
inductive Node
  | attribute (content : List Nat)
  | container (children : List (Name × Node))

/-- Modelled from the spec: type tag of a tree node. -/
def Node.type : Node → fpga_sysobject_type
  | Node.attribute _ => FPGA_OBJECT_ATTRIBUTE
  | Node.container _ => FPGA_OBJECT_CONTAINER

/-- Modelled from the spec: raw bytes of a tree node (none for a
container). -/
def Node.content : Node → List Nat
  | Node.attribute c => c
  | Node.container _ => []

/-- Modelled from the spec: children of a tree node in enumeration order
(none for an attribute). -/
def Node.children : Node → List (Name × Node)
  | Node.attribute _ => []
  | Node.container cs => cs

/-- Modelled from the spec: the lookup flags of section 4.4
(`FPGA_OBJECT_SYNC`, `FPGA_OBJECT_GLOB`, `FPGA_OBJECT_RAW`,
`FPGA_OBJECT_RECURSE_ONE`); the flag word 0 has every field false. -/
structure obj_flags where
  sync : Bool
  glob : Bool
  raw : Bool
  recurse_one : Bool
  deriving DecidableEq, Repr

/-- Modelled from the spec: the flag word 0. -/
def FLAGS_NONE : obj_flags := ⟨false, false, false, false⟩

/-- Modelled from the spec: the flag word `FPGA_OBJECT_SYNC`. -/
def FPGA_OBJECT_SYNC : obj_flags := ⟨true, false, false, false⟩

/-- Modelled from the spec: the flag word `FPGA_OBJECT_RECURSE_ONE`. -/
def FPGA_OBJECT_RECURSE_ONE : obj_flags := ⟨false, false, false, true⟩

/-- Modelled from the spec: the implementation-fixed maximum path length of
section 4.4 ("documented, e.g. 255"). -/
def MAX_NAME_LEN : Nat := 255

/-- Modelled from the spec: the minimum valid length of a lookup name
(section 8). Section 4.4 fixes it: "the name must be non-empty", so one byte
is enough. -/
def MIN_NAME_LEN : Nat := 1

/-- Modelled from the spec: name validation of section 4.4 and section 8: a
name is valid when it is not shorter than the minimum valid length, not
longer than the maximum path length, and holds no NUL before its logical
end. -/
def valid_name (name : Name) : Bool :=
  decide (MIN_NAME_LEN ≤ name.length) && decide (name.length ≤ MAX_NAME_LEN)
    && !(name.contains 0)

/-- Modelled from the spec: the device layer a plugin reads (section 6): the
live attribute tree of each token and the glob matcher of the underlying
attribute namespace (pattern, then candidate name). -/
structure Device where
  tree : Nat → Node
  glob_match : Name → Name → Bool

/-- Modelled from the spec: one step of a lookup (section 4.4, `GLOB`), the
child a path segment designates. Without
`GLOB` it is the child of that name; with `GLOB` the segment is a pattern
that must match exactly one child. -/
def pick_child (d : Device) (glob : Bool) (seg : Name) (cs : List (Name × Node)) :
    Option (Name × Node) :=
  if glob then
    match cs.filter (fun c => d.glob_match seg c.1) with
    | [c] => some c
    | _ => none
  else
    cs.find? (fun c => c.1 == seg)

/-- Modelled from the spec: resolution of slash-delimited path segments
below a node (section 6); yields the names actually followed and the node
reached. -/
def resolve (d : Device) (glob : Bool) : List Name → Node → Option (List Name × Node)
  | [], n => some ([], n)
  | seg :: rest, n =>
    match pick_child d glob seg n.children with
    | some c =>
      match resolve d glob rest c.2 with
      | some r => some (c.1 :: r.1, r.2)
      | none => none
    | none => none

/-- Modelled from the spec: the slash-delimited segments of a name
(section 6; 47 is the slash). -/
def segments (name : Name) : List Name := name.splitOn 47

/-- Modelled from the spec: what an object holds of one node: its path from
the token's root, its type tag and, for an attribute, the snapshot of its raw
bytes (section 3, "a type tag, a path, ... a byte length and raw content
accessor"). -/
structure Snapshot where
  path : List Name
  type : fpga_sysobject_type
  data : List Nat
  deriving DecidableEq, Repr

/-- Modelled from the spec: snapshot of a node reached by a path. -/
def snapshot (path : List Name) (n : Node) : Snapshot :=
  ⟨path, n.type, n.content⟩

/-- Modelled from the spec: the object a plugin produces: the token whose
tree it belongs to, the handle it was obtained through (if any), its
snapshot, and the children materialized eagerly by `RECURSE_ONE`
(section 4.4). -/
structure PluginObject where
  token : Nat
  handle : Option Nat
  snap : Snapshot
  children : List Snapshot
  deriving DecidableEq, Repr

/-- Modelled from the spec: the calls the runtime dispatches to the bound
plugin (section 6, the plugin capability table). -/
inductive PluginCall
  | open_ (token : Nat)
  | close (handle : Nat)
  | get_object (token : Nat) (base : List Name) (name : Name) (flags : obj_flags)
  | get_object_at (obj : Nat) (index : Nat)
  | destroy_object (obj : Nat)
  deriving DecidableEq, Repr

/-- Modelled from the spec: the runtime's state, the "arena-style handle
tables keyed by opaque identifiers" of section 9: the next fresh identifier,
the open handles with their owning token, the live plugin objects, the live
wrapped objects (each naming the plugin object it wraps), and the log of
plugin entry points invoked so far. -/
structure Runtime where
  next : Nat
  handles : List (Nat × Nat)
  plugin_objects : List (Nat × PluginObject)
  wrapped : List (Nat × Nat)
  calls : List PluginCall
  deriving DecidableEq, Repr

/-- Modelled from the spec: the runtime right after initialization. -/
def Runtime.init : Runtime := ⟨0, [], [], [], []⟩

/-- Modelled from the spec: the state in which one more plugin entry point
has been invoked. -/
def Runtime.log (st : Runtime) (c : PluginCall) : Runtime :=
  { st with calls := st.calls ++ [c] }

/-- Modelled from the spec: token of an open handle; `none` for a null,
unopened or closed handle. -/
def Runtime.handle_token (st : Runtime) (h : Option Nat) : Option Nat :=
  match h with
  | none => none
  | some id => st.handles.lookup id

/-- Modelled from the spec: the plugin object behind an object reference;
`none` for a null or stale reference. -/
def Runtime.object (st : Runtime) (o : Option Nat) : Option (Nat × PluginObject) :=
  match o with
  | none => none
  | some id =>
    match st.wrapped.lookup id with
    | none => none
    | some pid =>
      match st.plugin_objects.lookup pid with
      | none => none
      | some po => some (pid, po)

/-- Modelled from the spec: `open(token, flags)` of section 4.3. The plugin's
open entry is invoked; when it fails (`plugin_res` is not `FPGA_OK`) no
handle is created. -/
def fpgaOpen (st : Runtime) (token : Nat) (plugin_res : fpga_result) :
    fpga_result × Option Nat × Runtime :=
  let st1 := st.log (PluginCall.open_ token)
  if plugin_res = FPGA_OK then
    (FPGA_OK, some st.next,
      { st1 with next := st.next + 1, handles := (st.next, token) :: st.handles })
  else
    (plugin_res, none, st1)

/-- Modelled from the spec: `close(handle)` of section 4.3: a null or
already-closed handle fails with `FPGA_INVALID_PARAM`; otherwise the bound
plugin's close entry is invoked once, the handle leaves the table together
with the objects obtained through it (section 3), and the plugin's result is
returned. -/
def fpgaClose (st : Runtime) (h : Option Nat) (plugin_res : fpga_result) :
    fpga_result × Runtime :=
  match h with
  | none => (FPGA_INVALID_PARAM, st)
  | some id =>
    match st.handles.lookup id with
    | none => (FPGA_INVALID_PARAM, st)
    | some _ =>
      let gone := fun (pid : Nat) =>
        match st.plugin_objects.lookup pid with
        | some po => decide (po.handle = some id)
        | none => false
      let stale := fun (o : Nat) =>
        match st.object (some o) with
        | some p => decide (p.2.handle = some id)
        | none => false
      (plugin_res,
        { st.log (PluginCall.close id) with
          handles := st.handles.filter (fun e => e.1 != id)
          plugin_objects := st.plugin_objects.filter (fun e => !(gone e.1))
          wrapped := st.wrapped.filter (fun e => !(stale e.1)) })

/-- Modelled from the spec: the plugin's get-object entry (section 4.4): the
name is validated, resolved below the base node, and a violation or a miss
is `FPGA_NOT_FOUND`; on success the plugin object is produced, with one
level of children when `RECURSE_ONE` is set. -/
def plugin_get_object (d : Device) (token : Nat) (handle : Option Nat)
    (base : List Name) (name : Name) (flags : obj_flags) :
    Except fpga_result PluginObject :=
  if valid_name name then
    match resolve d false base (d.tree token) with
    | none => Except.error FPGA_NOT_FOUND
    | some b =>
      match resolve d flags.glob (segments name) b.2 with
      | none => Except.error FPGA_NOT_FOUND
      | some r =>
        let path := base ++ r.1
        Except.ok ⟨token, handle, snapshot path r.2,
          if flags.recurse_one then
            r.2.children.map (fun c => snapshot (path ++ [c.1]) c.2)
          else []⟩
  else Except.error FPGA_NOT_FOUND

/-- Modelled from the spec: the wrapping step shared by every get-object
operation: the plugin object gets a fresh identifier, then the wrapped object
is allocated; when that allocation fails the plugin object is destroyed
again through the plugin, nothing is handed out and the result is
`FPGA_NO_MEMORY` (section 7 (b)). -/
def wrap_object (st : Runtime) (po : PluginObject) (alloc_ok : Bool) :
    fpga_result × Option Nat × Runtime :=
  let pid := st.next
  if alloc_ok then
    (FPGA_OK, some (pid + 1),
      { st with
        next := pid + 2
        plugin_objects := (pid, po) :: st.plugin_objects
        wrapped := (pid + 1, pid) :: st.wrapped })
  else
    (FPGA_NO_MEMORY, none,
      { st.log (PluginCall.destroy_object pid) with next := pid + 1 })

/-- Modelled from the spec: `getObject(parent: Token, name, flags)`. -/
def fpgaTokenGetObject (d : Device) (st : Runtime) (token : Nat) (name : Name)
    (flags : obj_flags) (alloc_ok : Bool) : fpga_result × Option Nat × Runtime :=
  let st1 := st.log (PluginCall.get_object token [] name flags)
  match plugin_get_object d token none [] name flags with
  | Except.error e => (e, none, st1)
  | Except.ok po => wrap_object st1 po alloc_ok

/-- Modelled from the spec: `getObject(parent: Handle, name, flags)`; a null
or closed handle is `FPGA_INVALID_PARAM`. -/
def fpgaHandleGetObject (d : Device) (st : Runtime) (handle : Option Nat) (name : Name)
    (flags : obj_flags) (alloc_ok : Bool) : fpga_result × Option Nat × Runtime :=
  match st.handle_token handle with
  | none => (FPGA_INVALID_PARAM, none, st)
  | some token =>
    let st1 := st.log (PluginCall.get_object token [] name flags)
    match plugin_get_object d token handle [] name flags with
    | Except.error e => (e, none, st1)
    | Except.ok po => wrap_object st1 po alloc_ok

/-- Modelled from the spec: `getObject(parent: Object, name, flags)`; a null
or destroyed parent is `FPGA_INVALID_PARAM`, the name is resolved below the
parent's node. -/
def fpgaObjectGetObject (d : Device) (st : Runtime) (parent : Option Nat) (name : Name)
    (flags : obj_flags) (alloc_ok : Bool) : fpga_result × Option Nat × Runtime :=
  match st.object parent with
  | none => (FPGA_INVALID_PARAM, none, st)
  | some p =>
    let st1 := st.log (PluginCall.get_object p.2.token p.2.snap.path name flags)
    match plugin_get_object d p.2.token p.2.handle p.2.snap.path name flags with
    | Except.error e => (e, none, st1)
    | Except.ok po => wrap_object st1 po alloc_ok

/-- Modelled from the spec: `getObjectAt(container, index)` of section 4.4:
the nth materialized child of a container in enumeration order, wrapped as
an object of its own; an out-of-range index is `FPGA_NOT_FOUND`. -/
def fpgaObjectGetObjectAt (st : Runtime) (parent : Option Nat) (index : Nat)
    (alloc_ok : Bool) : fpga_result × Option Nat × Runtime :=
  match st.object parent with
  | none => (FPGA_INVALID_PARAM, none, st)
  | some p =>
    let st1 := st.log (PluginCall.get_object_at p.1 index)
    match p.2.children.get? index with
    | none => (FPGA_NOT_FOUND, none, st1)
    | some c => wrap_object st1 ⟨p.2.token, p.2.handle, c, []⟩ alloc_ok

/-- Modelled from the spec: `getType(object)` of section 4.4. -/
def fpgaObjectGetType (st : Runtime) (obj : Option Nat) :
    fpga_result × Option fpga_sysobject_type :=
  match st.object obj with
  | none => (FPGA_INVALID_PARAM, none)
  | some p => (FPGA_OK, some p.2.snap.type)

/-- Modelled from the spec: re-resolution of an object's snapshot from the
live device (section 4.4, `SYNC`);
`none` when the path no longer leads to a node of the same type. -/
def resync (d : Device) (po : PluginObject) : Option PluginObject :=
  match resolve d false po.snap.path (d.tree po.token) with
  | none => none
  | some r =>
    if r.2.type = po.snap.type then
      some { po with snap := snapshot po.snap.path r.2 }
    else none

/-- Modelled from the spec: the state in which a plugin object has been
replaced by its re-synced version. -/
def Runtime.store (st : Runtime) (pid : Nat) (po : PluginObject) : Runtime :=
  { st with
    plugin_objects := st.plugin_objects.map (fun e => if e.1 = pid then (pid, po) else e) }

/-- Modelled from the spec: an object brought up to date when `SYNC` is
requested, with the state that holds it; `none` when the re-resolution
fails. -/
def sync_object (d : Device) (st : Runtime) (p : Nat × PluginObject) (sync : Bool) :
    Option (PluginObject × Runtime) :=
  if sync then
    match resync d p.2 with
    | none => none
    | some po => some (po, st.store p.1 po)
  else some (p.2, st)

/-- Modelled from the spec: `getSize(object, flags)` of section 4.4: for an
attribute the current byte length, re-synced from the live device when
`SYNC` is requested. (For a container, which the specification leaves open,
the number of materialized children.) -/
def fpgaObjectGetSize (d : Device) (st : Runtime) (obj : Option Nat) (flags : obj_flags) :
    fpga_result × Option Nat × Runtime :=
  match st.object obj with
  | none => (FPGA_INVALID_PARAM, none, st)
  | some p =>
    match sync_object d st p flags.sync with
    | none => (FPGA_NOT_FOUND, none, st)
    | some s =>
      match s.1.snap.type with
      | FPGA_OBJECT_ATTRIBUTE => (FPGA_OK, some s.1.snap.data.length, s.2)
      | FPGA_OBJECT_CONTAINER => (FPGA_OK, some s.1.children.length, s.2)

/-- Modelled from the spec: `read(object, buffer, offset, length, flags)` of
section 4.4: exactly the bytes of the attribute in the requested range, with
no trimming; a range beyond the attribute's bounds, or a container, is
`FPGA_INVALID_PARAM`. -/
def fpgaObjectRead (d : Device) (st : Runtime) (obj : Option Nat) (offset len : Nat)
    (flags : obj_flags) : fpga_result × Option (List Nat) × Runtime :=
  match st.object obj with
  | none => (FPGA_INVALID_PARAM, none, st)
  | some p =>
    match sync_object d st p flags.sync with
    | none => (FPGA_NOT_FOUND, none, st)
    | some s =>
      match s.1.snap.type with
      | FPGA_OBJECT_CONTAINER => (FPGA_INVALID_PARAM, none, s.2)
      | FPGA_OBJECT_ATTRIBUTE =>
        if offset + len ≤ s.1.snap.data.length then
          (FPGA_OK, some ((s.1.snap.data.drop offset).take len), s.2)
        else (FPGA_INVALID_PARAM, none, s.2)

/-- Modelled from the spec: `destroy(object)` of section 4.4 and section 3:
a null or stale reference is rejected with `FPGA_INVALID_PARAM`; a live
object is released through the plugin, with the children it materialized,
and leaves the tables. -/
def fpgaDestroyObject (st : Runtime) (obj : Option Nat) : fpga_result × Runtime :=
  match obj with
  | none => (FPGA_INVALID_PARAM, st)
  | some id =>
    match st.object (some id) with
    | none => (FPGA_INVALID_PARAM, st)
    | some p =>
      (FPGA_OK,
        { st.log (PluginCall.destroy_object p.1) with
          plugin_objects := st.plugin_objects.filter (fun e => e.1 != p.1)
          wrapped := st.wrapped.filter (fun e => e.1 != id) })

/-- Modelled from the spec: one operation of the handle and object interface
(sections 4.3 and 4.4), with the outcomes the
environment decides (the plugin's result, whether the wrapper allocation
succeeds). -/
inductive Op
  | open_ (token : Nat) (plugin_res : fpga_result)
  | close (h : Option Nat) (plugin_res : fpga_result)
  | token_get_object (token : Nat) (name : Name) (flags : obj_flags) (alloc_ok : Bool)
  | handle_get_object (h : Option Nat) (name : Name) (flags : obj_flags) (alloc_ok : Bool)
  | object_get_object (parent : Option Nat) (name : Name) (flags : obj_flags)
      (alloc_ok : Bool)
  | get_object_at (parent : Option Nat) (index : Nat) (alloc_ok : Bool)
  | get_type (obj : Option Nat)
  | get_size (obj : Option Nat) (flags : obj_flags)
  | read (obj : Option Nat) (offset len : Nat) (flags : obj_flags)
  | destroy (obj : Option Nat)

/-- Modelled from the spec: the state an operation leaves behind, on the
device as it is when the operation runs. -/
def step (st : Runtime) (d : Device) : Op → Runtime
  | Op.open_ token r => (fpgaOpen st token r).2.2
  | Op.close h r => (fpgaClose st h r).2
  | Op.token_get_object token name flags a => (fpgaTokenGetObject d st token name flags a).2.2
  | Op.handle_get_object h name flags a => (fpgaHandleGetObject d st h name flags a).2.2
  | Op.object_get_object o name flags a => (fpgaObjectGetObject d st o name flags a).2.2
  | Op.get_object_at o i a => (fpgaObjectGetObjectAt st o i a).2.2
  | Op.get_type _ => st
  | Op.get_size o flags => (fpgaObjectGetSize d st o flags).2.2
  | Op.read o offset len flags => (fpgaObjectRead d st o offset len flags).2.2
  | Op.destroy o => (fpgaDestroyObject st o).2

/-- Modelled from the spec: the state after a sequence of operations, each
on the device of its time. -/
def run (st : Runtime) (ops : List (Device × Op)) : Runtime :=
  ops.foldl (fun s e => step s e.1 e.2) st

/-- Modelled from the spec: type tag recorded for a plugin-object
identifier, if it is live. -/
def Runtime.type_of (st : Runtime) (k : Nat) : Option fpga_sysobject_type :=
  (st.plugin_objects.lookup k).map (fun po => po.snap.type)

/-- What a later state may hold for the identifiers an earlier state had
already issued: no identifier is issued twice, and the entry of an issued
identifier is either gone or what it was (for a plugin object: of the type it
had). -/
structure Frame (st st2 : Runtime) : Prop where
  next_le : st.next ≤ st2.next
  handles : ∀ k, k < st.next →
    st2.handles.lookup k = none ∨ st2.handles.lookup k = st.handles.lookup k
  wrapped : ∀ k, k < st.next →
    st2.wrapped.lookup k = none ∨ st2.wrapped.lookup k = st.wrapped.lookup k
  types : ∀ k, k < st.next → st2.type_of k = none ∨ st2.type_of k = st.type_of k

/-- What the scenario of section 8 promises of the outcome `g` of a get-object
call that was to yield a container with the materialized children
`first :: rest`: the call succeeded with an object `o`;
`fpgaObjectGetObjectAt (o, 0)` succeeds with an object of its own for `first`;
that child is destroyed with `FPGA_OK` while the container stays as it was
and is then destroyed with `FPGA_OK` too; and every index from the number of
children on is `FPGA_NOT_FOUND`. -/
def container_scenario (g : fpga_result × Option Nat × Runtime) (token : Nat)
    (handle : Option Nat) (first : Snapshot) (rest : List Snapshot) : Prop :=
  g.1 = FPGA_OK ∧ ∃ o, g.2.1 = some o ∧
    (fpgaObjectGetObjectAt g.2.2 (some o) 0 true).1 = FPGA_OK ∧
    (∃ ch pid, (fpgaObjectGetObjectAt g.2.2 (some o) 0 true).2.1 = some ch ∧ ch ≠ o ∧
      (fpgaObjectGetObjectAt g.2.2 (some o) 0 true).2.2.object (some ch)
        = some (pid, ⟨token, handle, first, []⟩) ∧
      (fpgaDestroyObject (fpgaObjectGetObjectAt g.2.2 (some o) 0 true).2.2 (some ch)).1
        = FPGA_OK ∧
      (fpgaDestroyObject (fpgaObjectGetObjectAt g.2.2 (some o) 0 true).2.2 (some ch)).2.object
        (some o) = g.2.2.object (some o) ∧
      (fpgaDestroyObject
        (fpgaDestroyObject (fpgaObjectGetObjectAt g.2.2 (some o) 0 true).2.2 (some ch)).2
        (some o)).1 = FPGA_OK) ∧
    ∀ i alloc_ok, (first :: rest).length ≤ i →
      (fpgaObjectGetObjectAt g.2.2 (some o) i alloc_ok).1 = FPGA_NOT_FOUND ∧
      (fpgaObjectGetObjectAt g.2.2 (some o) i alloc_ok).2.1 = none

/-- What is promised of the outcome `g` of a get-object call that was to
yield an object for a node of type `ty`: the call succeeded with an object
`o`, `fpgaObjectGetType` on `o` returns `FPGA_OK` and `ty`, and after any
further operations it still does, unless `o` has been destroyed by then. -/
def type_scenario (g : fpga_result × Option Nat × Runtime) (ty : fpga_sysobject_type) :
    Prop :=
  g.1 = FPGA_OK ∧ ∃ o, g.2.1 = some o ∧
    fpgaObjectGetType g.2.2 (some o) = (FPGA_OK, some ty) ∧
    ∀ ops, fpgaObjectGetType (run g.2.2 ops) (some o) = (FPGA_OK, some ty) ∨
      (run g.2.2 ops).object (some o) = none

/-! ## `libraries/libboard/board_n6000/board_n6000.c` -/

/-- The constant `FPGA_VAR_BUF_LEN`. -/
def FPGA_VAR_BUF_LEN : Nat := 256

/-- The path `DFL_SYSFS_BMCFW_VER`. -/
def DFL_SYSFS_BMCFW_VER : String := "dfl*/bmcfw_version"

/-- The path `DFL_SYSFS_MAX10_VER`. -/
def DFL_SYSFS_MAX10_VER : String := "dfl*/bmc_version"

/-- The path `DFL_SYSFS_EVENT_LOG_GLOB`. -/
def DFL_SYSFS_EVENT_LOG_GLOB : String := "*dfl*/**/bmc_event_log*/nvmem"

/-- The offset `HSSI_FEATURE_LIST`. -/
def HSSI_FEATURE_LIST : Nat := 0xC

/-- The offset `HSSI_PORT_ATTRIBUTE`. -/
def HSSI_PORT_ATTRIBUTE : Nat := 0x10

/-- The offset `HSSI_VERSION`. -/
def HSSI_VERSION : Nat := 0x8

/-- The offset `HSSI_PORT_STATUS`. -/
def HSSI_PORT_STATUS : Nat := 0x818

/-- The offset `DFH_CSR_ADDR`. -/
def DFH_CSR_ADDR : Nat := 0x18

/-- The constant `PORT_ENABLE_COUNT`. -/
def PORT_ENABLE_COUNT : Nat := 20

/-- The constant `HSS_PORT_PROFILE_SIZE`. -/
def HSS_PORT_PROFILE_SIZE : Nat := 34

/-- The macro `GET_BIT(var, pos)`. -/
def GET_BIT (var pos : Nat) : Nat := (var >>> pos) &&& 1

/-- The table `hssi_port_profiles`: `port_index` and `profile` of each
entry. -/
def hssi_port_profiles : List (Nat × String) :=
  [(0, "LL100G"), (1, "Ultra100G"), (2, "LL50G"), (3, "LL40G"), (4, "Ultra40G"),
   (5, "25_50G"), (6, "10_25G"), (7, "MRPHY"), (8, "LL10G"), (9, "TSE PCS"),
   (10, "TSE MAC"), (11, "Flex-E"), (12, "OTN"), (13, "General PCS-Direct"),
   (14, "General FEC-Direct"), (15, "General PMA-Direct"), (16, "MII"),
   (17, "Ethernet PCS-Direct"), (18, "Ethernet FEC-Direct"), (19, "Ethernet PMA-Direct"),
   (20, "10GbE"), (21, "25GbE"), (22, "40GCAUI-4"), (23, "50GAUI-2"), (24, "50GAUI-1"),
   (25, "100GAUI-1"), (26, "100GAUI-2"), (27, "100GCAUI-4"), (28, "200GAUI-2"),
   (29, "200GAUI-4"), (30, "200GAUI-8"), (31, "400GAUI-4"), (32, "400GAUI-8"),
   (33, "CPRI")]

/-- An event record `struct bel_event` (declared in `board_event_log.h`, not
among the sources): its bytes. -/
abbrev bel_event := List Nat

/-- An argument of a `printf`-style call. -/
inductive Arg
  | int (n : Nat)
  | str (s : String)
  | chars (s : List Nat)
  deriving DecidableEq, Repr

/-- What `board_n6000.c` does besides computing its results: the functions
it calls outside the file and the output it produces, in order. `enter`
marks the entry into one of the file's own functions, which is named. -/
inductive Call
  | OPAE_ERR (msg : String)
  | OPAE_MSG (msg : String)
  | printf (fmt : String) (args : List Arg)
  | fprintf_stderr (fmt : String) (args : List Arg)
  | enter (fn : String)
  | read_sysfs (token : Nat) (path : String) (len : Nat)
  | fpgaTokenGetObject (token : Nat) (name : String)
  | fpgaObjectRead (obj : Nat) (offset len : Nat)
  | fpgaDestroyObject (obj : Nat)
  | opae_malloc (size : Nat)
  | opae_free
  | reformat_bom_info (len max_result_len : Nat)
  | bel_ptr (obj : Nat)
  | bel_read (obj : Nat) (ptr : Nat)
  | bel_timespan (event : bel_event) (idx : Nat)
  | bel_print (event : bel_event) (print_sensors print_bits : Bool)
  deriving DecidableEq, Repr

/-- The functions `board_n6000.c` calls and does not define (`board_common`,
`board_event_log`, the OPAE API, the allocator), and the constant
`SYSFS_PATH_MAX` it takes from a header that is not among the sources. Those
that touch the device or the heap answer depending on everything that
happened before (the first argument) as well as on their arguments;
`read_sysfs` and `fpgaObjectRead` also yield the bytes they stored in the
caller's buffer, `fpgaTokenGetObject` the object, `bel_ptr` the pointer,
`bel_read` the event, `opae_malloc` the block with the bytes it happens to
hold (`none` for `NULL`), and `reformat_bom_info` the buffer as it leaves
it. -/
structure Board where
  SYSFS_PATH_MAX : Nat
  bel_ptr_count : Nat
  bel_ptr_next : Nat → Nat
  bel_empty : bel_event → Bool
  read_sysfs : List Call → Nat → String → Nat → fpga_result × List Nat
  fpgaTokenGetObject : List Call → Nat → String → fpga_result × Nat
  fpgaObjectRead : List Call → Nat → Nat → Nat → fpga_result × List Nat
  fpgaDestroyObject : List Call → Nat → fpga_result
  opae_malloc : List Call → Nat → Option (List Nat)
  reformat_bom_info : List Nat → Nat → Nat → fpga_result × List Nat
  bel_ptr : List Call → Nat → fpga_result × Nat
  bel_read : List Call → Nat → Nat → fpga_result × bel_event

/-- The C string held by a char array: its bytes before the first NUL. -/
def c_str (mem : List Nat) : List Nat := mem.takeWhile (fun c => c != 0)

/-- C library `isspace` in the C locale. -/
def isspace (c : Nat) : Bool := c == 32 || (decide (9 ≤ c) && decide (c ≤ 13))

/-- Value of a hexadecimal digit character. -/
def hex_digit (c : Nat) : Option Nat :=
  if 48 ≤ c ∧ c ≤ 57 then some (c - 48)
  else if 97 ≤ c ∧ c ≤ 102 then some (c - 87)
  else if 65 ≤ c ∧ c ≤ 70 then some (c - 55)
  else none

/-- The constant `ULONG_MAX` of the LP64 targets the library is built for. -/
def ULONG_MAX : Nat := 2 ^ 64 - 1

/-- The digit loop of `strtoul` in base 16: the value accumulated, whether it
overflowed `unsigned long`, and the number of digits consumed. -/
def strtoul_digits : List Nat → Nat → Bool → Nat → Nat × Bool × Nat
  | [], acc, ovf, n => (acc, ovf, n)
  | c :: cs, acc, ovf, n =>
    match hex_digit c with
    | none => (acc, ovf, n)
    | some v =>
      if ovf || decide (ULONG_MAX < acc * 16 + v) then strtoul_digits cs acc true (n + 1)
      else strtoul_digits cs (acc * 16 + v) false (n + 1)

/-- The optional sign `strtoul` accepts: whether it is a minus, the number of
characters it takes, and what follows it. -/
def strtoul_sign (s : List Nat) : Bool × Nat × List Nat :=
  match s with
  | 45 :: r => (true, 1, r)
  | 43 :: r => (false, 1, r)
  | _ => (false, 0, s)

/-- The optional `0x`/`0X` that `strtoul` accepts in base 16 when a
hexadecimal digit follows it: the number of characters it takes and what
follows it. -/
def strtoul_0x (s : List Nat) : Nat × List Nat :=
  match s with
  | 48 :: x :: h :: r =>
    if (x == 120 || x == 88) && (hex_digit h).isSome then (2, h :: r) else (0, s)
  | _ => (0, s)

/-- C library `strtoul(nptr, &endptr, 16)` on the C string `s`: the value
returned and the offset of `endptr` from `nptr`. White space is skipped, a
sign and a `0x`/`0X` are accepted, an overflow yields `ULONG_MAX`, a minus
sign negates modulo 2^64, and when no digit is converted the value is 0 and
`endptr` is `nptr`. -/
def strtoul16 (s : List Nat) : Nat × Nat :=
  let ws := (s.takeWhile isspace).length
  let sign := strtoul_sign (s.drop ws)
  let pfx := strtoul_0x sign.2.2
  let d := strtoul_digits pfx.2 0 false 0
  if d.2.2 = 0 then (0, 0)
  else
    (if d.2.1 then ULONG_MAX else if sign.1 then (2 ^ 64 - d.1) % 2 ^ 64 else d.1,
      ws + sign.2.1 + pfx.1 + d.2.2)

/-- The characters `%u` prints for `n`. -/
def fmt_u (n : Nat) : List Nat := bytes (Nat.repr n)

/-- C library `snprintf(dst, len, ...)` where the formatted text is `s`: at
most `len - 1` bytes of `s` and a NUL are stored at the start of `dst` (nothing
when `len` is 0), and the length of `s` is returned. -/
def snprintf (dst : List Nat) (len : Nat) (s : List Nat) : List Nat × Int :=
  if len = 0 then (dst, (s.length : Int))
  else (s.take (len - 1) ++ [0] ++ dst.drop (min s.length (len - 1) + 1), (s.length : Int))

/-- The function `parse_fw_ver(buf, fw_ver, len)`: the result, the bytes at `fw_ver`
afterwards, and the calls made. A pointer is `none` when it is `NULL`. -/
def parse_fw_ver (buf : Option (List Nat)) (fw_ver : Option (List Nat)) (len : Nat)
    (tr : List Call) : fpga_result × Option (List Nat) × List Call :=
  let tr0 := tr ++ [Call.enter "parse_fw_ver"]
  match buf, fw_ver with
  | some b, some out =>
    let r := strtoul16 (c_str b)
    let var := r.1 % 2 ^ 32
    if r.2 ≠ (c_str b).length then
      (FPGA_EXCEPTION, some out,
        tr0 ++ [Call.OPAE_ERR "Failed to convert buffer to integer: %s"])
    else
      let w := snprintf out len
        (fmt_u ((var >>> 16) &&& 0xff) ++ [46] ++ fmt_u ((var >>> 8) &&& 0xff) ++ [46]
          ++ fmt_u (var &&& 0xff))
      if w.2 < 0 then
        (FPGA_EXCEPTION, some w.1, tr0 ++ [Call.OPAE_ERR "error in formatting version"])
      else (FPGA_OK, some w.1, tr0)
  | _, _ => (FPGA_INVALID_PARAM, fw_ver, tr0 ++ [Call.OPAE_ERR "Invalid Input parameters"])

/-- The zero-initialised local array `char buf[FPGA_VAR_BUF_LEN]` after `read_sysfs`
stored `data` in it (at most `FPGA_VAR_BUF_LEN - 1` bytes, the length it was
given). -/
def var_buf (data : List Nat) : List Nat :=
  data.take (FPGA_VAR_BUF_LEN - 1)
    ++ List.replicate (FPGA_VAR_BUF_LEN - (data.take (FPGA_VAR_BUF_LEN - 1)).length) 0

/-- The function `read_bmcfw_version(token, bmcfw_ver, len)`. -/
def read_bmcfw_version (env : Board) (token : Nat) (bmcfw_ver : Option (List Nat))
    (len : Nat) (tr : List Call) : fpga_result × Option (List Nat) × List Call :=
  let tr0 := tr ++ [Call.enter "read_bmcfw_version"]
  match bmcfw_ver with
  | none => (FPGA_INVALID_PARAM, none, tr0 ++ [Call.OPAE_ERR "Invalid Input parameters"])
  | some out =>
    let r := env.read_sysfs tr0 token DFL_SYSFS_BMCFW_VER (FPGA_VAR_BUF_LEN - 1)
    let tr1 := tr0 ++ [Call.read_sysfs token DFL_SYSFS_BMCFW_VER (FPGA_VAR_BUF_LEN - 1)]
    if r.1 ≠ FPGA_OK then
      (r.1, some out, tr1 ++ [Call.OPAE_ERR "Failed to get read object"])
    else
      let p := parse_fw_ver (some (var_buf r.2)) (some out) len tr1
      if p.1 ≠ FPGA_OK then
        (p.1, p.2.1, p.2.2 ++ [Call.OPAE_ERR "Failed to parse version "])
      else p

/-- The function `read_max10fw_version(token, max10fw_ver, len)`. -/
def read_max10fw_version (env : Board) (token : Nat) (max10fw_ver : Option (List Nat))
    (len : Nat) (tr : List Call) : fpga_result × Option (List Nat) × List Call :=
  let tr0 := tr ++ [Call.enter "read_max10fw_version"]
  match max10fw_ver with
  | none => (FPGA_INVALID_PARAM, none, tr0 ++ [Call.OPAE_ERR "Invalid Input parameters"])
  | some out =>
    let r := env.read_sysfs tr0 token DFL_SYSFS_MAX10_VER (FPGA_VAR_BUF_LEN - 1)
    let tr1 := tr0 ++ [Call.read_sysfs token DFL_SYSFS_MAX10_VER (FPGA_VAR_BUF_LEN - 1)]
    if r.1 ≠ FPGA_OK then
      (r.1, some out, tr1 ++ [Call.OPAE_ERR "Failed to get read object"])
    else
      let p := parse_fw_ver (some (var_buf r.2)) (some out) len tr1
      if p.1 ≠ FPGA_OK then
        (p.1, p.2.1, p.2.2 ++ [Call.OPAE_ERR "Failed to parse version "])
      else p

/-- The loop `while (i++ < count)` of `fpga_event_log`, with the value of
`res` when it ends. The first argument bounds the iterations; `count - i`
suffices. -/
def read_events (env : Board) (obj : Nat) (print_list print_sensors print_bits : Bool)
    (count : Nat) : Nat → Nat → Nat → List Call → fpga_result × List Call
  | 0, _, _, tr => (FPGA_OK, tr)
  | fuel + 1, i, ptr, tr =>
    if i < count then
      let r := env.bel_read tr obj ptr
      let tr1 := tr ++ [Call.bel_read obj ptr]
      if r.1 ≠ FPGA_OK then (r.1, tr1)
      else
        let tr2 :=
          if print_list then tr1 ++ [Call.bel_timespan r.2 i]
          else if env.bel_empty r.2 then
            tr1 ++ [Call.printf "Boot %i: Empty\n" [Arg.int i]]
          else
            tr1 ++ [Call.printf "Boot %i\n" [Arg.int i],
              Call.bel_print r.2 print_sensors print_bits]
        read_events env obj print_list print_sensors print_bits count fuel (i + 1)
          (env.bel_ptr_next ptr) tr2
    else (FPGA_OK, tr)

/-- The end of `fpga_event_log` from the label `out` on: the object is
destroyed and `FPGA_OK` is returned. -/
def event_log_out (env : Board) (obj : Nat) (tr : List Call) : fpga_result × List Call :=
  let d := env.fpgaDestroyObject tr obj
  let tr1 := tr ++ [Call.fpgaDestroyObject obj]
  if d ≠ FPGA_OK then (FPGA_OK, tr1 ++ [Call.OPAE_ERR "Failed to Destroy Object"])
  else (FPGA_OK, tr1)

/-- The function `fpga_event_log(token, first, last, print_list, print_sensors,
print_bits)`; `first` and `last` are `uint32_t` values. -/
def fpga_event_log (env : Board) (token : Nat) (first last : Nat)
    (print_list print_sensors print_bits : Bool) (tr : List Call) :
    fpga_result × List Call :=
  let tr0 := tr ++ [Call.enter "fpga_event_log"]
  if first > env.bel_ptr_count then
    (FPGA_INVALID_PARAM,
      tr0 ++ [Call.fprintf_stderr "invalid --boot value: %u\n" [Arg.int first]])
  else if last > env.bel_ptr_count then
    (FPGA_INVALID_PARAM,
      tr0 ++ [Call.fprintf_stderr "invalid --boot + --count value: %u\n" [Arg.int last]])
  else
    let g := env.fpgaTokenGetObject tr0 token DFL_SYSFS_EVENT_LOG_GLOB
    let tr1 := tr0 ++ [Call.fpgaTokenGetObject token DFL_SYSFS_EVENT_LOG_GLOB]
    if g.1 ≠ FPGA_OK then (g.1, tr1 ++ [Call.OPAE_MSG "Failed to get token Object"])
    else
      let count := if first = last then env.bel_ptr_count else last
      let i := if first = last then 0 else first
      let p := env.bel_ptr tr1 g.2
      let tr2 := tr1 ++ [Call.bel_ptr g.2]
      if p.1 ≠ FPGA_OK then
        event_log_out env g.2 (tr2 ++ [Call.OPAE_MSG "Failed to read log pointer"])
      else
        let ptr := env.bel_ptr_next^[first] p.2
        let e := read_events env g.2 print_list print_sensors print_bits count (count - i) i
          ptr tr2
        event_log_out env g.2 e.2

/-- Little-endian load of `n` bytes at byte offset `off` of a mapped
region. -/
def load_le (mem : Nat → Nat) (off : Nat) : Nat → Nat
  | 0 => 0
  | n + 1 => mem off % 256 + 256 * load_le mem (off + 1) n

/-- The bit-field of `width` bits that starts at bit `lo` of `x`. -/
def bit_field (x lo width : Nat) : Nat := (x >>> lo) % 2 ^ width

/-- The offsets `print_hssi_port_status` reads at, by DFH feature revision:
version, feature list, port status, port attributes; `none` for an
unsupported revision. For revision 2 they come from `csr_addr.addr`, whose
storage is eight bytes of which the assignment to the `uint32_t` member
`csr` writes the low four; `junk` is what the other four hold. -/
def hssi_offsets (mem : Nat → Nat) (junk : Nat) : Option (Nat × Nat × Nat × Nat) :=
  let feature_rev := bit_field (load_le mem 0 8) 12 4
  if feature_rev = 0 ∨ feature_rev = 1 then
    some (HSSI_VERSION, HSSI_FEATURE_LIST, HSSI_PORT_STATUS, HSSI_PORT_ATTRIBUTE)
  else if feature_rev = 2 then
    let csr := load_le mem DFH_CSR_ADDR 8 % 2 ^ 32
    let addr := bit_field (csr + 2 ^ 32 * (junk % 2 ^ 32)) 1 63
    some (addr % 2 ^ 32, (addr + 0x4) % 2 ^ 32, HSSI_PORT_STATUS, (addr + 0x8) % 2 ^ 32)
  else none

/-- One iteration of the port loop of `print_hssi_port_status` for port `i`:
the counter `k` and the calls afterwards. -/
def hssi_port (mem : Nat → Nat) (port_enable port_status port_attr_offset : Nat)
    (s : Nat × List Call) (i : Nat) : Nat × List Call :=
  if GET_BIT port_enable i = 0 then s
  else
    let profile := bit_field (load_le mem (port_attr_offset + i * 4) 4) 0 6
    if profile > HSS_PORT_PROFILE_SIZE then
      (s.1, s.2 ++ [Call.printf "Port%-28d :%s\n" [Arg.int i, Arg.str "N/A"]])
    else
      match (hssi_port_profiles.take HSS_PORT_PROFILE_SIZE).find? (fun e => e.1 == profile) with
      | none => s
      | some e =>
        if GET_BIT (bit_field port_status 0 16) s.1 = 1
            ∧ GET_BIT (bit_field port_status 16 16) s.1 = 1
            ∧ GET_BIT (bit_field port_status 32 16) s.1 = 1 then
          (s.1 + 1,
            s.2 ++ [Call.printf "Port%-28d :%-12s %s\n" [Arg.int i, Arg.str e.2, Arg.str "UP"]])
        else
          (s.1 + 1,
            s.2 ++ [Call.printf "Port%-28d :%-12s %s\n"
              [Arg.int i, Arg.str e.2, Arg.str "DOWN"]])

/-- The function `print_hssi_port_status(uio_ptr)`: `uio_ptr` is the mapped register
region (`none` for `NULL`), `junk` as in `hssi_offsets`. -/
def print_hssi_port_status (uio_ptr : Option (Nat → Nat)) (junk : Nat) (tr : List Call) :
    fpga_result × List Call :=
  let tr0 := tr ++ [Call.enter "print_hssi_port_status"]
  match uio_ptr with
  | none => (FPGA_INVALID_PARAM, tr0 ++ [Call.OPAE_ERR "Invalid Input parameters"])
  | some mem =>
    match hssi_offsets mem junk with
    | none =>
      (FPGA_NOT_SUPPORTED,
        tr0 ++ [Call.printf "DFH veriosn not supported:%x \n"
          [Arg.int (bit_field (load_le mem 0 8) 12 4)]])
    | some (ver_offset, feature_list_offset, port_sts_offset, port_attr_offset) =>
      let feature_list := load_le mem feature_list_offset 4
      let hssi_ver := load_le mem ver_offset 4
      let port_status := load_le mem port_sts_offset 8
      let tr1 := tr0 ++
        [Call.printf "//****** HSSI information ******//\n" [],
         Call.printf "%-32s : %d.%d  \n"
           [Arg.str "HSSI version", Arg.int (bit_field hssi_ver 16 16),
             Arg.int (bit_field hssi_ver 8 8)],
         Call.printf "%-32s : %d  \n"
           [Arg.str "Number of ports", Arg.int (bit_field feature_list 1 5)]]
      (FPGA_OK,
        ((List.range PORT_ENABLE_COUNT).foldl
          (hssi_port mem (bit_field feature_list 6 20) port_status port_attr_offset)
          (0, tr1)).2)

/-- The value a sequence of hexadecimal digits denotes. -/
def hex_value (ds : List Nat) : Nat :=
  ds.foldl (fun acc c => acc * 16 + (hex_digit c).getD 0) 0

/-- The version string "A.B.C" of a build-version word `w`: bits 23..16,
15..8 and 7..0 in decimal, separated by dots. -/
def version_string (w : Nat) : List Nat :=
  fmt_u ((w >>> 16) &&& 0xff) ++ [46] ++ fmt_u ((w >>> 8) &&& 0xff) ++ [46]
    ++ fmt_u (w &&& 0xff)

/-- The C string `s` is a hexadecimal numeral, optionally prefixed with `0x`,
whose digits are `ds`. -/
def hex_numeral (s ds : List Nat) : Prop :=
  (s = ds ∨ s = [48, 120] ++ ds) ∧ ds ≠ [] ∧ ∀ c ∈ ds, (hex_digit c).isSome = true

/-- The constant `FPGA_BOM_INFO_BUF_LEN`. -/
def FPGA_BOM_INFO_BUF_LEN : Nat := 0x2000

/-- The path `DFL_SYSFS_BOM_INFO_GLOB`. -/
def DFL_SYSFS_BOM_INFO_GLOB : String := "*dfl*/**/bom_info*/nvmem"

/-- The path `DFL_SEC_PMCI_GLOB`. -/
def DFL_SEC_PMCI_GLOB : String := "*dfl*/**/security/"

/-- C library `memset(buf, c, len)`: the buffer afterwards. -/
def memset (buf : List Nat) (c len : Nat) : List Nat :=
  List.replicate len c ++ buf.drop len

/-- A buffer after `data` has been stored at its start. -/
def store_bytes (buf data : List Nat) : List Nat := data ++ buf.drop data.length

/-- The function `read_bom_info(token, bom_info, len)`: the result, the bytes at
`bom_info` afterwards (`none` for `NULL`), and the calls made. -/
def read_bom_info (env : Board) (token : Nat) (bom_info : Option (List Nat)) (len : Nat)
    (tr : List Call) : fpga_result × Option (List Nat) × List Call :=
  let tr0 := tr ++ [Call.enter "read_bom_info"]
  match bom_info with
  | none => (FPGA_INVALID_PARAM, none, tr0)
  | some buf =>
    let g := env.fpgaTokenGetObject tr0 token DFL_SYSFS_BOM_INFO_GLOB
    let tr1 := tr0 ++ [Call.fpgaTokenGetObject token DFL_SYSFS_BOM_INFO_GLOB]
    if g.1 ≠ FPGA_OK then
      (FPGA_OK, some (memset buf 0xFF len), tr1 ++ [Call.OPAE_MSG "Failed to get token Object"])
    else
      let r := env.fpgaObjectRead tr1 g.2 0 len
      let tr2 := tr1 ++ [Call.fpgaObjectRead g.2 0 len]
      let buf1 := store_bytes buf (r.2.take len)
      let s : fpga_result × List Nat × List Call :=
        if r.1 ≠ FPGA_OK then
          (r.1, memset buf1 0xFF len, tr2 ++ [Call.OPAE_MSG "Failed to read BOM info"])
        else (FPGA_OK, buf1, tr2)
      let d := env.fpgaDestroyObject s.2.2 g.2
      let tr3 := s.2.2 ++ [Call.fpgaDestroyObject g.2]
      if d ≠ FPGA_OK then
        (if s.1 = FPGA_OK then d else s.1, some s.2.1,
          tr3 ++ [Call.OPAE_MSG "Failed to Destroy Object"])
      else (s.1, some s.2.1, tr3)

/-- The function `print_bom_info(token)`. -/
def print_bom_info (env : Board) (token : Nat) (tr : List Call) : fpga_result × List Call :=
  let tr0 := tr ++ [Call.enter "print_bom_info"]
  let max_result_len := 2 * FPGA_BOM_INFO_BUF_LEN
  let m := env.opae_malloc tr0 max_result_len
  let tr1 := tr0 ++ [Call.opae_malloc max_result_len]
  match m with
  | none => (FPGA_NO_MEMORY, tr1)
  | some block =>
    let r := read_bom_info env token (some block) FPGA_BOM_INFO_BUF_LEN tr1
    if r.1 ≠ FPGA_OK then
      (r.1, r.2.2 ++ [Call.OPAE_ERR "Failed to read BOM info", Call.opae_free])
    else
      let buf := (r.2.1.getD block).set FPGA_BOM_INFO_BUF_LEN 0
      let f := env.reformat_bom_info buf FPGA_BOM_INFO_BUF_LEN max_result_len
      let tr2 := r.2.2 ++ [Call.reformat_bom_info FPGA_BOM_INFO_BUF_LEN max_result_len]
      let tr3 :=
        if f.1 ≠ FPGA_OK then tr2 ++ [Call.OPAE_ERR "Failed to reformat BOM info"] else tr2
      (if f.1 ≠ FPGA_OK then f.1 else FPGA_OK,
        tr3 ++ [Call.printf "%s" [Arg.chars (c_str f.2)], Call.opae_free])

/-- The function `print_board_info(token)`. -/
def print_board_info (env : Board) (token : Nat) (tr : List Call) : fpga_result × List Call :=
  let tr0 := tr ++ [Call.enter "print_board_info"]
  let b := read_bmcfw_version env token (some (List.replicate FPGA_VAR_BUF_LEN 0))
    FPGA_VAR_BUF_LEN tr0
  let s1 : fpga_result × List Call :=
    if b.1 ≠ FPGA_OK then (b.1, b.2.2 ++ [Call.OPAE_ERR "Failed to read bmc version"])
    else (FPGA_OK, b.2.2)
  let m := read_max10fw_version env token (some (List.replicate FPGA_VAR_BUF_LEN 0))
    FPGA_VAR_BUF_LEN s1.2
  let s2 : fpga_result × List Call :=
    if m.1 ≠ FPGA_OK then (m.1, m.2.2 ++ [Call.OPAE_ERR "Failed to read max10 version"])
    else (s1.1, m.2.2)
  let tr3 := s2.2 ++
    [Call.printf "Board Management Controller NIOS FW version: %s \n"
       [Arg.chars (c_str (b.2.1.getD []))],
     Call.printf "Board Management Controller Build version: %s \n"
       [Arg.chars (c_str (m.2.1.getD []))]]
  let p := print_bom_info env token tr3
  if p.1 ≠ FPGA_OK then
    (if s2.1 = FPGA_OK then p.1 else s2.1, p.2 ++ [Call.OPAE_ERR "Failed to print BOM info"])
  else (s2.1, p.2)

/-- One attribute that `print_sec_info` reads: whether `name` is cleared with
`memset` before the read, the path read, the label printed, whether an empty
value is printed as "None", and the message logged when the read fails. -/
structure sec_field where
  clear : Bool
  path : String
  label : String
  none_if_empty : Bool
  msg : String
  deriving DecidableEq, Repr

/-- The eleven attributes `print_sec_info` reads, in the order of the
source. -/
def sec_fields : List sec_field :=
  [⟨true, "*dfl*/**/security/bmc_root_entry_hash", "BMC root entry hash", false,
     "Failed to Read TCM BMC root entry hash"⟩,
   ⟨true, "*dfl*/**/security/bmc_canceled_csks", "BMC CSK IDs canceled", true,
     "Failed to Read BMC CSK IDs canceled"⟩,
   ⟨true, "*dfl*/**/security/pr_root_entry_hash", "PR root entry hash", false,
     "Failed to Read PR root entry hash"⟩,
   ⟨true, "*dfl*/**/security/pr_canceled_csks", "AFU/PR CSK IDs canceled", true,
     "Failed to Read AFU CSK/PR IDs canceled"⟩,
   ⟨true, "*dfl*/**/security/sr_root_entry_hash", "FIM root entry hash", false,
     "Failed to Read FIM root entry hash"⟩,
   ⟨true, "*dfl*/**/security/sr_canceled_csks", "FIM CSK IDs canceled", true,
     "Failed to Read FIM CSK IDs canceled"⟩,
   ⟨true, "*dfl*/**/security/*flash_count", "User flash update counter", false,
     "Failed to Read User flash update counter"⟩,
   ⟨false, "*dfl*/**/security/pr_sdm_canceled_csks", "PR SDM CSK IDs canceled", false,
     "Failed to PR SDM CSK IDs canceled"⟩,
   ⟨false, "*dfl*/**/security/pr_sdm_root_entry_hash", "PR SDM root entry hash", false,
     "Failed to PR SDM root entry hash"⟩,
   ⟨false, "*dfl*/**/security/sr_sdm_canceled_csks", "SR SDM CSK IDs canceled", false,
     "Failed to SR SDM CSK IDs canceled"⟩,
   ⟨false, "*dfl*/**/security/sr_sdm_root_entry_hash", "SR SDM root entry hash", false,
     "Failed to SR SDM root entry hash"⟩]

/-- One attribute read of `print_sec_info`: from `resval`, the array `name`
and the calls so far to the same three afterwards. -/
def sec_read (env : Board) (token : Nat) (s : fpga_result × List Nat × List Call)
    (f : sec_field) : fpga_result × List Nat × List Call :=
  let name0 := if f.clear then List.replicate env.SYSFS_PATH_MAX 0 else s.2.1
  let r := env.read_sysfs s.2.2 token f.path (env.SYSFS_PATH_MAX - 1)
  let tr1 := s.2.2 ++ [Call.read_sysfs token f.path (env.SYSFS_PATH_MAX - 1)]
  let name1 := store_bytes name0 (r.2.take (env.SYSFS_PATH_MAX - 1))
  if r.1 = FPGA_OK then
    (s.1, name1,
      tr1 ++ [Call.printf "%-32s : %s\n"
        [Arg.str f.label,
          if f.none_if_empty && decide ((c_str name1).length = 0) then Arg.str "None"
          else Arg.chars (c_str name1)]])
  else
    (r.1, name1,
      tr1 ++ [Call.OPAE_MSG f.msg,
        Call.printf "%-32s : %s\n" [Arg.str f.label, Arg.str "None"]])

/-- The function `print_sec_info(token)`. -/
def print_sec_info (env : Board) (token : Nat) (tr : List Call) : fpga_result × List Call :=
  let tr0 := tr ++ [Call.enter "print_sec_info"]
  let g := env.fpgaTokenGetObject tr0 token DFL_SEC_PMCI_GLOB
  let tr1 := tr0 ++ [Call.fpgaTokenGetObject token DFL_SEC_PMCI_GLOB]
  if g.1 ≠ FPGA_OK then (g.1, tr1 ++ [Call.OPAE_MSG "Failed to get token Object"])
  else
    let s := sec_fields.foldl (sec_read env token)
      (FPGA_OK, List.replicate env.SYSFS_PATH_MAX 0,
        tr1 ++ [Call.printf "********** SEC Info START ************ \n" []])
    let d := env.fpgaDestroyObject s.2.2 g.2
    let tr2 := s.2.2 ++ [Call.fpgaDestroyObject g.2]
    let e : fpga_result × List Call :=
      if d ≠ FPGA_OK then (d, tr2 ++ [Call.OPAE_MSG "Failed to Destroy Object"])
      else (s.1, tr2)
    (e.1, e.2 ++ [Call.printf "********** SEC Info END ************ \n" []])

/-! ## `libraries/libopae-c/init.c` -/

/-- The constant `PATH_MAX` of `linux/limits.h`. -/
def PATH_MAX : Nat := 4096

/-- The constant `CFG_PATH_MAX`. -/
def CFG_PATH_MAX : Nat := 64

/-- The table `_ase_home_cfg_files`. -/
def _ase_home_cfg_files : List (List Nat) :=
  [bytes "/.local/opae_ase.cfg", bytes "/.local/opae/opae_ase.cfg",
   bytes "/.config/opae/opae_ase.cfg"]

/-- The table `_ase_sys_cfg_files`. -/
def _ase_sys_cfg_files : List (List Nat) :=
  [bytes "/usr/local/etc/opae/opae_ase.cfg", bytes "/etc/opae/opae_ase.cfg"]

/-- A `FILE *` that `init.c` writes to: `stderr`, `stdout`, or the log file
opened under a name. -/
inductive Stream
  | stderr
  | stdout
  | file (name : List Nat)
  deriving DecidableEq, Repr

/-- What `init.c` does to the world outside it, in order: taking and
releasing `log_lock` (with the value the call returned), writing to a stream,
opening and closing the log file, freeing the configuration name, and
calling `fpgaInitialize` and `fpgaFinalize`. -/
inductive InitCall
  | pthread_mutex_lock (err : Int)
  | pthread_mutex_unlock (err : Int)
  | vfprintf (fp : Stream) (fmt : String)
  | fprintf_stderr (fmt : String)
  | opae_fopen (name : List Nat)
  | opae_fclose (fp : Stream)
  | opae_free
  | fpgaInitialize (cfg : Option (List Nat))
  | fpgaFinalize
  deriving DecidableEq, Repr

/-- The process `init.c` runs in: the environment variables, the home
directory of the user's passwd entry (`none` when `getpwuid` returns `NULL`),
the files that exist (`opae_canonicalize_file_name` yields the canonical name
of an existing file and `NULL` otherwise), the two paths and the log levels
fixed when the library is built, whether it is built with `LIBOPAE_DEBUG`,
the flag `initialized` of the plugin manager, and the library functions
whose outcome the file depends on; those that act on the world answer
depending on what happened before. -/
structure Process where
  getenv : String → Option (List Nat)
  pw_dir : Option (List Nat)
  opae_canonicalize_file_name : List Nat → Option (List Nat)
  OPAE_ASE_CFG_SRC_PATH : List Nat
  OPAE_ASE_CFG_INST_PATH : List Nat
  OPAE_LOG_ERROR : Int
  OPAE_LOG_DEBUG : Int
  LIBOPAE_DEBUG : Bool
  initialized : Int
  atoi : List Nat → Int
  opae_fopen : List InitCall → List Nat → Bool
  pthread_mutex_lock : List InitCall → Int
  pthread_mutex_unlock : List InitCall → Int
  fpgaInitialize : List InitCall → Option (List Nat) → fpga_result
  fpgaFinalize : List InitCall → fpga_result

/-- The file's static variables `g_loglevel` and `g_logfile` (`none` for
`NULL`). -/
structure Globals where
  g_loglevel : Int
  g_logfile : Option Stream
  deriving DecidableEq, Repr

/-- The function `opae_print(loglevel, fmt, ...)`: the calls made. -/
def opae_print (p : Process) (g : Globals) (loglevel : Int) (fmt : String)
    (tr : List InitCall) : List InitCall :=
  if loglevel > g.g_loglevel then tr
  else
    let fp : Stream :=
      if loglevel = p.OPAE_LOG_ERROR then Stream.stderr
      else
        match g.g_logfile with
        | none => Stream.stdout
        | some f => f
    let err := p.pthread_mutex_lock tr
    let tr1 := tr ++ [InitCall.pthread_mutex_lock err]
    let tr2 :=
      if err ≠ 0 then tr1 ++ [InitCall.fprintf_stderr "pthread_mutex_lock() failed: %s"]
      else tr1
    let tr3 := tr2 ++ [InitCall.vfprintf fp fmt]
    let err2 := p.pthread_mutex_unlock tr3
    let tr4 := tr3 ++ [InitCall.pthread_mutex_unlock err2]
    if err2 ≠ 0 then tr4 ++ [InitCall.fprintf_stderr "pthread_mutex_unlock() failed: %s"]
    else tr4

/-- The macro `OPAE_ERR` as `init.c` uses it: `opae_print` at
`OPAE_LOG_ERROR`. -/
def OPAE_ERR (p : Process) (g : Globals) (fmt : String) (tr : List InitCall) :
    List InitCall :=
  opae_print p g p.OPAE_LOG_ERROR fmt tr

/-- The C string a zero-initialised array of `size` bytes holds after
`snprintf(array, size, ...)` formatted the text `s` into it, and the value
`snprintf` returned. -/
def snprintf_str (size : Nat) (s : List Nat) : List Nat × Int :=
  (c_str (snprintf (List.replicate size 0) size s).1, (snprintf (List.replicate size 0) size s).2)

/-- The loop of `find_ase_cfg` over `_ase_home_cfg_files`, from the entries
still to try: the name found (`none` for `NULL`) and the calls made. -/
def find_home_cfg (p : Process) (g : Globals) (pw_dir : List Nat) :
    List (List Nat) → List InitCall → Option (List Nat) × List InitCall
  | [], tr => (none, tr)
  | f :: fs, tr =>
    let w := snprintf_str PATH_MAX (pw_dir ++ f)
    if w.2 < 0 then find_home_cfg p g pw_dir fs (OPAE_ERR p g "snprintf buffer overflow" tr)
    else
      match p.opae_canonicalize_file_name w.1 with
      | some file_name => (some file_name, tr)
      | none => find_home_cfg p g pw_dir fs tr

/-- The loop of `find_ase_cfg` over `_ase_sys_cfg_files`, from the entries
still to try. -/
def find_sys_cfg (p : Process) : List (List Nat) → Option (List Nat)
  | [] => none
  | f :: fs =>
    match p.opae_canonicalize_file_name (f.take (min f.length (CFG_PATH_MAX - 1))) with
    | some file_name => some file_name
    | none => find_sys_cfg p fs

/-- The function `find_ase_cfg()`: the name returned (`none` for `NULL`) and the
calls made. -/
def find_ase_cfg (p : Process) (g : Globals) (tr : List InitCall) :
    Option (List Nat) × List InitCall :=
  match p.opae_canonicalize_file_name p.OPAE_ASE_CFG_SRC_PATH with
  | some file_name => (some file_name, tr)
  | none =>
    match p.opae_canonicalize_file_name p.OPAE_ASE_CFG_INST_PATH with
    | some file_name => (some file_name, tr)
    | none =>
      let third : Option (List Nat) × List InitCall :=
        match p.getenv "OPAE_PLATFORM_ROOT" with
        | none => (none, tr)
        | some opae_path =>
          let w := snprintf_str PATH_MAX (opae_path ++ bytes "/share/opae/ase/opae_ase.cfg")
          if w.2 < 0 then (none, OPAE_ERR p g "snprintf buffer overflow" tr)
          else (p.opae_canonicalize_file_name w.1, tr)
      match third.1 with
      | some file_name => (some file_name, third.2)
      | none =>
        let fourth : Option (List Nat) × List InitCall :=
          match p.pw_dir with
          | none => (none, third.2)
          | some dir => find_home_cfg p g dir _ase_home_cfg_files third.2
        match fourth.1 with
        | some file_name => (some file_name, fourth.2)
        | none => (find_sys_cfg p _ase_sys_cfg_files, fourth.2)

/-- The part of `opae_init()` that sets up logging, from the read of
`LIBOPAE_LOG` to `g_logfile = stdout`: the static variables and the calls
afterwards. -/
def opae_init_log (p : Process) (g0 : Globals) (tr : List InitCall) :
    Globals × List InitCall :=
  let s1 : Globals × List InitCall :=
    match p.getenv "LIBOPAE_LOG" with
    | none => (g0, tr)
    | some s =>
      ({ g0 with g_loglevel := p.atoi s },
        if !p.LIBOPAE_DEBUG && decide (p.atoi s ≥ p.OPAE_LOG_DEBUG) then
          tr ++ [InitCall.fprintf_stderr
            "WARNING: Environment variable LIBOPAE_LOG is set to output debug\nmessages, but libopae-c was not built with debug information.\n"]
        else tr)
  let s2 : Globals × List InitCall :=
    match p.getenv "LIBOPAE_LOGFILE" with
    | none => s1
    | some s =>
      if s.head? ≠ some 47 ∨ s.take 5 = bytes "/tmp/" then
        if p.opae_fopen s1.2 s then
          ({ s1.1 with g_logfile := some (Stream.file s) }, s1.2 ++ [InitCall.opae_fopen s])
        else
          (s1.1,
            s1.2 ++ [InitCall.opae_fopen s,
              InitCall.fprintf_stderr "Could not open log file for writing: %s. ",
              InitCall.fprintf_stderr "Error is: %s\n"])
      else s1
  (if s2.1.g_logfile = none then { s2.1 with g_logfile := some Stream.stdout } else s2.1,
    s2.2)

/-- The library constructor `opae_init()`: the static variables and the calls
afterwards. -/
def opae_init (p : Process) (g : Globals) (tr : List InitCall) : Globals × List InitCall :=
  let g0 : Globals := { g with g_logfile := none }
  if p.initialized ≠ 0 then (g0, tr)
  else
    let s := opae_init_log p g0 tr
    match p.getenv "WITH_ASE" with
    | some _ =>
      let c := find_ase_cfg p s.1 s.2
      match c.1 with
      | none =>
        (s.1, OPAE_ERR p s.1 "WITH_ASE was set, but could not find opae_ase.cfg file" c.2)
      | some cfg_path =>
        let res := p.fpgaInitialize c.2 (some cfg_path)
        let tr3 := c.2 ++ [InitCall.fpgaInitialize (some cfg_path)]
        let tr4 := if res ≠ FPGA_OK then OPAE_ERR p s.1 "fpgaInitialize: %s" tr3 else tr3
        (s.1, tr4 ++ [InitCall.opae_free])
    | none =>
      if p.getenv "OPAE_EXPLICIT_INITIALIZE" = none then
        (s.1, s.2 ++ [InitCall.fpgaInitialize none])
      else (s.1, s.2)

/-- The library destructor `opae_release()`: the static variables and the
calls afterwards. -/
def opae_release (p : Process) (g : Globals) (tr : List InitCall) :
    Globals × List InitCall :=
  let r : fpga_result × List InitCall :=
    if p.getenv "OPAE_EXPLICIT_INITIALIZE" = none then
      (p.fpgaFinalize tr, tr ++ [InitCall.fpgaFinalize])
    else (FPGA_OK, tr)
  let tr1 := if r.1 ≠ FPGA_OK then OPAE_ERR p g "fpgaFinalize: %s" r.2 else r.2
  let tr2 :=
    match g.g_logfile with
    | none => tr1
    | some fp => if fp ≠ Stream.stdout then tr1 ++ [InitCall.opae_fclose fp] else tr1
  ({ g with g_logfile := none }, tr2)

/-- Whether every message written by `vfprintf` in the calls `tr` is written
while `log_lock` is held; `held` is the number of times the lock is held
before them (the mutex is recursive). A `pthread_mutex_lock` that returns 0
takes the lock, a `pthread_mutex_unlock` that returns 0 gives it back. -/
def writes_under_lock : Nat → List InitCall → Bool
  | _, [] => true
  | held, InitCall.pthread_mutex_lock err :: tr =>
    writes_under_lock (if err = 0 then held + 1 else held) tr
  | held, InitCall.pthread_mutex_unlock err :: tr =>
    writes_under_lock (if err = 0 then held - 1 else held) tr
  | held, InitCall.vfprintf _ _ :: tr => decide (0 < held) && writes_under_lock held tr
  | held, _ :: tr => writes_under_lock held tr

/-- The messages written by `vfprintf` in the calls `tr`, with their
streams. -/
def messages_written (tr : List InitCall) : List (Stream × String) :=
  tr.filterMap fun c =>
    match c with
    | InitCall.vfprintf fp fmt => some (fp, fmt)
    | _ => none

/-- Whether `fpgaInitialize` is called in the calls `tr`. -/
def calls_fpgaInitialize (tr : List InitCall) : Bool :=
  tr.any fun c =>
    match c with
    | InitCall.fpgaInitialize _ => true
    | _ => false

/-- Whether `fpgaFinalize` is called in the calls `tr`. -/
def calls_fpgaFinalize (tr : List InitCall) : Bool :=
  tr.any fun c =>
    match c with
    | InitCall.fpgaFinalize => true
    | _ => false

/-- The paths `find_ase_cfg` passes to `opae_canonicalize_file_name`, in the
order in which it does when none of them names an existing file: the two
build-time paths, the contents of `cfg_path` after the `snprintf` (when
`OPAE_PLATFORM_ROOT` is set), the contents of `home_cfg` after each
`snprintf` (when the passwd entry exists), and the contents of `home_cfg`
after each `memcpy`. -/
def ase_cfg_paths (p : Process) : List (List Nat) :=
  [p.OPAE_ASE_CFG_SRC_PATH, p.OPAE_ASE_CFG_INST_PATH]
    ++ (match p.getenv "OPAE_PLATFORM_ROOT" with
        | none => []
        | some opae_path =>
          [(snprintf_str PATH_MAX (opae_path ++ bytes "/share/opae/ase/opae_ase.cfg")).1])
    ++ (match p.pw_dir with
        | none => []
        | some dir =>
          _ase_home_cfg_files.map fun f => (snprintf_str PATH_MAX (dir ++ f)).1)
    ++ _ase_sys_cfg_files.map fun f => f.take (min f.length (CFG_PATH_MAX - 1))

/-- The candidates of the specification, in its priority order: the OPAE
source path, the OPAE installation path,
`$OPAE_PLATFORM_ROOT/share/opae/ase/opae_ase.cfg` when that variable is set,
the three files under the home directory when the passwd entry exists, and
the two system files. -/
def ase_cfg_candidates (p : Process) : List (List Nat) :=
  [p.OPAE_ASE_CFG_SRC_PATH, p.OPAE_ASE_CFG_INST_PATH]
    ++ (match p.getenv "OPAE_PLATFORM_ROOT" with
        | none => []
        | some opae_path => [opae_path ++ bytes "/share/opae/ase/opae_ase.cfg"])
    ++ (match p.pw_dir with
        | none => []
        | some dir => _ase_home_cfg_files.map fun f => dir ++ f)
    ++ _ase_sys_cfg_files

/-- The number of port lines with a named profile among the calls `tr`: the
calls of `printf` with the format of the `UP` and `DOWN` lines. -/
def named_port_lines (tr : List Call) : Nat :=
  tr.countP fun c =>
    match c with
    | Call.printf fmt _ => fmt == "Port%-28d :%-12s %s\n"
    | _ => false

/-- The ports for which a line is printed among the calls `tr`, in order: the
first argument of each `printf` with one of the two port formats. -/
def port_lines (tr : List Call) : List Nat :=
  tr.filterMap fun c =>
    match c with
    | Call.printf fmt (Arg.int i :: _) =>
      if fmt = "Port%-28d :%-12s %s\n" ∨ fmt = "Port%-28d :%s\n" then some i else none
    | _ => none

/-- The log pointers read by `bel_read` among the calls `tr`, in order. -/
def events_read (tr : List Call) : List Nat :=
  tr.filterMap fun c =>
    match c with
    | Call.bel_read _ ptr => some ptr
    | _ => none

/-- The boot numbers under which events are printed among the calls `tr`, in
order: the index given to `bel_timespan` and the number printed by the
`Boot` lines. -/
def boot_labels (tr : List Call) : List Nat :=
  tr.filterMap fun c =>
    match c with
    | Call.bel_timespan _ idx => some idx
    | Call.printf fmt [Arg.int i] =>
      if fmt = "Boot %i\n" ∨ fmt = "Boot %i: Empty\n" then some i else none
    | _ => none

/-- The results `pthread_mutex_lock` can give on `log_lock` when the calling
thread holds it `held` times. The mutex is recursive
(`PTHREAD_RECURSIVE_MUTEX_INITIALIZER_NP`): the call returns 0 once the
thread holds the mutex, and its one error, `EAGAIN`, is given only when the
thread holds the mutex already and the recursion count cannot grow. -/
def lock_result (held : Nat) (err : Int) : Bool := decide (err = 0) || decide (0 < held)

/-! ## Concrete instances -/

/-- A device in the shape of the test platforms: every token exposes
`ports_num`, `power_state`, the container `power` with `control` and
`runtime_status`, and the container `errors` with `errors`. -/
def mock_device : Device :=
  { tree := fun _ => Node.container
      [(bytes "ports_num", Node.attribute (bytes "1\n")),
       (bytes "power_state", Node.attribute (bytes "0x0\n")),
       (bytes "power", Node.container
          [(bytes "control", Node.attribute (bytes "auto\n")),
           (bytes "runtime_status", Node.attribute (bytes "active\n"))]),
       (bytes "errors", Node.container [(bytes "errors", Node.attribute (bytes "0x0\n"))])]
    glob_match := fun pattern name => pattern == name }

/-- A device every token of which exposes an attribute under each of the
names "a", "err\0rs", the empty name and a name of 256 bytes, besides
`ports_num`: whatever is looked up under one of these names and not found has
been turned down by the validation of the name, not by the lookup. -/
def named_device : Device :=
  { tree := fun _ => Node.container
      [(bytes "ports_num", Node.attribute (bytes "1\n")),
       (bytes "a", Node.attribute (bytes "1\n")),
       (bytes "err\x00rs", Node.attribute (bytes "0x0\n")),
       ([], Node.attribute (bytes "0x0\n")),
       (List.replicate 256 97, Node.attribute (bytes "0x0\n"))]
    glob_match := fun pattern name => pattern == name }

/-- The runtime after token 0 has been opened: handle 0. -/
def mock_runtime : Runtime := (fpgaOpen Runtime.init 0 FPGA_OK).2.2

/-- The runtime after `power_state` has been looked up through handle 0:
object 2. -/
def mock_objects : Runtime :=
  (fpgaHandleGetObject mock_device mock_runtime (some 0) (bytes "power_state") FLAGS_NONE
    true).2.2

/-- The runtime after the container `power` has been looked up through
handle 0: object 2. -/
def mock_power : Runtime :=
  (fpgaHandleGetObject mock_device mock_runtime (some 0) (bytes "power") FLAGS_NONE
    true).2.2

/-- The plugin object behind object 2 of `mock_power`. -/
def mock_power_dir : PluginObject :=
  ⟨0, some 0, ⟨[bytes "power"], FPGA_OBJECT_CONTAINER, []⟩, []⟩

/-- The node `power` of the mock device. -/
def mock_power_node : Node :=
  Node.container
    [(bytes "control", Node.attribute (bytes "auto\n")),
     (bytes "runtime_status", Node.attribute (bytes "active\n"))]

/-- The plugin object behind object 2 of `mock_objects`. -/
def mock_power_state : PluginObject :=
  ⟨0, some 0, ⟨[bytes "power_state"], FPGA_OBJECT_ATTRIBUTE, bytes "0x0\n"⟩, []⟩

/-- A board whose token 0 answers every `read_sysfs` with the text
`0x1000001` and whose other tokens have no such attribute; its event log has
four slots. -/
def mock_board : Board :=
  { SYSFS_PATH_MAX := 256
    bel_ptr_count := 4
    bel_ptr_next := fun ptr => (ptr + 1) % 4
    bel_empty := fun e => e.isEmpty
    read_sysfs := fun _ token _ _ =>
      if token = 0 then (FPGA_OK, bytes "0x1000001") else (FPGA_NOT_FOUND, [])
    fpgaTokenGetObject := fun _ token _ =>
      if token = 0 then (FPGA_OK, 1) else (FPGA_NOT_FOUND, 0)
    fpgaObjectRead := fun _ _ _ _ => (FPGA_OK, [])
    fpgaDestroyObject := fun _ _ => FPGA_OK
    opae_malloc := fun _ size => some (List.replicate size 0)
    reformat_bom_info := fun buf _ _ => (FPGA_OK, buf)
    bel_ptr := fun _ _ => (FPGA_OK, 0)
    bel_read := fun _ _ ptr => (FPGA_OK, [ptr]) }

/-- A board like `mock_board` on which the attribute `dfl*/bmcfw_version`
cannot be read (`FPGA_NOT_FOUND`) and every other attribute holds the text
`zz`, which is not a number. -/
def fw_board : Board :=
  { mock_board with
    read_sysfs := fun _ _ path _ =>
      if path = DFL_SYSFS_BMCFW_VER then (FPGA_NOT_FOUND, []) else (FPGA_OK, bytes "zz") }

/-- A board like `mock_board` on which the read of `bmc_root_entry_hash`
fails with `FPGA_NOT_FOUND`, the read of `sr_sdm_root_entry_hash` fails with
`FPGA_EXCEPTION`, and every other attribute holds the text `0x0`. -/
def sec_board : Board :=
  { mock_board with
    read_sysfs := fun _ _ path _ =>
      if path = "*dfl*/**/security/bmc_root_entry_hash" then (FPGA_NOT_FOUND, [])
      else if path = "*dfl*/**/security/sr_sdm_root_entry_hash" then (FPGA_EXCEPTION, [])
      else (FPGA_OK, bytes "0x0") }

/-- A board like `sec_board` on which `fpgaDestroyObject` fails with
`FPGA_BUSY` as well. -/
def sec_busy_board : Board :=
  { sec_board with fpgaDestroyObject := fun _ _ => FPGA_BUSY }

/-- A board like `mock_board` on which the read of the BOM object fails with
`FPGA_EXCEPTION` and `fpgaDestroyObject` fails with `FPGA_BUSY`. -/
def bom_board : Board :=
  { mock_board with
    fpgaObjectRead := fun _ _ _ _ => (FPGA_EXCEPTION, [])
    fpgaDestroyObject := fun _ _ => FPGA_BUSY }

/-- A board like `mock_board` on which `bel_ptr` fails with
`FPGA_EXCEPTION`. -/
def bel_ptr_board : Board :=
  { mock_board with bel_ptr := fun _ _ => (FPGA_EXCEPTION, 0) }

/-- A board like `mock_board` on which `bel_read` of slot 1 fails with
`FPGA_EXCEPTION`. -/
def bel_read_board : Board :=
  { mock_board with
    bel_read := fun _ _ ptr => if ptr = 1 then (FPGA_EXCEPTION, []) else (FPGA_OK, [ptr]) }

/-- A process with no environment variable set, the home directory `/root`,
the one configuration file `/etc/opae/opae_ase.cfg`, the log levels of
`opae/log.h`, and library calls that all succeed. -/
def mock_process : Process :=
  { getenv := fun _ => none
    pw_dir := some (bytes "/root")
    opae_canonicalize_file_name := fun path =>
      if path = bytes "/etc/opae/opae_ase.cfg" then some path else none
    OPAE_ASE_CFG_SRC_PATH := bytes "/build/opae-sdk/ase/cfg/opae_ase.cfg"
    OPAE_ASE_CFG_INST_PATH := bytes "/usr/local/share/opae/ase/opae_ase.cfg"
    OPAE_LOG_ERROR := 1
    OPAE_LOG_DEBUG := 4
    LIBOPAE_DEBUG := false
    initialized := 0
    atoi := fun _ => 0
    opae_fopen := fun _ _ => true
    pthread_mutex_lock := fun _ => 0
    pthread_mutex_unlock := fun _ => 0
    fpgaInitialize := fun _ _ => FPGA_OK
    fpgaFinalize := fun _ => FPGA_OK }

/-- The static variables as `init.c` initialises them: the log level
`OPAE_LOG_ERROR` and no log file. -/
def mock_globals : Globals := ⟨1, none⟩

/-- A process like `mock_process` in which both `WITH_ASE` and
`OPAE_EXPLICIT_INITIALIZE` are set to `1`. -/
def ase_explicit_process : Process :=
  { mock_process with
    getenv := fun name =>
      if name = "WITH_ASE" ∨ name = "OPAE_EXPLICIT_INITIALIZE" then some (bytes "1")
      else none }

/-- A process like `mock_process` in which `WITH_ASE` is set to `1` and no
configuration file exists. -/
def ase_no_cfg_process : Process :=
  { mock_process with
    getenv := fun name => if name = "WITH_ASE" then some (bytes "1") else none
    pw_dir := none
    opae_canonicalize_file_name := fun _ => none }

/-- A path of `PATH_MAX - 1` bytes that names the file `/etc/passwd`: 4085
slashes and `etc/passwd`. -/
def long_root : List Nat := List.replicate 4085 47 ++ bytes "etc/passwd"

/-- A process like `mock_process` in which `OPAE_PLATFORM_ROOT` is set to
`long_root` and the only file that exists among the paths tried is the one
`long_root` names, `/etc/passwd`; no configuration file exists. -/
def long_root_process : Process :=
  { mock_process with
    getenv := fun name => if name = "OPAE_PLATFORM_ROOT" then some long_root else none
    opae_canonicalize_file_name := fun path =>
      if path = long_root then some (bytes "/etc/passwd") else none }

/-- A register image with DFH feature revision 0, HSSI version 2.1, four
ports, and ports 0 to 3 enabled: port 0 has profile code 40, port 1 code 21
(25GbE), port 2 code 34 and port 3 code 20 (10GbE). In the port status
register `txplllocked` is 1, `txlanestable` is 3 and `rxpcsready` is 1. -/
def hssi_image (off : Nat) : Nat :=
  if off = 0x0 then 0x15
  else if off = 0x9 then 1
  else if off = 0xA then 2
  else if off = 0xC then 0xC8
  else if off = 0xD then 0x03
  else if off = 0x10 then 40
  else if off = 0x14 then 21
  else if off = 0x18 then 34
  else if off = 0x1C then 20
  else if off = 0x818 then 1
  else if off = 0x81A then 3
  else if off = 0x81C then 1
  else 0

/-! # Theorems -/

/-! ## Lemmas on the tables -/

@[simp] theorem log_next (st : Runtime) (c : PluginCall) : (st.log c).next = st.next := rfl
@[simp] theorem log_handles (st : Runtime) (c : PluginCall) : (st.log c).handles = st.handles := rfl
@[simp] theorem log_wrapped (st : Runtime) (c : PluginCall) : (st.log c).wrapped = st.wrapped := rfl
@[simp] theorem log_plugin_objects (st : Runtime) (c : PluginCall) :
    (st.log c).plugin_objects = st.plugin_objects := rfl
@[simp] theorem log_calls (st : Runtime) (c : PluginCall) :
    (st.log c).calls = st.calls ++ [c] := rfl
@[simp] theorem log_object (st : Runtime) (c : PluginCall) (o : Option Nat) :
    (st.log c).object o = st.object o := rfl
@[simp] theorem log_handle_token (st : Runtime) (c : PluginCall) (h : Option Nat) :
    (st.log c).handle_token h = st.handle_token h := rfl


theorem valid_name_false_of_malformed (name : Name)
    (h : 0 ∈ name ∨ MAX_NAME_LEN < name.length ∨ name.length < MIN_NAME_LEN) :
    valid_name name = false := by
  unfold valid_name
  rcases h with h | h | h
  · simp [h]
  · have : ¬ name.length ≤ MAX_NAME_LEN := by omega
    simp [this]
  · have : ¬ MIN_NAME_LEN ≤ name.length := by omega
    simp [this]

theorem plugin_get_object_malformed (d : Device) (token : Nat) (handle : Option Nat)
    (base : List Name) (name : Name) (flags : obj_flags)
    (h : valid_name name = false) :
    plugin_get_object d token handle base name flags = Except.error FPGA_NOT_FOUND := by
  simp [plugin_get_object, h]

/-- C1, amended: a malformed lookup name (an embedded NUL, more than 255
bytes, or fewer bytes than the minimum valid length, which is one: the empty
name) makes `fpgaTokenGetObject` and `fpgaHandleGetObject` (on an open handle)
and `fpgaObjectGetObject` (on a live parent) called with flags 0 return
`FPGA_NOT_FOUND`, whatever the device tree holds and whether or not an
allocation would succeed; no object is handed out and no object table
changes. Every other name is valid, a one-character name included, and is
looked up: through a token or an open handle it yields `FPGA_NOT_FOUND` when
it designates no node of the token's tree and `FPGA_OK` when it designates one
and the allocation succeeds. -/
theorem malformed_name_not_found (d : Device) (st : Runtime) (name : Name) (alloc_ok : Bool) :
    ((0 ∈ name ∨ MAX_NAME_LEN < name.length ∨ name.length < MIN_NAME_LEN) →
      (∀ token, (fpgaTokenGetObject d st token name FLAGS_NONE alloc_ok).1 = FPGA_NOT_FOUND
        ∧ (fpgaTokenGetObject d st token name FLAGS_NONE alloc_ok).2.1 = none
        ∧ (fpgaTokenGetObject d st token name FLAGS_NONE alloc_ok).2.2.wrapped = st.wrapped
        ∧ (fpgaTokenGetObject d st token name FLAGS_NONE alloc_ok).2.2.plugin_objects
            = st.plugin_objects)
      ∧ (∀ h token, st.handle_token h = some token →
        (fpgaHandleGetObject d st h name FLAGS_NONE alloc_ok).1 = FPGA_NOT_FOUND
        ∧ (fpgaHandleGetObject d st h name FLAGS_NONE alloc_ok).2.1 = none
        ∧ (fpgaHandleGetObject d st h name FLAGS_NONE alloc_ok).2.2.wrapped = st.wrapped
        ∧ (fpgaHandleGetObject d st h name FLAGS_NONE alloc_ok).2.2.plugin_objects
            = st.plugin_objects)
      ∧ (∀ parent p, st.object parent = some p →
        (fpgaObjectGetObject d st parent name FLAGS_NONE alloc_ok).1 = FPGA_NOT_FOUND
        ∧ (fpgaObjectGetObject d st parent name FLAGS_NONE alloc_ok).2.1 = none
        ∧ (fpgaObjectGetObject d st parent name FLAGS_NONE alloc_ok).2.2.wrapped = st.wrapped
        ∧ (fpgaObjectGetObject d st parent name FLAGS_NONE alloc_ok).2.2.plugin_objects
            = st.plugin_objects))
    ∧ (name.length < MIN_NAME_LEN ↔ name = [])
    ∧ (valid_name name = true
        ↔ ¬ (0 ∈ name ∨ MAX_NAME_LEN < name.length ∨ name.length < MIN_NAME_LEN))
    ∧ (∀ token, resolve d false (segments name) (d.tree token) = none →
        (fpgaTokenGetObject d st token name FLAGS_NONE alloc_ok).1 = FPGA_NOT_FOUND
        ∧ ∀ h, st.handle_token h = some token →
          (fpgaHandleGetObject d st h name FLAGS_NONE alloc_ok).1 = FPGA_NOT_FOUND)
    ∧ (valid_name name = true →
        ∀ token r, resolve d false (segments name) (d.tree token) = some r →
          (fpgaTokenGetObject d st token name FLAGS_NONE true).1 = FPGA_OK
          ∧ ∀ h, st.handle_token h = some token →
            (fpgaHandleGetObject d st h name FLAGS_NONE true).1 = FPGA_OK) := by
  refine ⟨?_, ?_, ?_, ?_, ?_⟩
  · intro hbad
    have hv := valid_name_false_of_malformed name hbad
    refine ⟨?_, ?_, ?_⟩
    · intro token
      simp [fpgaTokenGetObject, plugin_get_object_malformed _ _ _ _ _ _ hv]
    · intro h token hh
      simp [fpgaHandleGetObject, hh, plugin_get_object_malformed _ _ _ _ _ _ hv]
    · intro parent p hp
      simp [fpgaObjectGetObject, hp, plugin_get_object_malformed _ _ _ _ _ _ hv]
  · simp only [MIN_NAME_LEN, Nat.lt_one_iff, List.length_eq_zero]
  · constructor
    · intro hv hbad
      rw [valid_name_false_of_malformed name hbad] at hv
      cases hv
    · intro hgood
      have h1 : ¬ 0 ∈ name := fun h => hgood (Or.inl h)
      have h2 : name.length ≤ MAX_NAME_LEN := by
        by_contra h
        exact hgood (Or.inr (Or.inl (by omega)))
      have h3 : MIN_NAME_LEN ≤ name.length := by
        by_contra h
        exact hgood (Or.inr (Or.inr (by omega)))
      simp [valid_name, h1, h2, h3]
  · intro token hmiss
    have hp : ∀ handle, plugin_get_object d token handle [] name FLAGS_NONE
        = Except.error FPGA_NOT_FOUND := by
      intro handle
      have hg : FLAGS_NONE.glob = false := rfl
      have hnil : resolve d false [] (d.tree token) = some ([], d.tree token) := rfl
      simp only [plugin_get_object, hnil, hg, hmiss]
      split <;> rfl
    refine ⟨?_, ?_⟩
    · simp [fpgaTokenGetObject, hp]
    · intro h hh
      simp [fpgaHandleGetObject, hh, hp]
  · intro hv token r hres
    have hg : FLAGS_NONE.glob = false := rfl
    have hnil : resolve d false [] (d.tree token) = some ([], d.tree token) := rfl
    refine ⟨?_, ?_⟩
    · simp [fpgaTokenGetObject, plugin_get_object, hv, hnil, hg, hres, wrap_object]
    · intro h hh
      simp [fpgaHandleGetObject, hh, plugin_get_object, hv, hnil, hg, hres, wrap_object]

/-- Counterexample for C1: on `named_device`, which exposes an attribute
named "a", the one-character name "a" is valid and is looked up with `FPGA_OK`
through token 0 and through the open handle 0, while on `mock_device`, which
exposes no such attribute, the same calls return `FPGA_NOT_FOUND`. -/
theorem one_character_name_is_looked_up :
    valid_name (bytes "a") = true
    ∧ (fpgaTokenGetObject named_device mock_runtime 0 (bytes "a") FLAGS_NONE true).1
      = FPGA_OK
    ∧ (fpgaHandleGetObject named_device mock_runtime (some 0) (bytes "a") FLAGS_NONE
      true).1 = FPGA_OK
    ∧ (fpgaTokenGetObject mock_device mock_runtime 0 (bytes "a") FLAGS_NONE true).1
      = FPGA_NOT_FOUND
    ∧ (fpgaHandleGetObject mock_device mock_runtime (some 0) (bytes "a") FLAGS_NONE
      true).1 = FPGA_NOT_FOUND := by
  decide


theorem lookup_filter_key {β : Type} (p : Nat → Bool) (k : Nat) (l : List (Nat × β)) :
    (l.filter (fun e => p e.1)).lookup k = if p k then l.lookup k else none := by
  induction l with
  | nil => simp
  | cons e l ih =>
    obtain ⟨a, b⟩ := e
    by_cases hp : p a = true <;> by_cases hk : k = a
    · subst hk
      simp only [List.filter_cons, hp, if_true, List.lookup_cons, beq_self_eq_true]
    · have hk2 : (k == a) = false := by simpa using hk
      simp only [List.filter_cons, hp, if_true, List.lookup_cons, hk2, ih]
    · subst hk
      simp only [List.filter_cons, hp, Bool.false_eq_true, if_false, ih]
    · have hk2 : (k == a) = false := by simpa using hk
      simp only [List.filter_cons, hp, Bool.false_eq_true, if_false, List.lookup_cons, hk2, ih]

theorem lookup_store {β : Type} (pid : Nat) (po : β) (k : Nat) (l : List (Nat × β)) :
    (l.map (fun e => if e.1 = pid then (pid, po) else e)).lookup k
      = if k = pid then (l.lookup k).map (fun _ => po) else l.lookup k := by
  induction l with
  | nil => simp
  | cons e l ih =>
    obtain ⟨a, b⟩ := e
    by_cases ha : a = pid
    · subst ha
      by_cases hk : k = a
      · subst hk
        simp
      · have hk2 : (k == a) = false := by simpa using hk
        simp only [List.map_cons, if_true, List.lookup_cons, hk2, ih, hk, if_false]
    · by_cases hk : k = a
      · subst hk
        simp [ha]
      · have hk2 : (k == a) = false := by simpa using hk
        simp only [List.map_cons, ha, if_false, List.lookup_cons, hk2, ih]

/-! ## Frames: what operations leave untouched -/

theorem Frame.refl (st : Runtime) : Frame st st :=
  ⟨le_refl _, fun _ _ => Or.inr rfl, fun _ _ => Or.inr rfl, fun _ _ => Or.inr rfl⟩

theorem Frame.trans {a b c : Runtime} (h1 : Frame a b) (h2 : Frame b c) : Frame a c := by
  refine ⟨le_trans h1.next_le h2.next_le, ?_, ?_, ?_⟩
  · intro k hk
    rcases h2.handles k (lt_of_lt_of_le hk h1.next_le) with h | h
    · exact Or.inl h
    · rw [h]; exact h1.handles k hk
  · intro k hk
    rcases h2.wrapped k (lt_of_lt_of_le hk h1.next_le) with h | h
    · exact Or.inl h
    · rw [h]; exact h1.wrapped k hk
  · intro k hk
    rcases h2.types k (lt_of_lt_of_le hk h1.next_le) with h | h
    · exact Or.inl h
    · rw [h]; exact h1.types k hk

theorem frame_log (st : Runtime) (c : PluginCall) : Frame st (st.log c) :=
  ⟨le_refl _, fun _ _ => Or.inr rfl, fun _ _ => Or.inr rfl, fun _ _ => Or.inr rfl⟩

theorem lookup_cons_fresh {β : Type} (k n : Nat) (b : β) (l : List (Nat × β)) (h : k < n) :
    ((n, b) :: l).lookup k = l.lookup k := by
  have : (k == n) = false := by
    simp only [beq_eq_false_iff_ne]
    omega
  simp [List.lookup_cons, this]

theorem frame_wrap (st : Runtime) (po : PluginObject) (a : Bool) :
    Frame st (wrap_object st po a).2.2 := by
  unfold wrap_object
  split
  · refine ⟨by simp, fun _ _ => Or.inr rfl, ?_, ?_⟩
    · intro k hk
      right
      exact lookup_cons_fresh k _ _ _ (by omega)
    · intro k hk
      right
      simp only [Runtime.type_of]
      rw [lookup_cons_fresh k _ _ _ hk]
  · exact ⟨by simp, fun _ _ => Or.inr rfl, fun _ _ => Or.inr rfl, fun _ _ => Or.inr rfl⟩

theorem frame_open (st : Runtime) (token : Nat) (r : fpga_result) :
    Frame st (fpgaOpen st token r).2.2 := by
  unfold fpgaOpen
  split
  · refine ⟨by simp, ?_, fun _ _ => Or.inr rfl, fun _ _ => Or.inr rfl⟩
    intro k hk
    right
    exact lookup_cons_fresh k _ _ _ hk
  · exact frame_log _ _

theorem lookup_filter_gone {β : Type} (p : Nat → Bool) (k : Nat) (l : List (Nat × β)) :
    (l.filter (fun e => p e.1)).lookup k = none ∨
      (l.filter (fun e => p e.1)).lookup k = l.lookup k := by
  rw [lookup_filter_key]
  split
  · exact Or.inr rfl
  · exact Or.inl rfl

theorem frame_close (st : Runtime) (h : Option Nat) (r : fpga_result) :
    Frame st (fpgaClose st h r).2 := by
  unfold fpgaClose
  split
  · exact Frame.refl _
  · split
    · exact Frame.refl _
    · refine ⟨le_refl _, ?_, ?_, ?_⟩
      · intro k _
        exact lookup_filter_gone (fun a => a != _) k _
      · intro k _
        exact lookup_filter_gone (fun a => !(match st.object (some a) with
          | some p => decide (p.2.handle = some _)
          | none => false)) k _
      · intro k _
        simp only [Runtime.type_of]
        rcases lookup_filter_gone (fun a => !(match st.plugin_objects.lookup a with
          | some po => decide (po.handle = some _)
          | none => false)) k st.plugin_objects with hh | hh
        · left
          rw [hh]
          rfl
        · right
          rw [hh]

theorem frame_destroy (st : Runtime) (o : Option Nat) :
    Frame st (fpgaDestroyObject st o).2 := by
  unfold fpgaDestroyObject
  split
  · exact Frame.refl _
  · split
    · exact Frame.refl _
    · refine ⟨le_refl _, fun _ _ => Or.inr rfl, ?_, ?_⟩
      · intro k _
        exact lookup_filter_gone (fun a => a != _) k _
      · intro k _
        simp only [Runtime.type_of]
        rcases lookup_filter_gone (fun a => a != _) k st.plugin_objects with hh | hh
        · left
          rw [hh]
          rfl
        · right
          rw [hh]

theorem resync_type (d : Device) (po po2 : PluginObject) (h : resync d po = some po2) :
    po2.snap.type = po.snap.type := by
  unfold resync at h
  split at h
  · simp at h
  · split at h
    · rename_i ht
      simp only [Option.some.injEq] at h
      subst h
      simpa [snapshot] using ht
    · simp at h

theorem frame_sync (d : Device) (st : Runtime) (pid : Nat) (po : PluginObject) (b : Bool)
    (s : PluginObject × Runtime) (hlive : st.plugin_objects.lookup pid = some po)
    (h : sync_object d st (pid, po) b = some s) : Frame st s.2 := by
  unfold sync_object at h
  split at h
  · split at h
    · simp at h
    · rename_i po2 hr
      simp only [Option.some.injEq] at h
      subst h
      refine ⟨le_refl _, fun _ _ => Or.inr rfl, fun _ _ => Or.inr rfl, ?_⟩
      intro k _
      right
      simp only [Runtime.type_of, Runtime.store]
      rw [lookup_store]
      split
      · rename_i hk
        subst hk
        simp [hlive, resync_type d po po2 hr]
      · rfl
  · simp only [Option.some.injEq] at h
    subst h
    exact Frame.refl _

theorem object_some (st : Runtime) (o : Option Nat) (p : Nat × PluginObject)
    (h : st.object o = some p) :
    ∃ id, o = some id ∧ st.wrapped.lookup id = some p.1 ∧
      st.plugin_objects.lookup p.1 = some p.2 := by
  unfold Runtime.object at h
  split at h
  · simp at h
  · rename_i id
    split at h
    · simp at h
    · rename_i pid hw
      split at h
      · simp at h
      · rename_i po hp
        simp only [Option.some.injEq] at h
        subst h
        exact ⟨id, rfl, hw, hp⟩

theorem object_of_lookup (st : Runtime) (id pid : Nat) (po : PluginObject)
    (hw : st.wrapped.lookup id = some pid) (hp : st.plugin_objects.lookup pid = some po) :
    st.object (some id) = some (pid, po) := by
  simp [Runtime.object, hw, hp]

theorem frame_get_size (d : Device) (st : Runtime) (o : Option Nat) (flags : obj_flags) :
    Frame st (fpgaObjectGetSize d st o flags).2.2 := by
  unfold fpgaObjectGetSize
  split
  · exact Frame.refl _
  · rename_i p hp
    obtain ⟨id, _, _, hl⟩ := object_some st o p hp
    split
    · exact Frame.refl _
    · rename_i s hs
      have := frame_sync d st p.1 p.2 flags.sync s hl hs
      split <;> exact this

theorem frame_read (d : Device) (st : Runtime) (o : Option Nat) (offset len : Nat)
    (flags : obj_flags) : Frame st (fpgaObjectRead d st o offset len flags).2.2 := by
  unfold fpgaObjectRead
  split
  · exact Frame.refl _
  · rename_i p hp
    obtain ⟨id, _, _, hl⟩ := object_some st o p hp
    split
    · exact Frame.refl _
    · rename_i s hs
      have := frame_sync d st p.1 p.2 flags.sync s hl hs
      split
      · exact this
      · split <;> exact this

theorem step_frame (st : Runtime) (d : Device) (op : Op) : Frame st (step st d op) := by
  cases op with
  | open_ token r => exact frame_open st token r
  | close h r => exact frame_close st h r
  | token_get_object token name flags a =>
    simp only [step, fpgaTokenGetObject]
    split
    · exact frame_log _ _
    · exact (frame_log _ _).trans (frame_wrap _ _ _)
  | handle_get_object h name flags a =>
    simp only [step, fpgaHandleGetObject]
    split
    · exact Frame.refl _
    · split
      · exact frame_log _ _
      · exact (frame_log _ _).trans (frame_wrap _ _ _)
  | object_get_object o name flags a =>
    simp only [step, fpgaObjectGetObject]
    split
    · exact Frame.refl _
    · split
      · exact frame_log _ _
      · exact (frame_log _ _).trans (frame_wrap _ _ _)
  | get_object_at o i a =>
    simp only [step, fpgaObjectGetObjectAt]
    split
    · exact Frame.refl _
    · split
      · exact frame_log _ _
      · exact (frame_log _ _).trans (frame_wrap _ _ _)
  | get_type o => exact Frame.refl _
  | get_size o flags => exact frame_get_size d st o flags
  | read o offset len flags => exact frame_read d st o offset len flags
  | destroy o => exact frame_destroy st o

theorem run_frame (ops : List (Device × Op)) : ∀ st : Runtime, Frame st (run st ops) := by
  induction ops with
  | nil => intro st; exact Frame.refl st
  | cons e ops ih =>
    intro st
    have h1 := step_frame st e.1 e.2
    have h2 := ih (step st e.1 e.2)
    simpa [run] using h1.trans h2

/-! ## Handles -/

theorem close_not_open (st : Runtime) (h : Nat) (r : fpga_result)
    (hn : st.handles.lookup h = none) :
    fpgaClose st (some h) r = (FPGA_INVALID_PARAM, st) := by
  simp only [fpgaClose, hn]

theorem close_closes (st : Runtime) (h : Nat) (r : fpga_result) :
    (fpgaClose st (some h) r).2.handles.lookup h = none := by
  unfold fpgaClose
  split
  · rename_i hn
    simp only [Option.some.injEq] at *
    simp at hn
  · rename_i id heq
    simp only [Option.some.injEq] at heq
    subst heq
    split
    · rename_i hn
      exact hn
    · show (List.filter (fun e => e.1 != h) st.handles).lookup h = none
      rw [lookup_filter_key (fun a => a != h) h st.handles]
      simp

theorem close_next (st : Runtime) (h : Option Nat) (r : fpga_result) :
    (fpgaClose st h r).2.next = st.next := by
  unfold fpgaClose
  split
  · rfl
  · split <;> rfl

theorem closed_stays_closed (st : Runtime) (h : Nat) (hlt : h < st.next)
    (hn : st.handles.lookup h = none) (ops : List (Device × Op)) :
    (run st ops).handles.lookup h = none := by
  rcases (run_frame ops st).handles h hlt with hh | hh
  · exact hh
  · rw [hh]; exact hn

/-- C2: `fpgaClose` on a null handle returns `FPGA_INVALID_PARAM`; so does
`fpgaClose` on any handle that is not open, leaving the state (and the
plugin) untouched; a second `fpgaClose` on the same handle fails with
`FPGA_INVALID_PARAM` whatever the first one returned; and a handle that was
opened and then closed stays invalid after any further sequence of
operations: closing it again is `FPGA_INVALID_PARAM` and changes nothing. -/
theorem close_null_or_closed_invalid_param (st : Runtime) (r : fpga_result) :
    fpgaClose st none r = (FPGA_INVALID_PARAM, st)
    ∧ (∀ h, st.handle_token (some h) = none →
        fpgaClose st (some h) r = (FPGA_INVALID_PARAM, st))
    ∧ (∀ h r1, (fpgaClose (fpgaClose st h r1).2 h r).1 = FPGA_INVALID_PARAM)
    ∧ (∀ token h r1 ops, (fpgaOpen st token FPGA_OK).2.1 = some h →
        fpgaClose (run (fpgaClose (fpgaOpen st token FPGA_OK).2.2 (some h) r1).2 ops) (some h) r
          = (FPGA_INVALID_PARAM,
              run (fpgaClose (fpgaOpen st token FPGA_OK).2.2 (some h) r1).2 ops)) := by
  refine ⟨rfl, ?_, ?_, ?_⟩
  · intro h hn
    exact close_not_open st h r hn
  · intro h r1
    cases h with
    | none => rfl
    | some h => rw [close_not_open _ h r (close_closes st h r1)]
  · intro token h r1 ops hopen
    have hh : h = st.next := by
      simp [fpgaOpen] at hopen
      exact hopen.symm
    subst hh
    apply close_not_open
    apply closed_stays_closed
    · rw [close_next]
      simp [fpgaOpen]
    · exact close_closes _ _ _

/-! ## Objects -/

theorem resync_attribute (d : Device) (po : PluginObject) (path : List Name) (c : List Nat)
    (hattr : po.snap.type = FPGA_OBJECT_ATTRIBUTE)
    (hdev : resolve d false po.snap.path (d.tree po.token) = some (path, Node.attribute c)) :
    resync d po
      = some { po with snap := ⟨po.snap.path, FPGA_OBJECT_ATTRIBUTE, c⟩ } := by
  simp [resync, hdev, hattr, Node.type, snapshot, Node.content]

theorem store_object (st : Runtime) (o : Option Nat) (p : Nat × PluginObject)
    (po : PluginObject) (hlive : st.object o = some p) :
    (st.store p.1 po).object o = some (p.1, po) := by
  obtain ⟨id, rfl, hw, hp⟩ := object_some st o p hlive
  have : (st.store p.1 po).plugin_objects.lookup p.1 = some po := by
    simp only [Runtime.store]
    rw [lookup_store]
    simp [hp]
  exact object_of_lookup _ id p.1 po hw this

/-- C3: for every live attribute object whose node on the device holds the
bytes `c`, `fpgaObjectGetSize` with `FPGA_OBJECT_SYNC` returns `FPGA_OK` and
the full length of `c`, and `fpgaObjectRead` of that many bytes at offset 0
(afterwards with flags 0, or directly with `FPGA_OBJECT_SYNC`) returns
`FPGA_OK` and exactly `c`, as does a read with flags 0 of an object whose
snapshot is current: nothing is trimmed, so a text `t` followed by a newline
has size `t.length + 1` and is read back with its newline. -/
theorem attribute_size_and_read_raw (d : Device) (st : Runtime) (o : Option Nat)
    (p : Nat × PluginObject) (path : List Name) (c : List Nat)
    (hlive : st.object o = some p)
    (hattr : p.2.snap.type = FPGA_OBJECT_ATTRIBUTE)
    (hdev : resolve d false p.2.snap.path (d.tree p.2.token)
      = some (path, Node.attribute c)) :
    (fpgaObjectGetSize d st o FPGA_OBJECT_SYNC).1 = FPGA_OK
    ∧ (fpgaObjectGetSize d st o FPGA_OBJECT_SYNC).2.1 = some c.length
    ∧ (fpgaObjectRead d (fpgaObjectGetSize d st o FPGA_OBJECT_SYNC).2.2 o 0 c.length
        FLAGS_NONE).1 = FPGA_OK
    ∧ (fpgaObjectRead d (fpgaObjectGetSize d st o FPGA_OBJECT_SYNC).2.2 o 0 c.length
        FLAGS_NONE).2.1 = some c
    ∧ (fpgaObjectRead d st o 0 c.length FPGA_OBJECT_SYNC).1 = FPGA_OK
    ∧ (fpgaObjectRead d st o 0 c.length FPGA_OBJECT_SYNC).2.1 = some c
    ∧ (p.2.snap.data = c →
        (fpgaObjectRead d st o 0 c.length FLAGS_NONE).1 = FPGA_OK
        ∧ (fpgaObjectRead d st o 0 c.length FLAGS_NONE).2.1 = some c)
    ∧ (∀ t, c = t ++ [10] →
        (fpgaObjectGetSize d st o FPGA_OBJECT_SYNC).2.1 = some (t.length + 1)) := by
  have hr := resync_attribute d p.2 path c hattr hdev
  have hs : sync_object d st p true
      = some ({ p.2 with snap := ⟨p.2.snap.path, FPGA_OBJECT_ATTRIBUTE, c⟩ },
          st.store p.1 { p.2 with snap := ⟨p.2.snap.path, FPGA_OBJECT_ATTRIBUTE, c⟩ }) := by
    simp [sync_object, hr]
  have hsize : fpgaObjectGetSize d st o FPGA_OBJECT_SYNC
      = (FPGA_OK, some c.length,
          st.store p.1 { p.2 with snap := ⟨p.2.snap.path, FPGA_OBJECT_ATTRIBUTE, c⟩ }) := by
    simp [fpgaObjectGetSize, hlive, FPGA_OBJECT_SYNC, hs]
  have hlive2 := store_object st o p
    { p.2 with snap := ⟨p.2.snap.path, FPGA_OBJECT_ATTRIBUTE, c⟩ } hlive
  refine ⟨by rw [hsize], by rw [hsize], ?_, ?_, ?_, ?_, ?_, ?_⟩
  · rw [hsize]
    simp [fpgaObjectRead, hlive2, FLAGS_NONE, sync_object]
  · rw [hsize]
    simp [fpgaObjectRead, hlive2, FLAGS_NONE, sync_object]
  · simp [fpgaObjectRead, hlive, FPGA_OBJECT_SYNC, hs]
  · simp [fpgaObjectRead, hlive, FPGA_OBJECT_SYNC, hs]
  · intro hc
    simp [fpgaObjectRead, hlive, FLAGS_NONE, sync_object, hattr, hc]
  · intro t ht
    rw [hsize, ht]
    simp

theorem wrap_ok (st : Runtime) (po : PluginObject) :
    wrap_object st po true = (FPGA_OK, some (st.next + 1),
      { st with
        next := st.next + 2
        plugin_objects := (st.next, po) :: st.plugin_objects
        wrapped := (st.next + 1, st.next) :: st.wrapped }) := by
  simp [wrap_object]

theorem wrap_ok_object (st : Runtime) (po : PluginObject) :
    (wrap_object st po true).2.2.object (some (st.next + 1)) = some (st.next, po) := by
  rw [wrap_ok]
  simp [Runtime.object]

theorem wrapped_scenario (st : Runtime) (po : PluginObject) (c : Snapshot)
    (cs : List Snapshot) (hch : po.children = c :: cs) :
    container_scenario (wrap_object st po true) po.token po.handle c cs := by
  have hobj := wrap_ok_object st po
  rw [wrap_ok] at hobj
  rw [wrap_ok]
  refine ⟨rfl, st.next + 1, rfl, ?_⟩
  have hat : fpgaObjectGetObjectAt
      { st with
        next := st.next + 2
        plugin_objects := (st.next, po) :: st.plugin_objects
        wrapped := (st.next + 1, st.next) :: st.wrapped } (some (st.next + 1)) 0 true
      = (FPGA_OK, some (st.next + 3),
        { st with
          next := st.next + 4
          plugin_objects := (st.next + 2, ⟨po.token, po.handle, c, []⟩)
            :: (st.next, po) :: st.plugin_objects
          wrapped := (st.next + 3, st.next + 2) :: (st.next + 1, st.next) :: st.wrapped
          calls := st.calls ++ [PluginCall.get_object_at st.next 0] }) := by
    simp only [fpgaObjectGetObjectAt, hobj, hch, List.get?_cons_zero, wrap_ok]
    simp [Runtime.log]
  simp only [hat]
  refine ⟨trivial, ⟨st.next + 3, st.next + 2, rfl, by omega, ?_, ?_, ?_, ?_⟩, ?_⟩
  · simp [Runtime.object]
  · simp [fpgaDestroyObject, Runtime.object]
  · simp [fpgaDestroyObject, Runtime.object, List.lookup_cons, List.filter_cons]
  · simp [fpgaDestroyObject, Runtime.object, List.lookup_cons, List.filter_cons]
  · intro i a hi
    have hnone : (c :: cs).get? i = none := List.get?_eq_none.mpr hi
    simp only [fpgaObjectGetObjectAt, hobj, hch, hnone]
    exact ⟨trivial, trivial⟩

theorem plugin_get_object_ok (d : Device) (token : Nat) (handle : Option Nat)
    (base : List Name) (name : Name) (flags : obj_flags) (b : List Name × Node)
    (path : List Name) (n : Node) (hv : valid_name name = true)
    (hb : resolve d false base (d.tree token) = some b)
    (hres : resolve d flags.glob (segments name) b.2 = some (path, n)) :
    plugin_get_object d token handle base name flags
      = Except.ok ⟨token, handle, snapshot (base ++ path) n,
          if flags.recurse_one then
            n.children.map (fun c => snapshot (base ++ path ++ [c.1]) c.2)
          else []⟩ := by
  simp [plugin_get_object, hv, hb, hres]

theorem resolve_nil (d : Device) (n : Node) : resolve d false [] n = some ([], n) := rfl

/-- C4: a get-object call with `FPGA_OBJECT_RECURSE_ONE` (through a token, an
open handle or a live parent object) whose name resolves to a node with the
children `c :: cs` yields a container on which `fpgaObjectGetObjectAt` at
index 0 returns `FPGA_OK` and an object for the first child `c`, which is
destroyed with `FPGA_OK` independently of the container, and on which every
index not smaller than the number of children returns `FPGA_NOT_FOUND`. -/
theorem get_object_at_first_child_and_out_of_range (d : Device) (st : Runtime)
    (name : Name) (path : List Name) (n : Node) (c : Name × Node) (cs : List (Name × Node))
    (hv : valid_name name = true) (hn : n.children = c :: cs) :
    (∀ token, resolve d false (segments name) (d.tree token) = some (path, n) →
      container_scenario (fpgaTokenGetObject d st token name FPGA_OBJECT_RECURSE_ONE true)
        token none (snapshot (path ++ [c.1]) c.2)
        (cs.map (fun e => snapshot (path ++ [e.1]) e.2)))
    ∧ (∀ h token, st.handle_token h = some token →
      resolve d false (segments name) (d.tree token) = some (path, n) →
      container_scenario (fpgaHandleGetObject d st h name FPGA_OBJECT_RECURSE_ONE true)
        token h (snapshot (path ++ [c.1]) c.2)
        (cs.map (fun e => snapshot (path ++ [e.1]) e.2)))
    ∧ (∀ parent p b, st.object parent = some p →
      resolve d false p.2.snap.path (d.tree p.2.token) = some b →
      resolve d false (segments name) b.2 = some (path, n) →
      container_scenario (fpgaObjectGetObject d st parent name FPGA_OBJECT_RECURSE_ONE true)
        p.2.token p.2.handle (snapshot (p.2.snap.path ++ path ++ [c.1]) c.2)
        (cs.map (fun e => snapshot (p.2.snap.path ++ path ++ [e.1]) e.2))) := by
  refine ⟨?_, ?_, ?_⟩
  · intro token hres
    have hp := plugin_get_object_ok d token none [] name FPGA_OBJECT_RECURSE_ONE
      ([], d.tree token) path n hv rfl hres
    simp only [fpgaTokenGetObject, hp]
    exact wrapped_scenario _ _ _ _ (by simp [FPGA_OBJECT_RECURSE_ONE, hn])
  · intro h token hh hres
    have hp := plugin_get_object_ok d token h [] name FPGA_OBJECT_RECURSE_ONE
      ([], d.tree token) path n hv rfl hres
    simp only [fpgaHandleGetObject, hh, hp]
    exact wrapped_scenario _ _ _ _ (by simp [FPGA_OBJECT_RECURSE_ONE, hn])
  · intro parent p b hlive hb hres
    have hp := plugin_get_object_ok d p.2.token p.2.handle p.2.snap.path name
      FPGA_OBJECT_RECURSE_ONE b path n hv hb hres
    simp only [fpgaObjectGetObject, hlive, hp]
    exact wrapped_scenario _ _ _ _ (by simp [FPGA_OBJECT_RECURSE_ONE, hn])

theorem wrapped_type_scenario (st : Runtime) (po : PluginObject) :
    type_scenario (wrap_object st po true) po.snap.type := by
  have hobj := wrap_ok_object st po
  refine ⟨by rw [wrap_ok], st.next + 1, by rw [wrap_ok], ?_, ?_⟩
  · simp [fpgaObjectGetType, hobj]
  · intro ops
    have hf := run_frame ops (wrap_object st po true).2.2
    have hw := hf.wrapped (st.next + 1) (by rw [wrap_ok]; simp)
    have ht := hf.types st.next (by rw [wrap_ok]; simp)
    have hw0 : (wrap_object st po true).2.2.wrapped.lookup (st.next + 1) = some st.next := by
      rw [wrap_ok]; simp
    have ht0 : (wrap_object st po true).2.2.type_of st.next = some po.snap.type := by
      rw [wrap_ok]; simp [Runtime.type_of]
    rw [hw0] at hw
    rw [ht0] at ht
    rcases hw with hw | hw
    · right
      simp [Runtime.object, hw]
    · rcases ht with ht | ht
      · right
        simp only [Runtime.type_of, Option.map_eq_none'] at ht
        simp [Runtime.object, hw, ht]
      · simp only [Runtime.type_of, Option.map_eq_some'] at ht
        obtain ⟨po2, hpo2, hty⟩ := ht
        left
        simp [fpgaObjectGetType, Runtime.object, hw, hpo2, hty]

/-- C5: a get-object call (through a token, an open handle or a live parent
object, with any flags) whose name resolves to the node `n` yields an object
on which `fpgaObjectGetType` returns `FPGA_OK` and the type of `n`:
`FPGA_OBJECT_CONTAINER` for a directory-like node, `FPGA_OBJECT_ATTRIBUTE`
for a leaf; and the type reported stays the same after any further
operations for as long as the object lives. -/
theorem get_type_reports_node_type (d : Device) (st : Runtime) (name : Name)
    (flags : obj_flags) (path : List Name) (n : Node) (hv : valid_name name = true) :
    (∀ token, resolve d flags.glob (segments name) (d.tree token) = some (path, n) →
      type_scenario (fpgaTokenGetObject d st token name flags true) n.type)
    ∧ (∀ h token, st.handle_token h = some token →
      resolve d flags.glob (segments name) (d.tree token) = some (path, n) →
      type_scenario (fpgaHandleGetObject d st h name flags true) n.type)
    ∧ (∀ parent p b, st.object parent = some p →
      resolve d false p.2.snap.path (d.tree p.2.token) = some b →
      resolve d flags.glob (segments name) b.2 = some (path, n) →
      type_scenario (fpgaObjectGetObject d st parent name flags true) n.type)
    ∧ (∀ cs, (Node.container cs).type = FPGA_OBJECT_CONTAINER)
    ∧ (∀ c, (Node.attribute c).type = FPGA_OBJECT_ATTRIBUTE) := by
  refine ⟨?_, ?_, ?_, fun _ => rfl, fun _ => rfl⟩
  · intro token hres
    have hp := plugin_get_object_ok d token none [] name flags
      ([], d.tree token) path n hv rfl hres
    simp only [fpgaTokenGetObject, hp]
    exact wrapped_type_scenario _ _
  · intro h token hh hres
    have hp := plugin_get_object_ok d token h [] name flags
      ([], d.tree token) path n hv rfl hres
    simp only [fpgaHandleGetObject, hh, hp]
    exact wrapped_type_scenario _ _
  · intro parent p b hlive hb hres
    have hp := plugin_get_object_ok d p.2.token p.2.handle p.2.snap.path name
      flags b path n hv hb hres
    simp only [fpgaObjectGetObject, hlive, hp]
    exact wrapped_type_scenario _ _

theorem wrap_fail (st : Runtime) (po : PluginObject) :
    wrap_object st po false
      = (FPGA_NO_MEMORY, none,
          { st.log (PluginCall.destroy_object st.next) with next := st.next + 1 }) := by
  simp [wrap_object]

theorem destroy_live (st : Runtime) (o : Option Nat) (p : Nat × PluginObject)
    (h : st.object o = some p) : (fpgaDestroyObject st o).1 = FPGA_OK := by
  obtain ⟨id, rfl, _, _⟩ := object_some st o p h
  simp only [fpgaDestroyObject, h]

theorem destroy_not_live (st : Runtime) (o : Option Nat) (h : st.object o = none) :
    fpgaDestroyObject st o = (FPGA_INVALID_PARAM, st) := by
  cases o with
  | none => rfl
  | some id => simp only [fpgaDestroyObject, h]

/-- C6: when the plugin has produced the underlying object `po` and the
allocation of the wrapped object fails, `fpgaTokenGetObject`,
`fpgaHandleGetObject` and `fpgaObjectGetObject` return `FPGA_NO_MEMORY`, hand
out no object, and destroy the underlying object through the plugin (the
last plugin call is `destroy_object` on the identifier it was given, and the
tables of live objects are what they were); a parent object stays live and is
still destroyed with `FPGA_OK`. -/
theorem alloc_failure_no_memory (d : Device) (st : Runtime) (name : Name)
    (flags : obj_flags) (po : PluginObject) :
    (∀ token, plugin_get_object d token none [] name flags = Except.ok po →
      fpgaTokenGetObject d st token name flags false
        = (FPGA_NO_MEMORY, none,
            ⟨st.next + 1, st.handles, st.plugin_objects, st.wrapped,
              st.calls ++ [PluginCall.get_object token [] name flags]
                ++ [PluginCall.destroy_object st.next]⟩))
    ∧ (∀ h token, st.handle_token h = some token →
      plugin_get_object d token h [] name flags = Except.ok po →
      fpgaHandleGetObject d st h name flags false
        = (FPGA_NO_MEMORY, none,
            ⟨st.next + 1, st.handles, st.plugin_objects, st.wrapped,
              st.calls ++ [PluginCall.get_object token [] name flags]
                ++ [PluginCall.destroy_object st.next]⟩))
    ∧ (∀ parent p, st.object parent = some p →
      plugin_get_object d p.2.token p.2.handle p.2.snap.path name flags = Except.ok po →
      fpgaObjectGetObject d st parent name flags false
        = (FPGA_NO_MEMORY, none,
            ⟨st.next + 1, st.handles, st.plugin_objects, st.wrapped,
              st.calls ++ [PluginCall.get_object p.2.token p.2.snap.path name flags]
                ++ [PluginCall.destroy_object st.next]⟩)
      ∧ (fpgaObjectGetObject d st parent name flags false).2.2.object parent = some p
      ∧ (fpgaDestroyObject (fpgaObjectGetObject d st parent name flags false).2.2 parent).1
          = FPGA_OK) := by
  refine ⟨?_, ?_, ?_⟩
  · intro token hp
    simp only [fpgaTokenGetObject, hp, wrap_fail]
    rfl
  · intro h token hh hp
    simp only [fpgaHandleGetObject, hh, hp, wrap_fail]
    rfl
  · intro parent p hlive hp
    have heq : fpgaObjectGetObject d st parent name flags false
        = (FPGA_NO_MEMORY, none,
            ⟨st.next + 1, st.handles, st.plugin_objects, st.wrapped,
              st.calls ++ [PluginCall.get_object p.2.token p.2.snap.path name flags]
                ++ [PluginCall.destroy_object st.next]⟩) := by
      simp only [fpgaObjectGetObject, hlive, hp, wrap_fail]
      rfl
    have hlive2 : (fpgaObjectGetObject d st parent name flags false).2.2.object parent
        = some p := by
      rw [heq]
      exact hlive
    exact ⟨heq, hlive2, destroy_live _ _ _ hlive2⟩

theorem destroy_destroys (st : Runtime) (o : Option Nat) :
    (fpgaDestroyObject st o).2.object o = none := by
  cases o with
  | none => rfl
  | some id =>
    unfold fpgaDestroyObject
    split
    · rename_i heq
      simp at heq
    · rename_i id2 heq
      simp only [Option.some.injEq] at heq
      subst heq
      split
      · rename_i hn
        exact hn
      · have : (List.filter (fun e => e.1 != id) st.wrapped).lookup id = none := by
          rw [lookup_filter_key (fun a => a != id) id st.wrapped]
          simp
        simp only [Runtime.object]
        rw [this]

theorem destroy_next (st : Runtime) (o : Option Nat) :
    (fpgaDestroyObject st o).2.next = st.next := by
  unfold fpgaDestroyObject
  split
  · rfl
  · split <;> rfl

theorem destroy_wrapped_gone (st : Runtime) (id : Nat) (p : Nat × PluginObject)
    (h : st.object (some id) = some p) :
    (fpgaDestroyObject st (some id)).2.wrapped.lookup id = none := by
  simp only [fpgaDestroyObject, h]
  show (List.filter (fun e => e.1 != id) st.wrapped).lookup id = none
  rw [lookup_filter_key (fun a => a != id) id st.wrapped]
  simp

theorem wrap_object_ref (st : Runtime) (po : PluginObject) (a : Bool) :
    (wrap_object st po a).1 ≠ FPGA_OK → (wrap_object st po a).2.1 = none := by
  cases a <;> simp [wrap_object]

theorem token_get_failed_ref (d : Device) (st : Runtime) (token : Nat) (name : Name)
    (flags : obj_flags) (a : Bool) :
    (fpgaTokenGetObject d st token name flags a).1 ≠ FPGA_OK →
      (fpgaTokenGetObject d st token name flags a).2.1 = none := by
  unfold fpgaTokenGetObject
  split
  · intro _; rfl
  · exact wrap_object_ref _ _ _

theorem handle_get_failed_ref (d : Device) (st : Runtime) (h : Option Nat) (name : Name)
    (flags : obj_flags) (a : Bool) :
    (fpgaHandleGetObject d st h name flags a).1 ≠ FPGA_OK →
      (fpgaHandleGetObject d st h name flags a).2.1 = none := by
  unfold fpgaHandleGetObject
  split
  · intro _; rfl
  · split
    · intro _; rfl
    · exact wrap_object_ref _ _ _

theorem object_get_failed_ref (d : Device) (st : Runtime) (o : Option Nat) (name : Name)
    (flags : obj_flags) (a : Bool) :
    (fpgaObjectGetObject d st o name flags a).1 ≠ FPGA_OK →
      (fpgaObjectGetObject d st o name flags a).2.1 = none := by
  unfold fpgaObjectGetObject
  split
  · intro _; rfl
  · split
    · intro _; rfl
    · exact wrap_object_ref _ _ _

theorem object_at_failed_ref (st : Runtime) (o : Option Nat) (i : Nat) (a : Bool) :
    (fpgaObjectGetObjectAt st o i a).1 ≠ FPGA_OK →
      (fpgaObjectGetObjectAt st o i a).2.1 = none := by
  unfold fpgaObjectGetObjectAt
  split
  · intro _; rfl
  · split
    · intro _; rfl
    · exact wrap_object_ref _ _ _

/-- C7: `fpgaDestroyObject` on a reference that holds no live object (the
null reference, in particular the one every failed get-object call leaves
behind, or a stale one) returns a result other than `FPGA_OK` and changes
nothing; on a live object it returns `FPGA_OK`; destroying the same
reference a second time is rejected; and a reference the runtime has issued
stays rejected, once destroyed, after any further operations. -/
theorem destroy_rejects_null_and_stale (st : Runtime) :
    ((fpgaDestroyObject st none).1 ≠ FPGA_OK ∧ (fpgaDestroyObject st none).2 = st)
    ∧ (∀ o, st.object o = none →
        (fpgaDestroyObject st o).1 ≠ FPGA_OK ∧ (fpgaDestroyObject st o).2 = st)
    ∧ (∀ o p, st.object o = some p → (fpgaDestroyObject st o).1 = FPGA_OK)
    ∧ (∀ d token name flags a,
        (fpgaTokenGetObject d st token name flags a).1 ≠ FPGA_OK →
        (fpgaDestroyObject (fpgaTokenGetObject d st token name flags a).2.2
          (fpgaTokenGetObject d st token name flags a).2.1).1 ≠ FPGA_OK)
    ∧ (∀ d h name flags a,
        (fpgaHandleGetObject d st h name flags a).1 ≠ FPGA_OK →
        (fpgaDestroyObject (fpgaHandleGetObject d st h name flags a).2.2
          (fpgaHandleGetObject d st h name flags a).2.1).1 ≠ FPGA_OK)
    ∧ (∀ d parent name flags a,
        (fpgaObjectGetObject d st parent name flags a).1 ≠ FPGA_OK →
        (fpgaDestroyObject (fpgaObjectGetObject d st parent name flags a).2.2
          (fpgaObjectGetObject d st parent name flags a).2.1).1 ≠ FPGA_OK)
    ∧ (∀ parent i a,
        (fpgaObjectGetObjectAt st parent i a).1 ≠ FPGA_OK →
        (fpgaDestroyObject (fpgaObjectGetObjectAt st parent i a).2.2
          (fpgaObjectGetObjectAt st parent i a).2.1).1 ≠ FPGA_OK)
    ∧ (∀ o, (fpgaDestroyObject (fpgaDestroyObject st o).2 o).1 ≠ FPGA_OK)
    ∧ (∀ o p ops, st.object (some o) = some p → o < st.next →
        (fpgaDestroyObject (run (fpgaDestroyObject st (some o)).2 ops) (some o)).1
          ≠ FPGA_OK) := by
  have hnull : ∀ s : Runtime, (fpgaDestroyObject s none).1 ≠ FPGA_OK := by
    intro s; simp [fpgaDestroyObject]
  refine ⟨⟨hnull st, rfl⟩, ?_, ?_, ?_, ?_, ?_, ?_, ?_, ?_⟩
  · intro o hn
    rw [destroy_not_live st o hn]
    exact ⟨by simp, rfl⟩
  · intro o p hp
    exact destroy_live st o p hp
  · intro d token name flags a hf
    rw [token_get_failed_ref d st token name flags a hf]
    exact hnull _
  · intro d h name flags a hf
    rw [handle_get_failed_ref d st h name flags a hf]
    exact hnull _
  · intro d parent name flags a hf
    rw [object_get_failed_ref d st parent name flags a hf]
    exact hnull _
  · intro parent i a hf
    rw [object_at_failed_ref st parent i a hf]
    exact hnull _
  · intro o
    rw [destroy_not_live _ o (destroy_destroys st o)]
    simp
  · intro o p ops hlive hlt
    have hgone := destroy_wrapped_gone st o p hlive
    have hf := (run_frame ops (fpgaDestroyObject st (some o)).2).wrapped o
      (by rw [destroy_next]; exact hlt)
    have hdead : (run (fpgaDestroyObject st (some o)).2 ops).wrapped.lookup o = none := by
      rcases hf with hf | hf
      · exact hf
      · rw [hf]; exact hgone
    have hobj : (run (fpgaDestroyObject st (some o)).2 ops).object (some o) = none := by
      simp [Runtime.object, hdead]
    rw [destroy_not_live _ _ hobj]
    simp

/-! ## The N6000 board library -/

/-- C8: caller misuse is answered with `FPGA_INVALID_PARAM` before any device
or buffer access. `parse_fw_ver` returns `FPGA_INVALID_PARAM` exactly when
`buf` or `fw_ver` is `NULL`, and then leaves `fw_ver` as it was and only logs
the error; `read_bmcfw_version` and `read_max10fw_version` with a `NULL`
output buffer return it without calling `read_sysfs`; `print_hssi_port_status`
returns it for a `NULL` register pointer without printing; `fpga_event_log`
returns it when `first` or `last` exceeds `bel_ptr_count()`, without calling
`fpgaTokenGetObject`. -/
theorem caller_misuse_invalid_param (env : Board) (token : Nat) (len : Nat)
    (tr : List Call) :
    (∀ buf fw_ver, (parse_fw_ver buf fw_ver len tr).1 = FPGA_INVALID_PARAM
        ↔ (buf = none ∨ fw_ver = none))
    ∧ (∀ buf fw_ver, buf = none ∨ fw_ver = none →
        parse_fw_ver buf fw_ver len tr
          = (FPGA_INVALID_PARAM, fw_ver,
              tr ++ [Call.enter "parse_fw_ver", Call.OPAE_ERR "Invalid Input parameters"]))
    ∧ read_bmcfw_version env token none len tr
        = (FPGA_INVALID_PARAM, none,
            tr ++ [Call.enter "read_bmcfw_version", Call.OPAE_ERR "Invalid Input parameters"])
    ∧ read_max10fw_version env token none len tr
        = (FPGA_INVALID_PARAM, none,
            tr ++ [Call.enter "read_max10fw_version",
              Call.OPAE_ERR "Invalid Input parameters"])
    ∧ (∀ junk, print_hssi_port_status none junk tr
        = (FPGA_INVALID_PARAM,
            tr ++ [Call.enter "print_hssi_port_status",
              Call.OPAE_ERR "Invalid Input parameters"]))
    ∧ (∀ first last print_list print_sensors print_bits,
        env.bel_ptr_count < first ∨ env.bel_ptr_count < last →
        (fpga_event_log env token first last print_list print_sensors print_bits tr).1
          = FPGA_INVALID_PARAM
        ∧ ∃ fmt args,
          (fpga_event_log env token first last print_list print_sensors print_bits tr).2
            = tr ++ [Call.enter "fpga_event_log", Call.fprintf_stderr fmt args]) := by
  refine ⟨?_, ?_, by simp [read_bmcfw_version], by simp [read_max10fw_version],
    fun _ => by simp [print_hssi_port_status], ?_⟩
  · intro buf fw_ver
    cases buf with
    | none => simp [parse_fw_ver]
    | some b =>
      cases fw_ver with
      | none => simp [parse_fw_ver]
      | some out =>
        simp only [parse_fw_ver]
        split
        · simp
        · split <;> simp
  · intro buf fw_ver h
    cases buf with
    | none => simp [parse_fw_ver]
    | some b =>
      cases fw_ver with
      | none => simp [parse_fw_ver]
      | some out => simp at h
  · intro first last pl ps pb h
    unfold fpga_event_log
    by_cases h1 : first > env.bel_ptr_count
    · simp only [h1, if_true]
      exact ⟨trivial, "invalid --boot value: %u\n", [Arg.int first], by simp⟩
    · have h2 : last > env.bel_ptr_count := by
        rcases h with h | h
        · exact absurd h h1
        · exact h
      simp only [h1, h2, if_true, if_false]
      exact ⟨trivial, "invalid --boot + --count value: %u\n", [Arg.int last], by simp⟩

set_option maxRecDepth 100000 in
theorem fmt_u_byte : ∀ a : Fin 256, (fmt_u a.val).length ≤ 3 ∧ 0 ∉ fmt_u a.val := by
  decide

theorem hex_digit_lt (c v : Nat) (h : hex_digit c = some v) : v < 16 := by
  unfold hex_digit at h
  split at h
  · simp only [Option.some.injEq] at h; omega
  · split at h
    · simp only [Option.some.injEq] at h; omega
    · split at h
      · simp only [Option.some.injEq] at h; omega
      · simp at h

theorem hex_digit_range (c : Nat) (h : (hex_digit c).isSome = true) :
    (48 ≤ c ∧ c ≤ 57) ∨ (97 ≤ c ∧ c ≤ 102) ∨ (65 ≤ c ∧ c ≤ 70) := by
  unfold hex_digit at h
  split at h
  · left; assumption
  · split at h
    · right; left; assumption
    · split at h
      · right; right; assumption
      · simp at h

theorem foldl_hex_ge (ds : List Nat) : ∀ acc : Nat,
    acc ≤ ds.foldl (fun acc c => acc * 16 + (hex_digit c).getD 0) acc := by
  induction ds with
  | nil => intro acc; exact le_refl _
  | cons c cs ih =>
    intro acc
    simp only [List.foldl_cons]
    exact le_trans (by omega) (ih _)

theorem strtoul_digits_hex (ds : List Nat) : ∀ (acc n : Nat),
    (∀ c ∈ ds, (hex_digit c).isSome = true) →
    ds.foldl (fun acc c => acc * 16 + (hex_digit c).getD 0) acc ≤ ULONG_MAX →
    strtoul_digits ds acc false n
      = (ds.foldl (fun acc c => acc * 16 + (hex_digit c).getD 0) acc, false, n + ds.length) := by
  induction ds with
  | nil => intro acc n _ _; rfl
  | cons c cs ih =>
    intro acc n hhex hle
    have hc := hhex c (List.mem_cons_self _ _)
    obtain ⟨v, hv⟩ := Option.isSome_iff_exists.mp hc
    simp only [List.foldl_cons, hv, Option.getD_some] at hle ⊢
    have hge := foldl_hex_ge cs (acc * 16 + v)
    have hno : ¬ ULONG_MAX < acc * 16 + v := by omega
    simp only [strtoul_digits, hv, Bool.false_or, hno, decide_False]
    rw [ih (acc * 16 + v) (n + 1) (fun c hc => hhex c (List.mem_cons_of_mem _ hc)) hle]
    simp only [List.length_cons, Bool.false_eq_true, if_false, Prod.mk.injEq, true_and]
    omega


theorem c_str_append_nul (s rest : List Nat) (h : 0 ∉ s) : c_str (s ++ 0 :: rest) = s := by
  induction s with
  | nil => simp [c_str]
  | cons a s ih =>
    have ha : a ≠ 0 := fun e => h (by simp [e])
    have hs : 0 ∉ s := fun e => h (List.mem_cons_of_mem _ e)
    have ih2 := ih hs
    simp only [c_str] at ih2 ⊢
    simp [List.takeWhile_cons, ha, ih2]

theorem and_ff_lt (x : Nat) : x &&& 0xff < 256 := by
  have : x &&& 0xff ≤ 0xff := Nat.and_le_right
  omega

theorem version_string_spec (w : Nat) :
    (version_string w).length ≤ 11 ∧ 0 ∉ version_string w := by
  have ha := fmt_u_byte ⟨(w >>> 16) &&& 0xff, and_ff_lt _⟩
  have hb := fmt_u_byte ⟨(w >>> 8) &&& 0xff, and_ff_lt _⟩
  have hc := fmt_u_byte ⟨w &&& 0xff, and_ff_lt _⟩
  simp only at ha hb hc
  refine ⟨?_, ?_⟩
  · simp only [version_string, List.length_append, List.length_singleton]
    omega
  · simp only [version_string, List.mem_append, List.mem_singleton, not_or]
    exact ⟨⟨⟨⟨ha.2, by decide⟩, hb.2⟩, by decide⟩, hc.2⟩

theorem version_string_low_bits (w : Nat) : version_string (w % 2 ^ 24) = version_string w := by
  have h1 : ((w % 2 ^ 24) >>> 16) &&& 0xff = (w >>> 16) &&& 0xff := by
    have e : (0xff : Nat) = 2 ^ 8 - 1 := by norm_num
    rw [e, Nat.and_pow_two_sub_one_eq_mod, Nat.and_pow_two_sub_one_eq_mod,
      Nat.shiftRight_eq_div_pow, Nat.shiftRight_eq_div_pow]
    omega
  have h2 : ((w % 2 ^ 24) >>> 8) &&& 0xff = (w >>> 8) &&& 0xff := by
    have e : (0xff : Nat) = 2 ^ 8 - 1 := by norm_num
    rw [e, Nat.and_pow_two_sub_one_eq_mod, Nat.and_pow_two_sub_one_eq_mod,
      Nat.shiftRight_eq_div_pow, Nat.shiftRight_eq_div_pow]
    omega
  have h3 : (w % 2 ^ 24) &&& 0xff = w &&& 0xff := by
    have e : (0xff : Nat) = 2 ^ 8 - 1 := by norm_num
    rw [e, Nat.and_pow_two_sub_one_eq_mod, Nat.and_pow_two_sub_one_eq_mod]
    omega
  simp only [version_string, h1, h2, h3]

theorem snprintf_fits (dst s : List Nat) (len : Nat) (hlen : s.length < len) :
    snprintf dst len s = (s ++ [0] ++ dst.drop (s.length + 1), (s.length : Int)) := by
  have h0 : len ≠ 0 := by omega
  have h1 : s.take (len - 1) = s := List.take_of_length_le (by omega)
  have h2 : min s.length (len - 1) = s.length := by omega
  simp only [snprintf, h0, if_false, h1, h2]

theorem isspace_hex (c : Nat) (h : (hex_digit c).isSome = true) : isspace c = false := by
  have := hex_digit_range c h
  simp only [isspace, Bool.or_eq_false_iff, beq_eq_false_iff_ne, Bool.and_eq_false_iff,
    decide_eq_false_iff_not]
  omega

theorem strtoul_sign_hex (c : Nat) (r : List Nat) (h : (hex_digit c).isSome = true) :
    strtoul_sign (c :: r) = (false, 0, c :: r) := by
  have := hex_digit_range c h
  unfold strtoul_sign
  split
  · rename_i heq
    simp only [List.cons.injEq] at heq
    omega
  · rename_i heq
    simp only [List.cons.injEq] at heq
    omega
  · rfl

theorem strtoul_0x_hex (ds : List Nat) (h : ∀ c ∈ ds, (hex_digit c).isSome = true) :
    strtoul_0x ds = (0, ds) := by
  unfold strtoul_0x
  split
  · rename_i x d r
    have hx := hex_digit_range x (h x (by simp))
    have h1 : (x == 120) = false := by
      simp only [beq_eq_false_iff_ne]; omega
    have h2 : (x == 88) = false := by
      simp only [beq_eq_false_iff_ne]; omega
    simp [h1, h2]
  · rfl

theorem strtoul_0x_pfx (c : Nat) (r : List Nat) (h : (hex_digit c).isSome = true) :
    strtoul_0x (48 :: 120 :: c :: r) = (2, c :: r) := by
  simp [strtoul_0x, h]

theorem hex_digit_48 : (hex_digit 48).isSome = true := by decide

theorem strtoul16_hex (pfx ds : List Nat) (hpfx : pfx = [] ∨ pfx = [48, 120])
    (hne : ds ≠ []) (hhex : ∀ c ∈ ds, (hex_digit c).isSome = true)
    (hle : hex_value ds ≤ ULONG_MAX) :
    strtoul16 (pfx ++ ds) = (hex_value ds, (pfx ++ ds).length) := by
  obtain ⟨c, r, rfl⟩ := List.exists_cons_of_ne_nil hne
  have hc := hhex c (List.mem_cons_self _ _)
  have hd := strtoul_digits_hex (c :: r) 0 0 hhex hle
  have hlen : (0 + (c :: r).length = 0) = False := by simp
  rcases hpfx with rfl | rfl
  · have hws : List.takeWhile isspace (c :: r) = [] := by
      simp [List.takeWhile_cons, isspace_hex c hc]
    show strtoul16 (c :: r) = _
    simp only [strtoul16, hws, List.length_nil, List.drop_zero,
      strtoul_sign_hex c r hc, strtoul_0x_hex (c :: r) hhex, hd, hlen, if_false]
    simp [hex_value]
  · have hws : List.takeWhile isspace (48 :: 120 :: c :: r) = [] := by
      simp [List.takeWhile_cons, isspace_hex 48 hex_digit_48]
    show strtoul16 (48 :: 120 :: c :: r) = _
    simp only [strtoul16, hws, List.length_nil, List.drop_zero,
      strtoul_sign_hex 48 _ hex_digit_48, strtoul_0x_pfx c r hc, hd, hlen, if_false]
    simp [hex_value]
    omega

theorem parse_fw_ver_numeral (buf out ds : List Nat) (len : Nat) (tr : List Call)
    (hnum : hex_numeral (c_str buf) ds) (hv : hex_value ds < 2 ^ 32) (hlen : 12 ≤ len) :
    parse_fw_ver (some buf) (some out) len tr
      = (FPGA_OK,
          some (version_string (hex_value ds) ++ [0]
            ++ out.drop ((version_string (hex_value ds)).length + 1)),
          tr ++ [Call.enter "parse_fw_ver"]) := by
  obtain ⟨hshape, hne, hhex⟩ := hnum
  have hle : hex_value ds ≤ ULONG_MAX := by
    have : (2 : Nat) ^ 32 ≤ ULONG_MAX := by decide
    omega
  have hst : strtoul16 (c_str buf) = (hex_value ds, (c_str buf).length) := by
    rcases hshape with h | h
    · rw [h]
      exact strtoul16_hex [] ds (Or.inl rfl) hne hhex hle
    · rw [h]
      exact strtoul16_hex [48, 120] ds (Or.inr rfl) hne hhex hle
  have hmod : hex_value ds % 2 ^ 32 = hex_value ds := Nat.mod_eq_of_lt hv
  have hfit := snprintf_fits out (version_string (hex_value ds)) len
    (by have := (version_string_spec (hex_value ds)).1; omega)
  simp only [version_string] at hfit
  simp only [parse_fw_ver, hst, hmod, ne_eq, not_true_eq_false, if_false, hfit]
  simp only [version_string]
  rw [if_neg (by exact not_lt.mpr (Int.natCast_nonneg _))]

/-- C9: for every buffer holding a hexadecimal numeral (optionally prefixed
with `0x`) of value `v` below 2^32 and every `len` of at least 12,
`parse_fw_ver` returns `FPGA_OK` and leaves in `fw_ver` the NUL-terminated
string "A.B.C" with A = (v >> 16) & 0xFF, B = (v >> 8) & 0xFF and
C = v & 0xFF in decimal; the string depends on bits 23..0 of `v` alone, so
two such inputs that agree on those bits yield the same string. -/
theorem parse_fw_ver_hex_numeral (buf out ds : List Nat) (len : Nat) (tr : List Call)
    (hnum : hex_numeral (c_str buf) ds) (hv : hex_value ds < 2 ^ 32) (hlen : 12 ≤ len) :
    (parse_fw_ver (some buf) (some out) len tr).1 = FPGA_OK
    ∧ (parse_fw_ver (some buf) (some out) len tr).2.1.map c_str
        = some (fmt_u ((hex_value ds >>> 16) &&& 0xff) ++ [46]
            ++ fmt_u ((hex_value ds >>> 8) &&& 0xff) ++ [46]
            ++ fmt_u (hex_value ds &&& 0xff))
    ∧ (parse_fw_ver (some buf) (some out) len tr).2.1.map c_str
        = some (version_string (hex_value ds % 2 ^ 24))
    ∧ (∀ buf2 out2 ds2 len2 tr2, hex_numeral (c_str buf2) ds2 → hex_value ds2 < 2 ^ 32 →
        12 ≤ len2 → hex_value ds2 % 2 ^ 24 = hex_value ds % 2 ^ 24 →
        (parse_fw_ver (some buf2) (some out2) len2 tr2).2.1.map c_str
          = (parse_fw_ver (some buf) (some out) len tr).2.1.map c_str) := by
  have key : ∀ (b o d : List Nat) (l : Nat) (t : List Call), hex_numeral (c_str b) d →
      hex_value d < 2 ^ 32 → 12 ≤ l →
      (parse_fw_ver (some b) (some o) l t).1 = FPGA_OK ∧
      (parse_fw_ver (some b) (some o) l t).2.1.map c_str
        = some (version_string (hex_value d)) := by
    intro b o d l t h1 h2 h3
    rw [parse_fw_ver_numeral b o d l t h1 h2 h3]
    refine ⟨rfl, ?_⟩
    simp only [Option.map_some', List.append_assoc, List.singleton_append]
    rw [c_str_append_nul _ _ (version_string_spec _).2]
  obtain ⟨k1, k2⟩ := key buf out ds len tr hnum hv hlen
  refine ⟨k1, ?_, ?_, ?_⟩
  · rw [k2]; rfl
  · rw [k2, version_string_low_bits]
  · intro buf2 out2 ds2 len2 tr2 h1 h2 h3 h4
    rw [k2, (key buf2 out2 ds2 len2 tr2 h1 h2 h3).2,
      ← version_string_low_bits (hex_value ds2), h4, version_string_low_bits]

/-- C10: with a non-`NULL` output buffer, `read_bmcfw_version` and
`read_max10fw_version` return exactly the failing result of `read_sysfs`,
having neither entered `parse_fw_ver` nor touched the output buffer; and when
`read_sysfs` succeeds they return exactly the result of `parse_fw_ver` on the
text read, with the output buffer as `parse_fw_ver` left it. -/
theorem fw_version_results_untranslated (env : Board) (token : Nat) (out : List Nat)
    (len : Nat) (tr : List Call) :
    (∀ r,
      (env.read_sysfs (tr ++ [Call.enter "read_bmcfw_version"]) token DFL_SYSFS_BMCFW_VER
        (FPGA_VAR_BUF_LEN - 1)).1 = r →
      r ≠ FPGA_OK →
      read_bmcfw_version env token (some out) len tr
        = (r, some out,
            tr ++ [Call.enter "read_bmcfw_version",
              Call.read_sysfs token DFL_SYSFS_BMCFW_VER (FPGA_VAR_BUF_LEN - 1),
              Call.OPAE_ERR "Failed to get read object"]))
    ∧ (∀ text,
      env.read_sysfs (tr ++ [Call.enter "read_bmcfw_version"]) token DFL_SYSFS_BMCFW_VER
        (FPGA_VAR_BUF_LEN - 1) = (FPGA_OK, text) →
      (read_bmcfw_version env token (some out) len tr).1
        = (parse_fw_ver (some (var_buf text)) (some out) len
            (tr ++ [Call.enter "read_bmcfw_version",
              Call.read_sysfs token DFL_SYSFS_BMCFW_VER (FPGA_VAR_BUF_LEN - 1)])).1
      ∧ (read_bmcfw_version env token (some out) len tr).2.1
        = (parse_fw_ver (some (var_buf text)) (some out) len
            (tr ++ [Call.enter "read_bmcfw_version",
              Call.read_sysfs token DFL_SYSFS_BMCFW_VER (FPGA_VAR_BUF_LEN - 1)])).2.1)
    ∧ (∀ r,
      (env.read_sysfs (tr ++ [Call.enter "read_max10fw_version"]) token DFL_SYSFS_MAX10_VER
        (FPGA_VAR_BUF_LEN - 1)).1 = r →
      r ≠ FPGA_OK →
      read_max10fw_version env token (some out) len tr
        = (r, some out,
            tr ++ [Call.enter "read_max10fw_version",
              Call.read_sysfs token DFL_SYSFS_MAX10_VER (FPGA_VAR_BUF_LEN - 1),
              Call.OPAE_ERR "Failed to get read object"]))
    ∧ (∀ text,
      env.read_sysfs (tr ++ [Call.enter "read_max10fw_version"]) token DFL_SYSFS_MAX10_VER
        (FPGA_VAR_BUF_LEN - 1) = (FPGA_OK, text) →
      (read_max10fw_version env token (some out) len tr).1
        = (parse_fw_ver (some (var_buf text)) (some out) len
            (tr ++ [Call.enter "read_max10fw_version",
              Call.read_sysfs token DFL_SYSFS_MAX10_VER (FPGA_VAR_BUF_LEN - 1)])).1
      ∧ (read_max10fw_version env token (some out) len tr).2.1
        = (parse_fw_ver (some (var_buf text)) (some out) len
            (tr ++ [Call.enter "read_max10fw_version",
              Call.read_sysfs token DFL_SYSFS_MAX10_VER (FPGA_VAR_BUF_LEN - 1)])).2.1) := by
  refine ⟨?_, ?_, ?_, ?_⟩
  · intro r hr hne
    subst hr
    simp [read_bmcfw_version, hne]
  · intro text ht
    simp only [read_bmcfw_version, ht, List.append_assoc, List.singleton_append]
    simp only [ne_eq, not_true_eq_false, if_false]
    split <;> exact ⟨rfl, rfl⟩
  · intro r hr hne
    subst hr
    simp [read_max10fw_version, hne]
  · intro text ht
    simp only [read_max10fw_version, ht, List.append_assoc, List.singleton_append]
    simp only [ne_eq, not_true_eq_false, if_false]
    split <;> exact ⟨rfl, rfl⟩

/-! ## Concrete instances of the theorems -/

set_option maxRecDepth 100000 in
/-- Witness for C1: `named_device` exposes an attribute under each of the
names "err\0rs", the empty name and a name of 256 bytes, yet these malformed
names are answered with `FPGA_NOT_FOUND` through the open handle 0, through
token 0 and below the live object 2; the valid name "a" is not found on
`mock_device`, which has no such attribute, and found on `named_device`. -/
theorem malformed_name_not_found_witness :
    (resolve named_device false (segments (bytes "err\x00rs")) (named_device.tree 0)).isSome
      = true
    ∧ (fpgaHandleGetObject named_device mock_objects (some 0) (bytes "err\x00rs") FLAGS_NONE
      true).1 = FPGA_NOT_FOUND
    ∧ (resolve named_device false (segments []) (named_device.tree 0)).isSome = true
    ∧ (fpgaTokenGetObject named_device mock_objects 0 [] FLAGS_NONE true).1
      = FPGA_NOT_FOUND
    ∧ (resolve named_device false (segments (List.replicate 256 97))
      (named_device.tree 0)).isSome = true
    ∧ (fpgaHandleGetObject named_device mock_objects (some 0) (List.replicate 256 97)
      FLAGS_NONE true).1 = FPGA_NOT_FOUND
    ∧ (fpgaObjectGetObject mock_device mock_objects (some 2) (bytes "err\x00rs") FLAGS_NONE
      true).1 = FPGA_NOT_FOUND
    ∧ (fpgaTokenGetObject mock_device mock_objects 0 (bytes "a") FLAGS_NONE true).1
      = FPGA_NOT_FOUND
    ∧ (fpgaTokenGetObject named_device mock_objects 0 (bytes "a") FLAGS_NONE true).1
      = FPGA_OK :=
  ⟨by decide,
   (((malformed_name_not_found named_device mock_objects (bytes "err\x00rs") true).1
      (Or.inl (by decide))).2.1 (some 0) 0 (by decide)).1,
   by decide,
   (((malformed_name_not_found named_device mock_objects [] true).1
      (Or.inr (Or.inr (by decide)))).1 0).1,
   by decide,
   (((malformed_name_not_found named_device mock_objects (List.replicate 256 97) true).1
      (Or.inr (Or.inl (by rw [List.length_replicate]; decide)))).2.1 (some 0) 0
      (by decide)).1,
   (((malformed_name_not_found mock_device mock_objects (bytes "err\x00rs") true).1
      (Or.inl (by decide))).2.2 (some 2) (1, mock_power_state) (by decide)).1,
   ((malformed_name_not_found mock_device mock_objects (bytes "a") true).2.2.2.1 0
      rfl).1,
   ((malformed_name_not_found named_device mock_objects (bytes "a") true).2.2.2.2
      (by decide) 0 ([bytes "a"], Node.attribute (bytes "1\n")) rfl).1⟩

/-- Witness for C2: on the runtime with the open handle 0, closing the null
handle and the never-opened handle 5 fails, the first close of handle 0
succeeds and the second fails with `FPGA_INVALID_PARAM`. -/
theorem close_null_or_closed_invalid_param_witness :
    fpgaClose mock_runtime none FPGA_OK = (FPGA_INVALID_PARAM, mock_runtime)
    ∧ fpgaClose mock_runtime (some 5) FPGA_OK = (FPGA_INVALID_PARAM, mock_runtime)
    ∧ (fpgaClose mock_runtime (some 0) FPGA_OK).1 = FPGA_OK
    ∧ (fpgaClose (fpgaClose mock_runtime (some 0) FPGA_OK).2 (some 0) FPGA_OK).1
      = FPGA_INVALID_PARAM :=
  ⟨(close_null_or_closed_invalid_param mock_runtime FPGA_OK).1,
   (close_null_or_closed_invalid_param mock_runtime FPGA_OK).2.1 5 (by decide),
   by decide,
   (close_null_or_closed_invalid_param mock_runtime FPGA_OK).2.2.1 (some 0) FPGA_OK⟩

/-- Witness for C3: the object for `power_state`, which holds "0x0\n", has
size 4 and its 4 bytes read back as "0x0\n". -/
theorem attribute_size_and_read_raw_witness :
    (fpgaObjectGetSize mock_device mock_objects (some 2) FPGA_OBJECT_SYNC).1 = FPGA_OK
    ∧ (fpgaObjectGetSize mock_device mock_objects (some 2) FPGA_OBJECT_SYNC).2.1 = some 4
    ∧ (fpgaObjectRead mock_device mock_objects (some 2) 0 4 FPGA_OBJECT_SYNC).1 = FPGA_OK
    ∧ (fpgaObjectRead mock_device mock_objects (some 2) 0 4 FPGA_OBJECT_SYNC).2.1
      = some (bytes "0x0\n")
    ∧ (fpgaObjectRead mock_device mock_objects (some 2) 0 4 FLAGS_NONE).2.1
      = some (bytes "0x0\n") :=
  ⟨(attribute_size_and_read_raw mock_device mock_objects (some 2) (1, mock_power_state)
      [bytes "power_state"] (bytes "0x0\n") (by decide) (by decide) (by rfl)).1,
   (attribute_size_and_read_raw mock_device mock_objects (some 2) (1, mock_power_state)
      [bytes "power_state"] (bytes "0x0\n") (by decide) (by decide) (by rfl)).2.1,
   (attribute_size_and_read_raw mock_device mock_objects (some 2) (1, mock_power_state)
      [bytes "power_state"] (bytes "0x0\n") (by decide) (by decide) (by rfl)).2.2.2.2.1,
   (attribute_size_and_read_raw mock_device mock_objects (some 2) (1, mock_power_state)
      [bytes "power_state"] (bytes "0x0\n") (by decide) (by decide) (by rfl)).2.2.2.2.2.1,
   ((attribute_size_and_read_raw mock_device mock_objects (some 2) (1, mock_power_state)
      [bytes "power_state"] (bytes "0x0\n") (by decide) (by decide) (by rfl)).2.2.2.2.2.2.1
      (by decide)).2⟩

/-- Witness for C4: `power`, looked up through handle 0 with
`FPGA_OBJECT_RECURSE_ONE`, has `control` as its child 0 and nothing at index 2
and beyond. -/
theorem get_object_at_first_child_and_out_of_range_witness :
    container_scenario
      (fpgaHandleGetObject mock_device mock_runtime (some 0) (bytes "power")
        FPGA_OBJECT_RECURSE_ONE true)
      0 (some 0)
      (snapshot ([bytes "power"] ++ [bytes "control"]) (Node.attribute (bytes "auto\n")))
      [snapshot ([bytes "power"] ++ [bytes "runtime_status"])
        (Node.attribute (bytes "active\n"))] :=
  (get_object_at_first_child_and_out_of_range mock_device mock_runtime (bytes "power")
    [bytes "power"] mock_power_node (bytes "control", Node.attribute (bytes "auto\n"))
    [(bytes "runtime_status", Node.attribute (bytes "active\n"))] (by decide) rfl).2.1
    (some 0) 0 (by decide) (by rfl)

/-- Witness for C5: `power` is reported as a container and its child
`control` as an attribute. -/
theorem get_type_reports_node_type_witness :
    type_scenario
      (fpgaHandleGetObject mock_device mock_runtime (some 0) (bytes "power") FLAGS_NONE true)
      FPGA_OBJECT_CONTAINER
    ∧ type_scenario
      (fpgaObjectGetObject mock_device mock_power (some 2) (bytes "control") FLAGS_NONE true)
      FPGA_OBJECT_ATTRIBUTE :=
  ⟨(get_type_reports_node_type mock_device mock_runtime (bytes "power") FLAGS_NONE
      [bytes "power"] mock_power_node (by decide)).2.1 (some 0) 0 (by decide) (by rfl),
   (get_type_reports_node_type mock_device mock_power (bytes "control") FLAGS_NONE
      [bytes "control"] (Node.attribute (bytes "auto\n")) (by decide)).2.2.1 (some 2)
      (1, mock_power_dir) ([bytes "power"], mock_power_node) (by decide) (by rfl) (by rfl)⟩

/-- Witness for C6: when the wrapper allocation fails, the lookup of
`ports_num` through token 0 and the lookup of `control` below the live
object `power` return `FPGA_NO_MEMORY` with no object, and `power` is still
destroyed with `FPGA_OK`. -/
theorem alloc_failure_no_memory_witness :
    fpgaTokenGetObject mock_device mock_runtime 0 (bytes "ports_num") FLAGS_NONE false
      = (FPGA_NO_MEMORY, none,
          ⟨mock_runtime.next + 1, mock_runtime.handles, mock_runtime.plugin_objects,
            mock_runtime.wrapped,
            mock_runtime.calls ++ [PluginCall.get_object 0 [] (bytes "ports_num") FLAGS_NONE]
              ++ [PluginCall.destroy_object mock_runtime.next]⟩)
    ∧ (fpgaObjectGetObject mock_device mock_power (some 2) (bytes "control") FLAGS_NONE
        false).1 = FPGA_NO_MEMORY
    ∧ (fpgaDestroyObject
        (fpgaObjectGetObject mock_device mock_power (some 2) (bytes "control") FLAGS_NONE
          false).2.2 (some 2)).1 = FPGA_OK :=
  ⟨(alloc_failure_no_memory mock_device mock_runtime (bytes "ports_num") FLAGS_NONE
      ⟨0, none, ⟨[bytes "ports_num"], FPGA_OBJECT_ATTRIBUTE, bytes "1\n"⟩, []⟩).1 0
      (by rfl),
   congrArg Prod.fst
     ((alloc_failure_no_memory mock_device mock_power (bytes "control") FLAGS_NONE
        ⟨0, some 0, ⟨[bytes "power", bytes "control"], FPGA_OBJECT_ATTRIBUTE, bytes "auto\n"⟩,
          []⟩).2.2 (some 2) (1, mock_power_dir) (by decide) (by rfl)).1,
   ((alloc_failure_no_memory mock_device mock_power (bytes "control") FLAGS_NONE
        ⟨0, some 0, ⟨[bytes "power", bytes "control"], FPGA_OBJECT_ATTRIBUTE, bytes "auto\n"⟩,
          []⟩).2.2 (some 2) (1, mock_power_dir) (by decide) (by rfl)).2.2⟩

/-- Witness for C7: the null reference, the reference left by the failed
lookup of "err\0rs", and the already destroyed object 2 are rejected, while
the live object 2 is destroyed with `FPGA_OK`. -/
theorem destroy_rejects_null_and_stale_witness :
    (fpgaDestroyObject mock_objects none).1 ≠ FPGA_OK
    ∧ (fpgaDestroyObject mock_objects (some 2)).1 = FPGA_OK
    ∧ (fpgaDestroyObject (fpgaDestroyObject mock_objects (some 2)).2 (some 2)).1 ≠ FPGA_OK
    ∧ (fpgaDestroyObject
        (fpgaHandleGetObject mock_device mock_objects (some 0) (bytes "err\x00rs")
          FLAGS_NONE true).2.2
        (fpgaHandleGetObject mock_device mock_objects (some 0) (bytes "err\x00rs")
          FLAGS_NONE true).2.1).1 ≠ FPGA_OK
    ∧ (fpgaDestroyObject
        (run (fpgaDestroyObject mock_objects (some 2)).2
          [(mock_device, Op.handle_get_object (some 0) (bytes "power") FLAGS_NONE true)])
        (some 2)).1 ≠ FPGA_OK :=
  ⟨(destroy_rejects_null_and_stale mock_objects).1.1,
   (destroy_rejects_null_and_stale mock_objects).2.2.1 (some 2) (1, mock_power_state)
     (by decide),
   (destroy_rejects_null_and_stale mock_objects).2.2.2.2.2.2.2.1 (some 2),
   (destroy_rejects_null_and_stale mock_objects).2.2.2.2.1 mock_device (some 0)
     (bytes "err\x00rs") FLAGS_NONE true (by decide),
   (destroy_rejects_null_and_stale mock_objects).2.2.2.2.2.2.2.2 2 (1, mock_power_state)
     [(mock_device, Op.handle_get_object (some 0) (bytes "power") FLAGS_NONE true)]
     (by decide) (by decide)⟩

/-- Witness for C8: on the mock board (four log slots) `fpga_event_log` with
`first` = 5 and with `last` = 5 is `FPGA_INVALID_PARAM`, and so is
`parse_fw_ver` with a `NULL` buffer. -/
theorem caller_misuse_invalid_param_witness :
    (fpga_event_log mock_board 0 5 0 false false false []).1 = FPGA_INVALID_PARAM
    ∧ (fpga_event_log mock_board 0 0 5 false false false []).1 = FPGA_INVALID_PARAM
    ∧ parse_fw_ver none (some [7, 7]) 2 []
      = (FPGA_INVALID_PARAM, some [7, 7],
          [] ++ [Call.enter "parse_fw_ver", Call.OPAE_ERR "Invalid Input parameters"])
    ∧ (parse_fw_ver (some (bytes "10001")) none 2 []).1 = FPGA_INVALID_PARAM :=
  ⟨((caller_misuse_invalid_param mock_board 0 0 []).2.2.2.2.2 5 0 false false false
      (Or.inl (by decide))).1,
   ((caller_misuse_invalid_param mock_board 0 0 []).2.2.2.2.2 0 5 false false false
      (Or.inr (by decide))).1,
   (caller_misuse_invalid_param mock_board 0 2 []).2.1 none (some [7, 7]) (Or.inl rfl),
   ((caller_misuse_invalid_param mock_board 0 2 []).1 (some (bytes "10001")) none).2
     (Or.inr rfl)⟩

/-- Witness for C9: with a 256-byte output buffer, "0x1000001" and
"0x000001" both give "0.0.1" and "10001" gives "1.0.1". -/
theorem parse_fw_ver_hex_numeral_witness :
    (parse_fw_ver (some (bytes "0x1000001")) (some (List.replicate 256 0)) 256 []).1 = FPGA_OK
    ∧ (parse_fw_ver (some (bytes "0x1000001")) (some (List.replicate 256 0)) 256 []).2.1.map
        c_str = some (bytes "0.0.1")
    ∧ (parse_fw_ver (some (bytes "0x000001")) (some (List.replicate 256 0)) 256 []).2.1.map
        c_str = some (bytes "0.0.1")
    ∧ (parse_fw_ver (some (bytes "10001")) (some (List.replicate 256 0)) 256 []).2.1.map
        c_str = some (bytes "1.0.1") :=
  ⟨(parse_fw_ver_hex_numeral (bytes "0x1000001") (List.replicate 256 0) (bytes "1000001")
      256 [] ⟨Or.inr (by decide), by decide, by decide⟩ (by decide) (by decide)).1,
   (parse_fw_ver_hex_numeral (bytes "0x1000001") (List.replicate 256 0) (bytes "1000001")
      256 [] ⟨Or.inr (by decide), by decide, by decide⟩ (by decide) (by decide)).2.1.trans
      (by decide),
   (parse_fw_ver_hex_numeral (bytes "0x000001") (List.replicate 256 0) (bytes "000001")
      256 [] ⟨Or.inr (by decide), by decide, by decide⟩ (by decide) (by decide)).2.1.trans
      (by decide),
   (parse_fw_ver_hex_numeral (bytes "10001") (List.replicate 256 0) (bytes "10001")
      256 [] ⟨Or.inl (by decide), by decide, by decide⟩ (by decide) (by decide)).2.1.trans
      (by decide)⟩

/-- Witness for C10: on the mock board `read_sysfs` fails with
`FPGA_NOT_FOUND` for token 1, which is what both functions return with the
output buffer untouched; for token 0 they return what `parse_fw_ver` returns
on the text read. -/
theorem fw_version_results_untranslated_witness :
    read_bmcfw_version mock_board 1 (some [7, 7]) 2 []
      = (FPGA_NOT_FOUND, some [7, 7],
          [] ++ [Call.enter "read_bmcfw_version",
            Call.read_sysfs 1 DFL_SYSFS_BMCFW_VER (FPGA_VAR_BUF_LEN - 1),
            Call.OPAE_ERR "Failed to get read object"])
    ∧ read_max10fw_version mock_board 1 (some [7, 7]) 2 []
      = (FPGA_NOT_FOUND, some [7, 7],
          [] ++ [Call.enter "read_max10fw_version",
            Call.read_sysfs 1 DFL_SYSFS_MAX10_VER (FPGA_VAR_BUF_LEN - 1),
            Call.OPAE_ERR "Failed to get read object"])
    ∧ (read_bmcfw_version mock_board 0 (some [7, 7]) 2 []).1
      = (parse_fw_ver (some (var_buf (bytes "0x1000001"))) (some [7, 7]) 2
          ([] ++ [Call.enter "read_bmcfw_version",
            Call.read_sysfs 0 DFL_SYSFS_BMCFW_VER (FPGA_VAR_BUF_LEN - 1)])).1 :=
  ⟨(fw_version_results_untranslated mock_board 1 [7, 7] 2 []).1 FPGA_NOT_FOUND rfl
      (by decide),
   (fw_version_results_untranslated mock_board 1 [7, 7] 2 []).2.2.1 FPGA_NOT_FOUND rfl
      (by decide),
   ((fw_version_results_untranslated mock_board 0 [7, 7] 2 []).2.1 (bytes "0x1000001")
      rfl).1⟩

/-! ## BOM information -/

theorem memset_take (buf : List Nat) (c len : Nat) :
    (memset buf c len).take len = List.replicate len c := by
  simp [memset, List.take_append_eq_append_take]

/-- C13: in `read_bom_info`, when the lookup of the BOM object succeeds,
`fpgaDestroyObject` is called on the object exactly once, after the read and
whether or not the read succeeded, and the result is the first failure: the
result of the read when the read failed (also when the destroy fails too),
else the result of the destroy when it failed, else `FPGA_OK`. -/
theorem read_bom_info_destroy_once_first_failure (env : Board) (token : Nat)
    (buf : List Nat) (len : Nat) (tr : List Call) (obj : Nat) (r : fpga_result × List Nat)
    (d : fpga_result)
    (hg : env.fpgaTokenGetObject (tr ++ [Call.enter "read_bom_info"]) token
      DFL_SYSFS_BOM_INFO_GLOB = (FPGA_OK, obj))
    (hr : env.fpgaObjectRead
      (tr ++ [Call.enter "read_bom_info",
        Call.fpgaTokenGetObject token DFL_SYSFS_BOM_INFO_GLOB]) obj 0 len = r)
    (hd : env.fpgaDestroyObject
      (tr ++ [Call.enter "read_bom_info",
          Call.fpgaTokenGetObject token DFL_SYSFS_BOM_INFO_GLOB,
          Call.fpgaObjectRead obj 0 len]
        ++ (if r.1 ≠ FPGA_OK then [Call.OPAE_MSG "Failed to read BOM info"] else [])) obj
      = d) :
    (read_bom_info env token (some buf) len tr).1
        = (if r.1 ≠ FPGA_OK then r.1 else if d ≠ FPGA_OK then d else FPGA_OK)
    ∧ (read_bom_info env token (some buf) len tr).2.2
        = tr ++ [Call.enter "read_bom_info",
            Call.fpgaTokenGetObject token DFL_SYSFS_BOM_INFO_GLOB,
            Call.fpgaObjectRead obj 0 len]
          ++ (if r.1 ≠ FPGA_OK then [Call.OPAE_MSG "Failed to read BOM info"] else [])
          ++ [Call.fpgaDestroyObject obj]
          ++ (if d ≠ FPGA_OK then [Call.OPAE_MSG "Failed to Destroy Object"] else [])
    ∧ ((read_bom_info env token (some buf) len tr).2.2.drop tr.length).count
        (Call.fpgaDestroyObject obj) = 1 := by
  have key : read_bom_info env token (some buf) len tr
      = ((if r.1 ≠ FPGA_OK then r.1 else if d ≠ FPGA_OK then d else FPGA_OK),
          some (if r.1 ≠ FPGA_OK then memset (store_bytes buf (r.2.take len)) 0xFF len
            else store_bytes buf (r.2.take len)),
          tr ++ [Call.enter "read_bom_info",
            Call.fpgaTokenGetObject token DFL_SYSFS_BOM_INFO_GLOB,
            Call.fpgaObjectRead obj 0 len]
          ++ (if r.1 ≠ FPGA_OK then [Call.OPAE_MSG "Failed to read BOM info"] else [])
          ++ [Call.fpgaDestroyObject obj]
          ++ (if d ≠ FPGA_OK then [Call.OPAE_MSG "Failed to Destroy Object"] else [])) := by
    subst hr hd
    simp only [read_bom_info, hg, List.append_assoc, List.singleton_append, List.cons_append,
      List.nil_append, ne_eq, not_true_eq_false, if_false]
    by_cases h1 : (env.fpgaObjectRead
        (tr ++ [Call.enter "read_bom_info",
          Call.fpgaTokenGetObject token DFL_SYSFS_BOM_INFO_GLOB]) obj 0 len).1 = FPGA_OK
    · simp only [h1, not_true_eq_false, if_false, if_true, List.nil_append]
      split <;> simp_all
    · simp only [h1, not_false_eq_true, if_true, if_false, List.cons_append, List.nil_append,
        List.append_assoc, List.singleton_append]
      split <;> simp_all
  refine ⟨by rw [key], by rw [key], ?_⟩
  rw [key]
  simp only [List.append_assoc, List.drop_left]
  by_cases h1 : r.1 = FPGA_OK <;> by_cases h2 : d = FPGA_OK <;>
    simp [h1, h2, List.count_cons]



/-- C14: for every non-`NULL` buffer and every `len`, when the BOM object
cannot be looked up `read_bom_info` returns `FPGA_OK`, not the result of the
lookup, with the first `len` bytes of the buffer set to 0xFF and the rest
untouched; and when the lookup succeeds but the read fails, the first `len`
bytes of the buffer are all 0xFF as well when the function returns. -/
theorem read_bom_info_simulates_empty_bom (env : Board) (token : Nat) (buf : List Nat)
    (len : Nat) (tr : List Call) :
    ((env.fpgaTokenGetObject (tr ++ [Call.enter "read_bom_info"]) token
        DFL_SYSFS_BOM_INFO_GLOB).1 ≠ FPGA_OK →
      (read_bom_info env token (some buf) len tr).1 = FPGA_OK
      ∧ (read_bom_info env token (some buf) len tr).2.1
          = some (List.replicate len 0xFF ++ buf.drop len)
      ∧ ∃ b, (read_bom_info env token (some buf) len tr).2.1 = some b
          ∧ b.take len = List.replicate len 0xFF)
    ∧ (∀ obj,
      env.fpgaTokenGetObject (tr ++ [Call.enter "read_bom_info"]) token
        DFL_SYSFS_BOM_INFO_GLOB = (FPGA_OK, obj) →
      (env.fpgaObjectRead
        (tr ++ [Call.enter "read_bom_info",
          Call.fpgaTokenGetObject token DFL_SYSFS_BOM_INFO_GLOB]) obj 0 len).1 ≠ FPGA_OK →
      ∃ b, (read_bom_info env token (some buf) len tr).2.1 = some b
        ∧ b.take len = List.replicate len 0xFF) := by
  refine ⟨?_, ?_⟩
  · intro hg
    have : read_bom_info env token (some buf) len tr
        = (FPGA_OK, some (memset buf 0xFF len),
            tr ++ [Call.enter "read_bom_info"]
              ++ [Call.fpgaTokenGetObject token DFL_SYSFS_BOM_INFO_GLOB]
              ++ [Call.OPAE_MSG "Failed to get token Object"]) := by
      simp only [read_bom_info, ne_eq, hg, not_false_eq_true, if_true]
    rw [this]
    exact ⟨rfl, rfl, _, rfl, memset_take _ _ _⟩
  · intro obj hg hr
    have hr2 : (env.fpgaObjectRead
        (tr ++ [Call.enter "read_bom_info"]
          ++ [Call.fpgaTokenGetObject token DFL_SYSFS_BOM_INFO_GLOB]) obj 0 len).1
        ≠ FPGA_OK := by
      simpa [List.append_assoc] using hr
    refine ⟨memset
      (store_bytes buf ((env.fpgaObjectRead
        (tr ++ [Call.enter "read_bom_info"]
          ++ [Call.fpgaTokenGetObject token DFL_SYSFS_BOM_INFO_GLOB]) obj 0 len).2.take len))
      0xFF len, ?_, memset_take _ _ _⟩
    simp only [read_bom_info, hg, ne_eq, not_true_eq_false, if_false, hr2, not_false_eq_true,
      if_true]
    split <;> rfl


/-- Witness for C13: on `bom_board` the read fails with `FPGA_EXCEPTION` and
the destroy with `FPGA_BUSY`; `read_bom_info` returns `FPGA_EXCEPTION`, the
first failure, and destroys object 1 exactly once. -/
theorem read_bom_info_destroy_once_first_failure_witness :
    (read_bom_info bom_board 0 (some [1, 2, 3, 4, 5]) 3 []).1 = FPGA_EXCEPTION
    ∧ (read_bom_info bom_board 0 (some [1, 2, 3, 4, 5]) 3 []).2.2
        = [Call.enter "read_bom_info",
            Call.fpgaTokenGetObject 0 DFL_SYSFS_BOM_INFO_GLOB,
            Call.fpgaObjectRead 1 0 3, Call.OPAE_MSG "Failed to read BOM info",
            Call.fpgaDestroyObject 1, Call.OPAE_MSG "Failed to Destroy Object"]
    ∧ ((read_bom_info bom_board 0 (some [1, 2, 3, 4, 5]) 3 []).2.2.drop 0).count
        (Call.fpgaDestroyObject 1) = 1 :=
  read_bom_info_destroy_once_first_failure bom_board 0 [1, 2, 3, 4, 5] 3 [] 1
    (FPGA_EXCEPTION, []) FPGA_BUSY rfl rfl rfl

/-- Witness for C14: on `mock_board` token 1 has no BOM object, and
`read_bom_info` returns `FPGA_OK` with the first 3 of 5 bytes set to 0xFF; on
`bom_board` the read of the object of token 0 fails and the first 3 bytes are
0xFF as well. -/
theorem read_bom_info_simulates_empty_bom_witness :
    ((read_bom_info mock_board 1 (some [1, 2, 3, 4, 5]) 3 []).1 = FPGA_OK
      ∧ (read_bom_info mock_board 1 (some [1, 2, 3, 4, 5]) 3 []).2.1
          = some [0xFF, 0xFF, 0xFF, 4, 5])
    ∧ ∃ b, (read_bom_info bom_board 0 (some [1, 2, 3, 4, 5]) 3 []).2.1 = some b
        ∧ b.take 3 = [0xFF, 0xFF, 0xFF] :=
  ⟨⟨((read_bom_info_simulates_empty_bom mock_board 1 [1, 2, 3, 4, 5] 3 []).1
        (by decide)).1,
     ((read_bom_info_simulates_empty_bom mock_board 1 [1, 2, 3, 4, 5] 3 []).1
        (by decide)).2.1⟩,
   (read_bom_info_simulates_empty_bom bom_board 0 [1, 2, 3, 4, 5] 3 []).2 1 rfl
     (by decide)⟩

/-! ## Results of the printing functions -/

/-- C11: on `fw_board` the first step of `print_board_info`, the read of the
BMC firmware version, fails with `FPGA_NOT_FOUND` and the second step, the read
of the MAX10 firmware version, fails with `FPGA_EXCEPTION`; all three steps
are attempted, and `print_board_info` returns `FPGA_EXCEPTION`, the result of
the second step, not `FPGA_NOT_FOUND`, the result of the first step that
failed. -/
theorem print_board_info_returns_second_failure :
    (read_bmcfw_version fw_board 0 (some (List.replicate FPGA_VAR_BUF_LEN 0))
        FPGA_VAR_BUF_LEN [Call.enter "print_board_info"]).1 = FPGA_NOT_FOUND
    ∧ (read_max10fw_version fw_board 0 (some (List.replicate FPGA_VAR_BUF_LEN 0))
        FPGA_VAR_BUF_LEN
        ((read_bmcfw_version fw_board 0 (some (List.replicate FPGA_VAR_BUF_LEN 0))
          FPGA_VAR_BUF_LEN [Call.enter "print_board_info"]).2.2
          ++ [Call.OPAE_ERR "Failed to read bmc version"])).1 = FPGA_EXCEPTION
    ∧ Call.enter "read_bmcfw_version" ∈ (print_board_info fw_board 0 []).2
    ∧ Call.enter "read_max10fw_version" ∈ (print_board_info fw_board 0 []).2
    ∧ Call.enter "print_bom_info" ∈ (print_board_info fw_board 0 []).2
    ∧ (print_board_info fw_board 0 []).1 = FPGA_EXCEPTION := by
  decide

set_option maxRecDepth 100000 in
/-- C12: on `sec_board` the first attribute read of `print_sec_info` fails
with `FPGA_NOT_FOUND` and the last one with `FPGA_EXCEPTION`; the eleven
attributes are read in the order of the source and the object is destroyed,
and `print_sec_info` returns `FPGA_EXCEPTION`, the result of the last step that
failed, not `FPGA_NOT_FOUND`, the result of the first. On `sec_busy_board`,
where the destroy fails with `FPGA_BUSY` too, it returns `FPGA_BUSY`. -/
theorem print_sec_info_returns_last_failure :
    (sec_board.read_sysfs
        [Call.enter "print_sec_info", Call.fpgaTokenGetObject 0 DFL_SEC_PMCI_GLOB,
          Call.printf "********** SEC Info START ************ \n" []]
        0 "*dfl*/**/security/bmc_root_entry_hash" (sec_board.SYSFS_PATH_MAX - 1)).1
      = FPGA_NOT_FOUND
    ∧ (print_sec_info sec_board 0 []).2.filterMap
        (fun c => match c with
          | Call.read_sysfs _ path _ => some path
          | _ => none)
      = sec_fields.map (fun f => f.path)
    ∧ sec_fields.length = 11
    ∧ Call.fpgaDestroyObject 1 ∈ (print_sec_info sec_board 0 []).2
    ∧ (print_sec_info sec_board 0 []).1 = FPGA_EXCEPTION
    ∧ (print_sec_info sec_busy_board 0 []).1 = FPGA_BUSY := by
  decide

/-- C15: on `bel_ptr_board`, where `bel_ptr` fails with `FPGA_EXCEPTION`, and
on `bel_read_board`, where the second `bel_read` fails with `FPGA_EXCEPTION`,
`fpga_event_log` stops and destroys the object, but returns `FPGA_OK`, not the
result of the failed read. -/
theorem fpga_event_log_read_failure_returns_ok :
    (bel_ptr_board.bel_ptr
        [Call.enter "fpga_event_log", Call.fpgaTokenGetObject 0 DFL_SYSFS_EVENT_LOG_GLOB]
        1).1 = FPGA_EXCEPTION
    ∧ fpga_event_log bel_ptr_board 0 0 1 false false false []
      = (FPGA_OK, [Call.enter "fpga_event_log",
          Call.fpgaTokenGetObject 0 DFL_SYSFS_EVENT_LOG_GLOB, Call.bel_ptr 1,
          Call.OPAE_MSG "Failed to read log pointer", Call.fpgaDestroyObject 1])
    ∧ (bel_read_board.bel_read
        [Call.enter "fpga_event_log", Call.fpgaTokenGetObject 0 DFL_SYSFS_EVENT_LOG_GLOB,
          Call.bel_ptr 1, Call.bel_read 1 0, Call.printf "Boot %i\n" [Arg.int 0],
          Call.bel_print [0] false false]
        1 1).1 = FPGA_EXCEPTION
    ∧ fpga_event_log bel_read_board 0 0 3 false false false []
      = (FPGA_OK, [Call.enter "fpga_event_log",
          Call.fpgaTokenGetObject 0 DFL_SYSFS_EVENT_LOG_GLOB, Call.bel_ptr 1,
          Call.bel_read 1 0, Call.printf "Boot %i\n" [Arg.int 0],
          Call.bel_print [0] false false,
          Call.bel_read 1 1, Call.fpgaDestroyObject 1]) := by
  decide

/-! ## More on `parse_fw_ver` -/

set_option maxRecDepth 100000 in
theorem fmt_u_byte_pos : ∀ a : Fin 256, 1 ≤ (fmt_u a.val).length := by
  decide

theorem version_string_length_ge (w : Nat) : 5 ≤ (version_string w).length := by
  have ha := fmt_u_byte_pos ⟨(w >>> 16) &&& 0xff, and_ff_lt _⟩
  have hb := fmt_u_byte_pos ⟨(w >>> 8) &&& 0xff, and_ff_lt _⟩
  have hc := fmt_u_byte_pos ⟨w &&& 0xff, and_ff_lt _⟩
  simp only at ha hb hc
  simp only [version_string, List.length_append, List.length_singleton]
  omega

theorem parse_fw_ver_cases (buf out : List Nat) (len : Nat) (tr : List Call) :
    ((strtoul16 (c_str buf)).2 ≠ (c_str buf).length →
      parse_fw_ver (some buf) (some out) len tr
        = (FPGA_EXCEPTION, some out,
            tr ++ [Call.enter "parse_fw_ver"]
              ++ [Call.OPAE_ERR "Failed to convert buffer to integer: %s"]))
    ∧ ((strtoul16 (c_str buf)).2 = (c_str buf).length →
      parse_fw_ver (some buf) (some out) len tr
        = (FPGA_OK,
            some (snprintf out len
              (version_string ((strtoul16 (c_str buf)).1 % 2 ^ 32))).1,
            tr ++ [Call.enter "parse_fw_ver"])) := by
  refine ⟨?_, ?_⟩
  · intro h
    simp only [parse_fw_ver, ne_eq, h, not_false_eq_true, if_true]
  · intro h
    have hnn : ¬ (snprintf out len
        (version_string ((strtoul16 (c_str buf)).1 % 2 ^ 32))).2 < 0 := by
      unfold snprintf
      split <;> exact not_lt.mpr (Int.natCast_nonneg _)
    simp only [version_string] at hnn
    simp only [parse_fw_ver, ne_eq, h, not_true_eq_false, if_false, hnn, version_string]

theorem strtoul_digits_count (t : Nat) (rest : List Nat)
    (ht : (hex_digit t).isSome = false) (ds : List Nat) :
    ∀ (acc : Nat) (ovf : Bool) (n : Nat), (∀ c ∈ ds, (hex_digit c).isSome = true) →
      (strtoul_digits (ds ++ t :: rest) acc ovf n).2.2 = n + ds.length := by
  induction ds with
  | nil =>
    intro acc ovf n _
    have : hex_digit t = none := by
      cases h : hex_digit t with
      | none => rfl
      | some v => simp [h] at ht
    simp [strtoul_digits, this]
  | cons c cs ih =>
    intro acc ovf n hhex
    obtain ⟨v, hv⟩ := Option.isSome_iff_exists.mp (hhex c (List.mem_cons_self _ _))
    have hcs : ∀ c ∈ cs, (hex_digit c).isSome = true :=
      fun c hc => hhex c (List.mem_cons_of_mem _ hc)
    simp only [List.cons_append, strtoul_digits, hv, List.append_eq]
    split
    · rw [ih acc true (n + 1) hcs]
      simp only [List.length_cons]
      omega
    · rw [ih (acc * 16 + v) false (n + 1) hcs]
      simp only [List.length_cons]
      omega

theorem strtoul16_no_number (c : Nat) (rest : List Nat) (hsp : isspace c = false)
    (hm : c ≠ 45) (hp : c ≠ 43) (hh : (hex_digit c).isSome = false) :
    strtoul16 (c :: rest) = (0, 0) := by
  have hws : List.takeWhile isspace (c :: rest) = [] := by
    simp [List.takeWhile_cons, hsp]
  have hsign : strtoul_sign (c :: rest) = (false, 0, c :: rest) := by
    unfold strtoul_sign
    split
    · rename_i heq
      simp only [List.cons.injEq] at heq
      exact absurd heq.1 hm
    · rename_i heq
      simp only [List.cons.injEq] at heq
      exact absurd heq.1 hp
    · rfl
  have hnone : hex_digit c = none := by
    cases h : hex_digit c with
    | none => rfl
    | some v => simp [h] at hh
  have h0x : strtoul_0x (c :: rest) = (0, c :: rest) := by
    unfold strtoul_0x
    split
    · rename_i heq
      simp only [List.cons.injEq] at heq
      rw [heq.1] at hnone
      simp [hex_digit] at hnone
    · rfl
  simp [strtoul16, hws, hsign, h0x, strtoul_digits, hnone]

theorem strtoul_0x_digits_then (ds : List Nat) (t : Nat) (rest : List Nat)
    (h : ∀ c ∈ ds, (hex_digit c).isSome = true) (hne : ds ≠ [])
    (hx : ds = [48] → t ≠ 120 ∧ t ≠ 88) :
    strtoul_0x (ds ++ t :: rest) = (0, ds ++ t :: rest) := by
  unfold strtoul_0x
  split
  · rename_i x d r heq
    obtain ⟨c, cs, rfl⟩ := List.exists_cons_of_ne_nil hne
    have hx2 : x ≠ 120 ∧ x ≠ 88 := by
      cases cs with
      | nil =>
        simp only [List.cons_append, List.nil_append, List.cons.injEq] at heq
        rw [← heq.2.1]
        exact hx (by rw [heq.1])
      | cons c2 cs2 =>
        simp only [List.cons_append, List.cons.injEq] at heq
        have := hex_digit_range c2 (h c2 (by simp))
        rw [← heq.2.1]
        omega
    have e1 : (x == 120) = false := by simpa using hx2.1
    have e2 : (x == 88) = false := by simpa using hx2.2
    simp [e1, e2]
  · rfl

theorem strtoul16_trailing (num ds : List Nat) (t : Nat) (rest : List Nat)
    (hnum : hex_numeral num ds) (ht : (hex_digit t).isSome = false)
    (hx : num = [48] → t ≠ 120 ∧ t ≠ 88) :
    (strtoul16 (num ++ t :: rest)).2 = num.length := by
  obtain ⟨hshape, hne, hhex⟩ := hnum
  obtain ⟨c, r, rfl⟩ := List.exists_cons_of_ne_nil hne
  have hc := hhex c (List.mem_cons_self _ _)
  have hcount := fun acc ovf n => strtoul_digits_count t rest ht (c :: r) acc ovf n hhex
  rcases hshape with rfl | rfl
  · have hws : List.takeWhile isspace (c :: r ++ t :: rest) = [] := by
      simp [List.takeWhile_cons, isspace_hex c hc]
    have hsign : strtoul_sign (c :: r ++ t :: rest) = (false, 0, c :: r ++ t :: rest) :=
      strtoul_sign_hex c (r ++ t :: rest) hc
    have h0x := strtoul_0x_digits_then (c :: r) t rest hhex hne hx
    have hn := hcount 0 false 0
    simp only [strtoul16, hws, List.length_nil, List.drop_zero, hsign, h0x, hn]
    simp
  · have hws : List.takeWhile isspace ([48, 120] ++ c :: r ++ t :: rest) = [] := by
      simp [List.takeWhile_cons, isspace_hex 48 hex_digit_48]
    have hsign : strtoul_sign ([48, 120] ++ c :: r ++ t :: rest)
        = (false, 0, [48, 120] ++ c :: r ++ t :: rest) :=
      strtoul_sign_hex 48 _ hex_digit_48
    have h0x : strtoul_0x ([48, 120] ++ c :: r ++ t :: rest) = (2, c :: r ++ t :: rest) :=
      strtoul_0x_pfx c (r ++ t :: rest) hc
    have hn := hcount 0 false 0
    simp only [strtoul16, hws, List.length_nil, List.drop_zero, hsign, h0x, hn]
    simp
    omega

/-- C19: for non-`NULL` arguments `parse_fw_ver` returns `FPGA_EXCEPTION`
exactly when the base-16 `strtoul` conversion of the string in `buf` stops
before the terminating NUL, and then `fw_ver` is left as it was; in every other
case it returns `FPGA_OK`. The conversion stops early for every non-empty
string in which no number is found (for one, when the first character is
neither white space nor a sign nor a hexadecimal digit), and for every numeral
followed by a character that does not continue it; the empty string is
converted to the end, giving `FPGA_OK` and, for `len` of at least 6, the text
"0.0.0". -/
theorem parse_fw_ver_exception_iff_unconverted (buf out : List Nat) (len : Nat)
    (tr : List Call) :
    ((parse_fw_ver (some buf) (some out) len tr).1 = FPGA_EXCEPTION
        ↔ (strtoul16 (c_str buf)).2 ≠ (c_str buf).length)
    ∧ ((parse_fw_ver (some buf) (some out) len tr).1 = FPGA_EXCEPTION →
        (parse_fw_ver (some buf) (some out) len tr).2.1 = some out)
    ∧ ((parse_fw_ver (some buf) (some out) len tr).1 ≠ FPGA_EXCEPTION →
        (parse_fw_ver (some buf) (some out) len tr).1 = FPGA_OK)
    ∧ (c_str buf ≠ [] → (strtoul16 (c_str buf)).2 = 0 →
        (parse_fw_ver (some buf) (some out) len tr).1 = FPGA_EXCEPTION)
    ∧ (∀ c rest, c_str buf = c :: rest → isspace c = false → c ≠ 45 → c ≠ 43 →
        (hex_digit c).isSome = false →
        (parse_fw_ver (some buf) (some out) len tr).1 = FPGA_EXCEPTION)
    ∧ (∀ num ds t rest, hex_numeral num ds → c_str buf = num ++ t :: rest →
        (hex_digit t).isSome = false → (num = [48] → t ≠ 120 ∧ t ≠ 88) →
        (parse_fw_ver (some buf) (some out) len tr).1 = FPGA_EXCEPTION)
    ∧ (c_str buf = [] →
        (parse_fw_ver (some buf) (some out) len tr).1 = FPGA_OK
        ∧ (6 ≤ len →
          (parse_fw_ver (some buf) (some out) len tr).2.1.map c_str
            = some (bytes "0.0.0"))) := by
  obtain ⟨hex, hok⟩ := parse_fw_ver_cases buf out len tr
  have hiff : (parse_fw_ver (some buf) (some out) len tr).1 = FPGA_EXCEPTION
      ↔ (strtoul16 (c_str buf)).2 ≠ (c_str buf).length := by
    constructor
    · intro h hn
      rw [hok hn] at h
      cases h
    · intro h
      rw [hex h]
  refine ⟨hiff, ?_, ?_, ?_, ?_, ?_, ?_⟩
  · intro h
    rw [hex (hiff.mp h)]
  · intro h
    by_cases hn : (strtoul16 (c_str buf)).2 = (c_str buf).length
    · rw [hok hn]
    · exact absurd (hiff.mpr hn) h
  · intro hne h0
    apply hiff.mpr
    rw [h0]
    intro h
    exact hne (List.length_eq_zero.mp h.symm)
  · intro c rest hb hsp hm hp hh
    apply hiff.mpr
    rw [hb, strtoul16_no_number c rest hsp hm hp hh]
    simp
  · intro num ds t rest hnum hb ht hx
    apply hiff.mpr
    rw [hb, strtoul16_trailing num ds t rest hnum ht hx]
    simp
  · intro hb
    have hst : strtoul16 (c_str buf) = (0, 0) := by
      rw [hb]
      decide
    have hn : (strtoul16 (c_str buf)).2 = (c_str buf).length := by
      rw [hst, hb]
      rfl
    rw [hok hn, hst]
    refine ⟨rfl, ?_⟩
    intro hlen
    have hv : version_string (0 % 2 ^ 32) = bytes "0.0.0" := by decide
    rw [hv, snprintf_fits out (bytes "0.0.0") len (by
      have : (bytes "0.0.0").length = 5 := by decide
      omega)]
    simp only [Option.map_some', List.append_assoc, List.singleton_append]
    rw [c_str_append_nul (bytes "0.0.0") _ (by decide)]

/-- Witness for C19: the texts "zz", " " and "-" hold no number and the texts
"1f ", "1f\n" and "0x" have a character after the number, and all are
answered with `FPGA_EXCEPTION` with `fw_ver` untouched; the empty text gives
`FPGA_OK` and "0.0.0". -/
theorem parse_fw_ver_exception_iff_unconverted_witness :
    (parse_fw_ver (some (bytes "zz")) (some [7, 7]) 2 []).1 = FPGA_EXCEPTION
    ∧ (parse_fw_ver (some (bytes "zz")) (some [7, 7]) 2 []).2.1 = some [7, 7]
    ∧ (parse_fw_ver (some (bytes " ")) (some [7, 7]) 2 []).1 = FPGA_EXCEPTION
    ∧ (parse_fw_ver (some (bytes "-")) (some [7, 7]) 2 []).1 = FPGA_EXCEPTION
    ∧ (parse_fw_ver (some (bytes "1f ")) (some [7, 7]) 2 []).1 = FPGA_EXCEPTION
    ∧ (parse_fw_ver (some (bytes "1f\n")) (some [7, 7]) 2 []).1 = FPGA_EXCEPTION
    ∧ (parse_fw_ver (some (bytes "0x")) (some [7, 7]) 2 []).1 = FPGA_EXCEPTION
    ∧ (parse_fw_ver (some []) (some (List.replicate 8 7)) 8 []).1 = FPGA_OK
    ∧ (parse_fw_ver (some []) (some (List.replicate 8 7)) 8 []).2.1.map c_str
        = some (bytes "0.0.0") :=
  ⟨(parse_fw_ver_exception_iff_unconverted (bytes "zz") [7, 7] 2 []).2.2.2.2.1 122 [122]
      (by decide) (by decide) (by decide) (by decide) (by decide),
   (parse_fw_ver_exception_iff_unconverted (bytes "zz") [7, 7] 2 []).2.1
     ((parse_fw_ver_exception_iff_unconverted (bytes "zz") [7, 7] 2 []).1.mpr (by decide)),
   (parse_fw_ver_exception_iff_unconverted (bytes " ") [7, 7] 2 []).2.2.2.1 (by decide)
     (by decide),
   (parse_fw_ver_exception_iff_unconverted (bytes "-") [7, 7] 2 []).2.2.2.1 (by decide)
     (by decide),
   (parse_fw_ver_exception_iff_unconverted (bytes "1f ") [7, 7] 2 []).2.2.2.2.2.1
     (bytes "1f") (bytes "1f") 32 [] ⟨Or.inl rfl, by decide, by decide⟩ (by decide)
     (by decide) (by decide),
   (parse_fw_ver_exception_iff_unconverted (bytes "1f\n") [7, 7] 2 []).2.2.2.2.2.1
     (bytes "1f") (bytes "1f") 10 [] ⟨Or.inl rfl, by decide, by decide⟩ (by decide)
     (by decide) (by decide),
   (parse_fw_ver_exception_iff_unconverted (bytes "0x") [7, 7] 2 []).1.mpr (by decide),
   ((parse_fw_ver_exception_iff_unconverted [] (List.replicate 8 7) 8 []).2.2.2.2.2.2
     (by decide)).1,
   ((parse_fw_ver_exception_iff_unconverted [] (List.replicate 8 7) 8 []).2.2.2.2.2.2
     (by decide)).2 (by decide)⟩


/-- C20: for every input on which `parse_fw_ver` returns `FPGA_OK`, with `v`
the parsed number reduced modulo 2^32, the three components printed,
`(v >> 16) & 0xFF`, `(v >> 8) & 0xFF` and `v & 0xFF`, are below 256, so the
formatted version has between 5 and 11 characters; hence for every `len` of
at least 12, as is the `FPGA_VAR_BUF_LEN` that `print_board_info` passes,
`fw_ver` holds the whole version followed by a NUL, and the rest of `fw_ver` is
untouched. -/
theorem parse_fw_ver_output_complete (buf out : List Nat) (len : Nat) (tr : List Call)
    (hok : (parse_fw_ver (some buf) (some out) len tr).1 = FPGA_OK) :
    (((strtoul16 (c_str buf)).1 % 2 ^ 32) >>> 16) &&& 0xff < 256
    ∧ (((strtoul16 (c_str buf)).1 % 2 ^ 32) >>> 8) &&& 0xff < 256
    ∧ ((strtoul16 (c_str buf)).1 % 2 ^ 32) &&& 0xff < 256
    ∧ version_string ((strtoul16 (c_str buf)).1 % 2 ^ 32)
        = fmt_u ((((strtoul16 (c_str buf)).1 % 2 ^ 32) >>> 16) &&& 0xff) ++ [46]
          ++ fmt_u ((((strtoul16 (c_str buf)).1 % 2 ^ 32) >>> 8) &&& 0xff) ++ [46]
          ++ fmt_u (((strtoul16 (c_str buf)).1 % 2 ^ 32) &&& 0xff)
    ∧ 5 ≤ (version_string ((strtoul16 (c_str buf)).1 % 2 ^ 32)).length
    ∧ (version_string ((strtoul16 (c_str buf)).1 % 2 ^ 32)).length ≤ 11
    ∧ (12 ≤ len →
        (parse_fw_ver (some buf) (some out) len tr).2.1
          = some (version_string ((strtoul16 (c_str buf)).1 % 2 ^ 32) ++ [0]
              ++ out.drop ((version_string ((strtoul16 (c_str buf)).1 % 2 ^ 32)).length + 1))
        ∧ (parse_fw_ver (some buf) (some out) len tr).2.1.map c_str
          = some (version_string ((strtoul16 (c_str buf)).1 % 2 ^ 32)))
    ∧ 12 ≤ FPGA_VAR_BUF_LEN := by
  obtain ⟨hex, hconv⟩ := parse_fw_ver_cases buf out len tr
  have hn : (strtoul16 (c_str buf)).2 = (c_str buf).length := by
    by_contra h
    rw [hex h] at hok
    cases hok
  have hspec := version_string_spec ((strtoul16 (c_str buf)).1 % 2 ^ 32)
  refine ⟨and_ff_lt _, and_ff_lt _, and_ff_lt _, rfl, version_string_length_ge _, hspec.1,
    ?_, by decide⟩
  intro hlen
  have hfit := snprintf_fits out (version_string ((strtoul16 (c_str buf)).1 % 2 ^ 32)) len
    (by omega)
  rw [hconv hn, hfit]
  refine ⟨rfl, ?_⟩
  simp only [Option.map_some', List.append_assoc, List.singleton_append]
  rw [c_str_append_nul _ _ hspec.2]

/-- Witness for C20: the text "1ffffffff" is the number 2^33 - 1, which is
reduced to 2^32 - 1 and printed as "255.255.255", 11 characters that fit in a
buffer of 12 bytes with the NUL. -/
theorem parse_fw_ver_output_complete_witness :
    (parse_fw_ver (some (bytes "1ffffffff")) (some (List.replicate 12 7)) 12 []).1 = FPGA_OK
    ∧ (strtoul16 (c_str (bytes "1ffffffff"))).1 = 2 ^ 33 - 1
    ∧ (parse_fw_ver (some (bytes "1ffffffff")) (some (List.replicate 12 7)) 12 []).2.1
        = some (bytes "255.255.255" ++ [0])
    ∧ (parse_fw_ver (some (bytes "1ffffffff")) (some (List.replicate 12 7)) 12
        []).2.1.map c_str = some (bytes "255.255.255") :=
  ⟨by decide, by decide,
   ((parse_fw_ver_output_complete (bytes "1ffffffff") (List.replicate 12 7) 12 []
      (by decide)).2.2.2.2.2.2.1 (by decide)).1.trans (by decide),
   ((parse_fw_ver_output_complete (bytes "1ffffffff") (List.replicate 12 7) 12 []
      (by decide)).2.2.2.2.2.2.1 (by decide)).2.trans (by decide)⟩

/-! ## Logging, initialisation and finalisation -/

/-- The calls of `opae_print` when it emits a message. -/
theorem opae_print_emits (p : Process) (g : Globals) (loglevel : Int) (fmt : String)
    (tr : List InitCall) (hlvl : loglevel ≤ g.g_loglevel) :
    ∃ err2 : Int,
      opae_print p g loglevel fmt tr
        = tr ++ ([InitCall.pthread_mutex_lock (p.pthread_mutex_lock tr)]
          ++ (if p.pthread_mutex_lock tr ≠ 0 then
                [InitCall.fprintf_stderr "pthread_mutex_lock() failed: %s"]
              else [])
          ++ [InitCall.vfprintf
                (if loglevel = p.OPAE_LOG_ERROR then Stream.stderr
                  else g.g_logfile.getD Stream.stdout) fmt]
          ++ [InitCall.pthread_mutex_unlock err2]
          ++ (if err2 ≠ 0 then [InitCall.fprintf_stderr "pthread_mutex_unlock() failed: %s"]
              else [])) := by
  have hn : ¬ loglevel > g.g_loglevel := not_lt.mpr hlvl
  have hfp : (if loglevel = p.OPAE_LOG_ERROR then Stream.stderr
      else
        match g.g_logfile with
        | none => Stream.stdout
        | some f => f)
      = (if loglevel = p.OPAE_LOG_ERROR then Stream.stderr
          else g.g_logfile.getD Stream.stdout) := by
    cases g.g_logfile <;> rfl
  refine ⟨p.pthread_mutex_unlock
    (tr ++ [InitCall.pthread_mutex_lock (p.pthread_mutex_lock tr)]
      ++ (if p.pthread_mutex_lock tr ≠ 0 then
            [InitCall.fprintf_stderr "pthread_mutex_lock() failed: %s"]
          else [])
      ++ [InitCall.vfprintf
            (if loglevel = p.OPAE_LOG_ERROR then Stream.stderr
              else g.g_logfile.getD Stream.stdout) fmt]), ?_⟩
  simp only [opae_print, hn, if_false, hfp]
  generalize (if loglevel = p.OPAE_LOG_ERROR then Stream.stderr
    else g.g_logfile.getD Stream.stdout) = fp
  by_cases h1 : p.pthread_mutex_lock tr = 0
  · simp only [h1, ne_eq, not_true_eq_false, if_false, List.append_nil, List.append_assoc,
      List.singleton_append]
    split <;> simp_all
  · simp only [h1, ne_eq, not_false_eq_true, if_true, List.append_assoc,
      List.singleton_append]
    split <;> simp_all

/-- C16: a call of `opae_print` with `loglevel` above the global log level
writes nothing. Every other call calls `pthread_mutex_lock` on `log_lock`,
writes the message to its stream (`stderr` at `OPAE_LOG_ERROR`, else the log
file, else `stdout`) by one `vfprintf`, exactly once, and then calls
`pthread_mutex_unlock`; and whenever the lock call gives a result the
recursive mutex can give, the message is written while the calling thread
holds `log_lock`. -/
theorem opae_print_writes_under_lock (p : Process) (g : Globals) (loglevel : Int)
    (fmt : String) (tr : List InitCall) (held : Nat) :
    (loglevel > g.g_loglevel → opae_print p g loglevel fmt tr = tr)
    ∧ (loglevel ≤ g.g_loglevel →
      (∃ err2 : Int,
        opae_print p g loglevel fmt tr
          = tr ++ ([InitCall.pthread_mutex_lock (p.pthread_mutex_lock tr)]
            ++ (if p.pthread_mutex_lock tr ≠ 0 then
                  [InitCall.fprintf_stderr "pthread_mutex_lock() failed: %s"]
                else [])
            ++ [InitCall.vfprintf
                  (if loglevel = p.OPAE_LOG_ERROR then Stream.stderr
                    else g.g_logfile.getD Stream.stdout) fmt]
            ++ [InitCall.pthread_mutex_unlock err2]
            ++ (if err2 ≠ 0 then
                  [InitCall.fprintf_stderr "pthread_mutex_unlock() failed: %s"]
                else [])))
      ∧ messages_written ((opae_print p g loglevel fmt tr).drop tr.length)
          = [(if loglevel = p.OPAE_LOG_ERROR then Stream.stderr
                else g.g_logfile.getD Stream.stdout, fmt)]
      ∧ (lock_result held (p.pthread_mutex_lock tr) = true →
          writes_under_lock held ((opae_print p g loglevel fmt tr).drop tr.length)
            = true)) := by
  refine ⟨?_, ?_⟩
  · intro h
    simp only [opae_print, h, if_true]
  · intro hlvl
    obtain ⟨err2, h⟩ := opae_print_emits p g loglevel fmt tr hlvl
    refine ⟨⟨err2, h⟩, ?_, ?_⟩
    · rw [h, List.drop_left]
      by_cases h1 : p.pthread_mutex_lock tr = 0 <;> by_cases h2 : err2 = 0 <;>
        simp [h1, h2, messages_written]
    · intro hres
      rw [h, List.drop_left]
      by_cases h1 : p.pthread_mutex_lock tr = 0
      · by_cases h2 : err2 = 0 <;> simp [h1, h2, writes_under_lock]
      · have hheld : 0 < held := by
          simpa [lock_result, h1] using hres
        by_cases h2 : err2 = 0 <;> simp [h1, h2, writes_under_lock, hheld]

/-- Witness for C16: in `mock_process` a message at `OPAE_LOG_ERROR` is
written once to `stderr` between the lock call and the unlock call, with
`log_lock` held, and a message at level 2, above the global level 1, is not
written. -/
theorem opae_print_writes_under_lock_witness :
    opae_print mock_process mock_globals 2 "msg" [] = []
    ∧ messages_written ((opae_print mock_process mock_globals 1 "msg" []).drop 0)
        = [(Stream.stderr, "msg")]
    ∧ writes_under_lock 0 ((opae_print mock_process mock_globals 1 "msg" []).drop 0) = true
    ∧ opae_print mock_process mock_globals 1 "msg" []
        = [InitCall.pthread_mutex_lock 0, InitCall.vfprintf Stream.stderr "msg",
            InitCall.pthread_mutex_unlock 0] :=
  ⟨(opae_print_writes_under_lock mock_process mock_globals 2 "msg" [] 0).1 (by decide),
   ((opae_print_writes_under_lock mock_process mock_globals 1 "msg" [] 0).2
      (by decide)).2.1,
   ((opae_print_writes_under_lock mock_process mock_globals 1 "msg" [] 0).2
      (by decide)).2.2 (by decide),
   by decide⟩

theorem calls_fpgaInitialize_append (a b : List InitCall) :
    calls_fpgaInitialize (a ++ b) = (calls_fpgaInitialize a || calls_fpgaInitialize b) := by
  simp [calls_fpgaInitialize, List.any_append]

theorem calls_fpgaFinalize_append (a b : List InitCall) :
    calls_fpgaFinalize (a ++ b) = (calls_fpgaFinalize a || calls_fpgaFinalize b) := by
  simp [calls_fpgaFinalize, List.any_append]

/-- The calls of `opae_print` are appended to those before, and neither
`fpgaInitialize` nor `fpgaFinalize` is among them. -/
theorem opae_print_ext (p : Process) (g : Globals) (loglevel : Int) (fmt : String)
    (tr : List InitCall) :
    ∃ new, opae_print p g loglevel fmt tr = tr ++ new
      ∧ calls_fpgaInitialize new = false ∧ calls_fpgaFinalize new = false := by
  by_cases hlvl : loglevel ≤ g.g_loglevel
  · obtain ⟨err2, h⟩ := opae_print_emits p g loglevel fmt tr hlvl
    refine ⟨_, h, ?_, ?_⟩
    · by_cases h1 : p.pthread_mutex_lock tr = 0 <;> by_cases h2 : err2 = 0 <;>
        simp [h1, h2, calls_fpgaInitialize]
    · by_cases h1 : p.pthread_mutex_lock tr = 0 <;> by_cases h2 : err2 = 0 <;>
        simp [h1, h2, calls_fpgaFinalize]
  · refine ⟨[], ?_, rfl, rfl⟩
    have h : loglevel > g.g_loglevel := not_le.mp hlvl
    simp only [opae_print, h, if_true, List.append_nil]

theorem opae_init_log_ext (p : Process) (g0 : Globals) (tr : List InitCall) :
    ∃ new, (opae_init_log p g0 tr).2 = tr ++ new
      ∧ calls_fpgaInitialize new = false ∧ calls_fpgaFinalize new = false := by
  have h1 : ∃ n1,
      (match p.getenv "LIBOPAE_LOG" with
        | none => (g0, tr)
        | some s =>
          ({ g0 with g_loglevel := p.atoi s },
            if !p.LIBOPAE_DEBUG && decide (p.atoi s ≥ p.OPAE_LOG_DEBUG) then
              tr ++ [InitCall.fprintf_stderr
                "WARNING: Environment variable LIBOPAE_LOG is set to output debug\nmessages, but libopae-c was not built with debug information.\n"]
            else tr)).2 = tr ++ n1
      ∧ calls_fpgaInitialize n1 = false ∧ calls_fpgaFinalize n1 = false := by
    split
    · exact ⟨[], by simp, rfl, rfl⟩
    · split
      · exact ⟨_, rfl, rfl, rfl⟩
      · exact ⟨[], by simp, rfl, rfl⟩
  obtain ⟨n1, e1, a1, b1⟩ := h1
  simp only [opae_init_log]
  cases hlf : p.getenv "LIBOPAE_LOGFILE" with
  | none => exact ⟨n1, e1, a1, b1⟩
  | some s =>
    simp only
    split
    · split
      · refine ⟨n1 ++ [InitCall.opae_fopen s], ?_, ?_, ?_⟩
        · simp only [e1, List.append_assoc]
        · rw [calls_fpgaInitialize_append, a1]
          rfl
        · rw [calls_fpgaFinalize_append, b1]
          rfl
      · refine ⟨n1 ++ [InitCall.opae_fopen s,
          InitCall.fprintf_stderr "Could not open log file for writing: %s. ",
          InitCall.fprintf_stderr "Error is: %s\n"], ?_, ?_, ?_⟩
        · simp only [e1, List.append_assoc]
        · rw [calls_fpgaInitialize_append, a1]
          rfl
        · rw [calls_fpgaFinalize_append, b1]
          rfl
    · exact ⟨n1, e1, a1, b1⟩

theorem snprintf_str_nonneg (size : Nat) (s : List Nat) : ¬ (snprintf_str size s).2 < 0 := by
  unfold snprintf_str snprintf
  split <;> exact not_lt.mpr (Int.natCast_nonneg _)

theorem find_home_cfg_eq (p : Process) (g : Globals) (dir : List Nat)
    (fs : List (List Nat)) (tr : List InitCall) :
    find_home_cfg p g dir fs tr
      = ((fs.map fun f => (snprintf_str PATH_MAX (dir ++ f)).1).findSome?
          p.opae_canonicalize_file_name, tr) := by
  induction fs with
  | nil => rfl
  | cons f fs ih =>
    simp only [find_home_cfg, snprintf_str_nonneg, if_false, List.map_cons,
      List.findSome?_cons]
    split <;> simp_all

theorem find_sys_cfg_eq (p : Process) (fs : List (List Nat)) :
    find_sys_cfg p fs
      = (fs.map fun f => f.take (min f.length (CFG_PATH_MAX - 1))).findSome?
          p.opae_canonicalize_file_name := by
  induction fs with
  | nil => rfl
  | cons f fs ih =>
    simp only [find_sys_cfg, List.map_cons, List.findSome?_cons]
    split <;> simp_all

/-- The function `find_ase_cfg` returns the canonical name of the first of
the paths it tries that names an existing file, and logs nothing. -/
theorem find_ase_cfg_eq (p : Process) (g : Globals) (tr : List InitCall) :
    find_ase_cfg p g tr
      = ((ase_cfg_paths p).findSome? p.opae_canonicalize_file_name, tr) := by
  simp only [find_ase_cfg, ase_cfg_paths, snprintf_str_nonneg, if_false, find_home_cfg_eq,
    find_sys_cfg_eq, List.cons_append, List.nil_append, List.findSome?_cons]
  cases h1 : p.opae_canonicalize_file_name p.OPAE_ASE_CFG_SRC_PATH with
  | some a => rfl
  | none =>
    simp only
    cases h2 : p.opae_canonicalize_file_name p.OPAE_ASE_CFG_INST_PATH with
    | some a => rfl
    | none =>
      simp only
      cases h3 : p.getenv "OPAE_PLATFORM_ROOT" with
      | none =>
        simp only [List.nil_append]
        cases h5 : p.pw_dir with
        | none => simp
        | some dir =>
          simp only [List.findSome?_append]
          cases (List.map (fun f => (snprintf_str PATH_MAX (dir ++ f)).1)
            _ase_home_cfg_files).findSome? p.opae_canonicalize_file_name <;> simp
      | some root =>
        simp only [List.cons_append, List.nil_append, List.findSome?_cons]
        cases h4 : p.opae_canonicalize_file_name
          (snprintf_str PATH_MAX (root ++ bytes "/share/opae/ase/opae_ase.cfg")).1 with
        | some a => rfl
        | none =>
          simp only
          cases h5 : p.pw_dir with
          | none => simp
          | some dir =>
            simp only [List.findSome?_append]
            cases (List.map (fun f => (snprintf_str PATH_MAX (dir ++ f)).1)
              _ase_home_cfg_files).findSome? p.opae_canonicalize_file_name <;> simp

theorem opae_release_calls (p : Process) (g : Globals) (tr : List InitCall) :
    ∃ new, (opae_release p g tr).2 = tr ++ new
      ∧ (calls_fpgaFinalize new = true ↔ p.getenv "OPAE_EXPLICIT_INITIALIZE" = none) := by
  have hclose : ∀ t : List InitCall, ∃ c,
      (match g.g_logfile with
        | none => t
        | some fp => if fp ≠ Stream.stdout then t ++ [InitCall.opae_fclose fp] else t) = t ++ c
      ∧ calls_fpgaFinalize c = false := by
    intro t
    split
    · exact ⟨[], by simp, rfl⟩
    · split
      · exact ⟨_, rfl, rfl⟩
      · exact ⟨[], by simp, rfl⟩
  simp only [opae_release]
  by_cases he : p.getenv "OPAE_EXPLICIT_INITIALIZE" = none
  · simp only [he, if_true]
    by_cases hr : p.fpgaFinalize tr = FPGA_OK
    · simp only [hr, ne_eq, not_true_eq_false, if_false]
      obtain ⟨c, hc, hc2⟩ := hclose (tr ++ [InitCall.fpgaFinalize])
      refine ⟨[InitCall.fpgaFinalize] ++ c, ?_, ?_⟩
      · rw [hc, List.append_assoc]
      · rw [calls_fpgaFinalize_append]
        simp [calls_fpgaFinalize]
    · simp only [hr, ne_eq, not_false_eq_true, if_true]
      obtain ⟨n, hn, -, -⟩ := opae_print_ext p g p.OPAE_LOG_ERROR "fpgaFinalize: %s"
        (tr ++ [InitCall.fpgaFinalize])
      obtain ⟨c, hc, hc2⟩ := hclose (OPAE_ERR p g "fpgaFinalize: %s"
        (tr ++ [InitCall.fpgaFinalize]))
      refine ⟨[InitCall.fpgaFinalize] ++ n ++ c, ?_, ?_⟩
      · rw [hc]
        simp only [OPAE_ERR, hn, List.append_assoc]
      · rw [calls_fpgaFinalize_append, calls_fpgaFinalize_append]
        simp [calls_fpgaFinalize]
  · simp only [he, if_false, ne_eq, not_true_eq_false]
    obtain ⟨c, hc, hc2⟩ := hclose tr
    exact ⟨c, hc, by simp [hc2, he]⟩

theorem opae_init_calls (p : Process) (g : Globals) (tr : List InitCall)
    (hinit : p.initialized = 0) :
    ∃ new, (opae_init p g tr).2 = tr ++ new
      ∧ (p.getenv "WITH_ASE" = none →
          (calls_fpgaInitialize new = true ↔ p.getenv "OPAE_EXPLICIT_INITIALIZE" = none))
      ∧ (p.getenv "WITH_ASE" ≠ none →
          (calls_fpgaInitialize new = true ↔ (find_ase_cfg p g tr).1 ≠ none)) := by
  obtain ⟨n0, h0, a0, -⟩ := opae_init_log_ext p { g with g_logfile := none } tr
  have hres : ∀ g2 tr2, (find_ase_cfg p g2 tr2).1 = (find_ase_cfg p g tr).1 := by
    intro g2 tr2
    rw [find_ase_cfg_eq, find_ase_cfg_eq]
  simp only [opae_init, hinit, ne_eq, not_true_eq_false, if_false]
  cases hase : p.getenv "WITH_ASE" with
  | none =>
    simp only
    by_cases he : p.getenv "OPAE_EXPLICIT_INITIALIZE" = none
    · simp only [he, if_true]
      refine ⟨n0 ++ [InitCall.fpgaInitialize none], ?_, ?_, ?_⟩
      · rw [h0, List.append_assoc]
      · intro _
        rw [calls_fpgaInitialize_append]
        simp [calls_fpgaInitialize]
      · intro h
        exact absurd trivial h
    · simp only [he, if_false]
      refine ⟨n0, h0, ?_, ?_⟩
      · intro _
        simp [a0, he]
      · intro h
        exact absurd trivial h
  | some v =>
    simp only
    have hc2 := fun g2 tr2 => congrArg Prod.snd (find_ase_cfg_eq p g2 tr2)
    simp only at hc2
    cases hc : (find_ase_cfg p (opae_init_log p { g with g_logfile := none } tr).1
        (opae_init_log p { g with g_logfile := none } tr).2).1 with
    | none =>
      simp only
      obtain ⟨n, hn, an, -⟩ := opae_print_ext p
        (opae_init_log p { g with g_logfile := none } tr).1 p.OPAE_LOG_ERROR
        "WITH_ASE was set, but could not find opae_ase.cfg file"
        (opae_init_log p { g with g_logfile := none } tr).2
      refine ⟨n0 ++ n, ?_, ?_, ?_⟩
      · simp only [OPAE_ERR, hc2]
        rw [hn, h0, List.append_assoc]
      · intro h
        cases h
      · intro _
        rw [calls_fpgaInitialize_append, a0, an, ← hres _ _, hc]
        simp
    | some cfg_path =>
      simp only [hc2]
      have hfound : (find_ase_cfg p g tr).1 ≠ none := by
        rw [← hres _ _, hc]
        simp
      by_cases hr : p.fpgaInitialize (opae_init_log p { g with g_logfile := none } tr).2
          (some cfg_path) = FPGA_OK
      · simp only [hr, ne_eq, not_true_eq_false, if_false]
        refine ⟨n0 ++ [InitCall.fpgaInitialize (some cfg_path), InitCall.opae_free], ?_, ?_, ?_⟩
        · simp only [h0, List.append_assoc, List.singleton_append]
        · intro h
          cases h
        · intro _
          rw [calls_fpgaInitialize_append]
          simp [calls_fpgaInitialize, hfound]
      · simp only [hr, ne_eq, not_false_eq_true, if_true]
        obtain ⟨n, hn, an, -⟩ := opae_print_ext p
          (opae_init_log p { g with g_logfile := none } tr).1 p.OPAE_LOG_ERROR
          "fpgaInitialize: %s"
          ((opae_init_log p { g with g_logfile := none } tr).2
            ++ [InitCall.fpgaInitialize (some cfg_path)])
        refine ⟨n0 ++ [InitCall.fpgaInitialize (some cfg_path)] ++ n ++ [InitCall.opae_free],
          ?_, ?_, ?_⟩
        · simp only [OPAE_ERR]
          rw [hn, h0]
          simp only [List.append_assoc]
        · intro h
          cases h
        · intro _
          simp only [calls_fpgaInitialize_append]
          simp [calls_fpgaInitialize, hfound]


/-- Counterexample for C17: in `ase_explicit_process`, where `WITH_ASE` and
`OPAE_EXPLICIT_INITIALIZE` are both set and a configuration file exists,
`opae_init` calls `fpgaInitialize` and `opae_release` does not call
`fpgaFinalize`; in `ase_no_cfg_process`, where `WITH_ASE` is set and no
configuration file exists, `opae_init` does not call `fpgaInitialize` and
`opae_release` calls `fpgaFinalize`. -/
theorem init_and_release_not_paired_with_ase :
    calls_fpgaInitialize (opae_init ase_explicit_process mock_globals []).2 = true
    ∧ calls_fpgaFinalize
        (opae_release ase_explicit_process
          (opae_init ase_explicit_process mock_globals []).1 []).2 = false
    ∧ calls_fpgaInitialize (opae_init ase_no_cfg_process mock_globals []).2 = false
    ∧ calls_fpgaFinalize
        (opae_release ase_no_cfg_process
          (opae_init ase_no_cfg_process mock_globals []).1 []).2 = true := by
  decide

/-- C17, amended: `opae_release` calls `fpgaFinalize` exactly when
`OPAE_EXPLICIT_INITIALIZE` is not set. When the plugin manager is not yet
initialised and `WITH_ASE` is not set, `opae_init` calls `fpgaInitialize`
exactly when `OPAE_EXPLICIT_INITIALIZE` is not set, so in the same environment
`opae_release` calls `fpgaFinalize` if and only if `opae_init` called
`fpgaInitialize`. When `WITH_ASE` is set, `opae_init` calls `fpgaInitialize`
exactly when `find_ase_cfg` finds a configuration file, whatever
`OPAE_EXPLICIT_INITIALIZE` is; and when the plugin manager is initialised
already, `opae_init` does nothing. -/
theorem init_and_release_paired_without_ase (p : Process) (g g2 : Globals)
    (tr tr2 : List InitCall) :
    (calls_fpgaFinalize ((opae_release p g2 tr2).2.drop tr2.length) = true
        ↔ p.getenv "OPAE_EXPLICIT_INITIALIZE" = none)
    ∧ (p.initialized = 0 → p.getenv "WITH_ASE" = none →
        (calls_fpgaInitialize ((opae_init p g tr).2.drop tr.length) = true
          ↔ p.getenv "OPAE_EXPLICIT_INITIALIZE" = none)
        ∧ (calls_fpgaFinalize ((opae_release p g2 tr2).2.drop tr2.length) = true
          ↔ calls_fpgaInitialize ((opae_init p g tr).2.drop tr.length) = true))
    ∧ (p.initialized = 0 → p.getenv "WITH_ASE" ≠ none →
        (calls_fpgaInitialize ((opae_init p g tr).2.drop tr.length) = true
          ↔ (find_ase_cfg p g tr).1 ≠ none))
    ∧ (p.initialized ≠ 0 → (opae_init p g tr).2 = tr) := by
  obtain ⟨nr, hr, hfin⟩ := opae_release_calls p g2 tr2
  have hrel : calls_fpgaFinalize ((opae_release p g2 tr2).2.drop tr2.length) = true
      ↔ p.getenv "OPAE_EXPLICIT_INITIALIZE" = none := by
    rw [hr, List.drop_left]
    exact hfin
  refine ⟨hrel, ?_, ?_, ?_⟩
  · intro hinit hase
    obtain ⟨ni, hi, h1, -⟩ := opae_init_calls p g tr hinit
    have hini : calls_fpgaInitialize ((opae_init p g tr).2.drop tr.length) = true
        ↔ p.getenv "OPAE_EXPLICIT_INITIALIZE" = none := by
      rw [hi, List.drop_left]
      exact h1 hase
    exact ⟨hini, hrel.trans hini.symm⟩
  · intro hinit hase
    obtain ⟨ni, hi, -, h2⟩ := opae_init_calls p g tr hinit
    rw [hi, List.drop_left]
    exact h2 hase
  · intro hinit
    simp only [opae_init, hinit, ne_eq, not_false_eq_true, if_true]

/-- Witness for C17: in `mock_process`, where no environment variable is set,
`opae_init` calls `fpgaInitialize` and `opae_release` calls `fpgaFinalize`. -/
theorem init_and_release_paired_without_ase_witness :
    calls_fpgaInitialize ((opae_init mock_process mock_globals []).2.drop 0) = true
    ∧ calls_fpgaFinalize ((opae_release mock_process mock_globals []).2.drop 0) = true
    ∧ (calls_fpgaFinalize ((opae_release mock_process mock_globals []).2.drop 0) = true
        ↔ calls_fpgaInitialize ((opae_init mock_process mock_globals []).2.drop 0) = true) :=
  ⟨((init_and_release_paired_without_ase mock_process mock_globals mock_globals [] []).2.1
      rfl rfl).1.mpr rfl,
   (init_and_release_paired_without_ase mock_process mock_globals mock_globals [] []).1.mpr
      rfl,
   ((init_and_release_paired_without_ase mock_process mock_globals mock_globals [] []).2.1
      rfl rfl).2⟩

/-! ## The configuration file of the simulator -/

theorem snprintf_str_trunc (size : Nat) (s : List Nat) (h0 : 0 ∉ s) (hsize : 0 < size) :
    (snprintf_str size s).1 = s.take (size - 1) := by
  have hs : size ≠ 0 := by omega
  have h1 : 0 ∉ s.take (size - 1) := fun h => h0 (List.mem_of_mem_take h)
  simp only [snprintf_str, snprintf, hs, if_false, List.append_assoc, List.singleton_append]
  exact c_str_append_nul _ _ h1

theorem snprintf_str_fits (size : Nat) (s : List Nat) (h0 : 0 ∉ s) (hlen : s.length < size) :
    (snprintf_str size s).1 = s := by
  rw [snprintf_str_trunc size s h0 (by omega)]
  exact List.take_of_length_le (by omega)

theorem long_root_length : long_root.length = 4095 := by
  have h : (bytes "etc/passwd").length = 10 := by decide
  unfold long_root
  rw [List.length_append, List.length_replicate, h]

theorem long_root_no_nul : 0 ∉ long_root ++ bytes "/share/opae/ase/opae_ase.cfg" := by
  have h1 : 0 ∉ bytes "etc/passwd" := by decide
  have h2 : 0 ∉ bytes "/share/opae/ase/opae_ase.cfg" := by decide
  simp only [long_root, List.mem_append, List.mem_replicate, not_or]
  exact ⟨⟨by omega, h1⟩, h2⟩

theorem long_root_only (c : List Nat) (h : c.length ≠ 4095) :
    long_root_process.opae_canonicalize_file_name c = none := by
  have hne : c ≠ long_root := fun e => h (by rw [e, long_root_length])
  show (if c = long_root then some (bytes "/etc/passwd") else none) = none
  rw [if_neg hne]

theorem long_root_exists (c : List Nat) (h : c = long_root) :
    long_root_process.opae_canonicalize_file_name c = some (bytes "/etc/passwd") := by
  show (if c = long_root then some (bytes "/etc/passwd") else none) = _
  rw [if_pos h]

/-- C18: in `long_root_process` the variable `OPAE_PLATFORM_ROOT` holds a path
of `PATH_MAX - 1` bytes that names the file `/etc/passwd`, and none of the
candidate configuration files exists. The `snprintf` into `cfg_path`
truncates `$OPAE_PLATFORM_ROOT/share/opae/ase/opae_ase.cfg` to the value of
`OPAE_PLATFORM_ROOT` itself and returns a value that is not negative, so
`find_ase_cfg` canonicalizes the truncated path and returns `/etc/passwd`
instead of `NULL`. -/
theorem find_ase_cfg_returns_truncated_path :
    long_root_process.getenv "OPAE_PLATFORM_ROOT" = some long_root
    ∧ long_root.length = PATH_MAX - 1
    ∧ (∀ c ∈ ase_cfg_candidates long_root_process,
        long_root_process.opae_canonicalize_file_name c = none)
    ∧ (snprintf_str PATH_MAX (long_root ++ bytes "/share/opae/ase/opae_ase.cfg")).1
        = long_root
    ∧ find_ase_cfg long_root_process mock_globals [] = (some (bytes "/etc/passwd"), []) := by
  have htrunc : (snprintf_str PATH_MAX (long_root ++ bytes "/share/opae/ase/opae_ase.cfg")).1
      = long_root := by
    rw [snprintf_str_trunc PATH_MAX _ long_root_no_nul (by decide)]
    exact List.take_left' long_root_length
  have hcand : ase_cfg_candidates long_root_process
      = [bytes "/build/opae-sdk/ase/cfg/opae_ase.cfg",
          bytes "/usr/local/share/opae/ase/opae_ase.cfg",
          long_root ++ bytes "/share/opae/ase/opae_ase.cfg",
          bytes "/root" ++ bytes "/.local/opae_ase.cfg",
          bytes "/root" ++ bytes "/.local/opae/opae_ase.cfg",
          bytes "/root" ++ bytes "/.config/opae/opae_ase.cfg",
          bytes "/usr/local/etc/opae/opae_ase.cfg", bytes "/etc/opae/opae_ase.cfg"] := by
    rfl
  have hpaths : ase_cfg_paths long_root_process
      = [bytes "/build/opae-sdk/ase/cfg/opae_ase.cfg",
          bytes "/usr/local/share/opae/ase/opae_ase.cfg",
          (snprintf_str PATH_MAX (long_root ++ bytes "/share/opae/ase/opae_ase.cfg")).1]
        ++ (_ase_home_cfg_files.map fun f => (snprintf_str PATH_MAX (bytes "/root" ++ f)).1)
        ++ _ase_sys_cfg_files.map fun f => f.take (min f.length (CFG_PATH_MAX - 1)) := by
    rfl
  refine ⟨rfl, long_root_length, ?_, htrunc, ?_⟩
  · intro c hc
    apply long_root_only
    rw [hcand] at hc
    simp only [List.mem_cons, List.mem_singleton, List.not_mem_nil, or_false] at hc
    rcases hc with h | h | h | h | h | h | h | h <;> rw [h]
    · decide
    · decide
    · rw [List.length_append, long_root_length]
      have : (bytes "/share/opae/ase/opae_ase.cfg").length = 28 := by decide
      omega
    · decide
    · decide
    · decide
    · decide
    · decide
  · rw [find_ase_cfg_eq, hpaths, htrunc]
    have h1 : long_root_process.opae_canonicalize_file_name
        (bytes "/build/opae-sdk/ase/cfg/opae_ase.cfg") = none :=
      long_root_only _ (by decide)
    have h2 : long_root_process.opae_canonicalize_file_name
        (bytes "/usr/local/share/opae/ase/opae_ase.cfg") = none :=
      long_root_only _ (by decide)
    have h3 : long_root_process.opae_canonicalize_file_name long_root
        = some (bytes "/etc/passwd") := long_root_exists long_root rfl
    simp only [List.cons_append, List.findSome?_cons, h1, h2, h3]

/-- When the formatted paths fit in `PATH_MAX` bytes, `find_ase_cfg` returns
the canonical name of the first candidate of the specification that names an
existing file, and `NULL` when there is none. -/
theorem find_ase_cfg_first_candidate (p : Process) (g : Globals) (tr : List InitCall)
    (hroot : ∀ root, p.getenv "OPAE_PLATFORM_ROOT" = some root →
      0 ∉ root ∧ root.length + 28 < PATH_MAX)
    (hdir : ∀ dir, p.pw_dir = some dir → 0 ∉ dir ∧ dir.length + 26 < PATH_MAX) :
    find_ase_cfg p g tr
      = ((ase_cfg_candidates p).findSome? p.opae_canonicalize_file_name, tr) := by
  have hsuffix : 0 ∉ bytes "/share/opae/ase/opae_ase.cfg"
      ∧ (bytes "/share/opae/ase/opae_ase.cfg").length = 28 := by decide
  have hhome : ∀ f ∈ _ase_home_cfg_files, 0 ∉ f ∧ f.length ≤ 26 := by decide
  have hsys : (_ase_sys_cfg_files.map fun f => f.take (min f.length (CFG_PATH_MAX - 1)))
      = _ase_sys_cfg_files := by decide
  have hpaths : ase_cfg_paths p = ase_cfg_candidates p := by
    simp only [ase_cfg_paths, ase_cfg_candidates, hsys]
    congr 2
    · congr 1
      cases h : p.getenv "OPAE_PLATFORM_ROOT" with
      | none => rfl
      | some root =>
        obtain ⟨h0, hlen⟩ := hroot root h
        simp only
        rw [snprintf_str_fits PATH_MAX _
          (by simp only [List.mem_append, not_or]; exact ⟨h0, hsuffix.1⟩)
          (by rw [List.length_append, hsuffix.2]; exact hlen)]
    · cases h : p.pw_dir with
      | none => rfl
      | some dir =>
        obtain ⟨h0, hlen⟩ := hdir dir h
        simp only
        apply List.map_congr_left
        intro f hf
        obtain ⟨hf0, hflen⟩ := hhome f hf
        exact snprintf_str_fits PATH_MAX _
          (by simp only [List.mem_append, not_or]; exact ⟨h0, hf0⟩)
          (by rw [List.length_append]; omega)
  rw [find_ase_cfg_eq, hpaths]

/-! ## HSSI port status -/

theorem GET_BIT_eq_one (x k : Nat) : GET_BIT x k = 1 ↔ x.testBit k = true := by
  simp only [GET_BIT, Nat.testBit, Nat.and_comm (x >>> k) 1, bne_iff_ne, ne_eq]
  have h : 1 &&& (x >>> k) = (x >>> k) % 2 := by
    rw [Nat.and_comm]
    exact Nat.and_one_is_mod _
  rw [h]
  omega

theorem GET_BIT_field (x lo w k : Nat) :
    GET_BIT (bit_field x lo w) k = 1 ↔ k < w ∧ x.testBit (lo + k) = true := by
  rw [GET_BIT_eq_one, bit_field, Nat.testBit_mod_two_pow, Nat.testBit_shiftRight]
  simp

theorem profile_entry (profile : Nat) (e : Nat × String)
    (h : (hssi_port_profiles.take HSS_PORT_PROFILE_SIZE).find? (fun e => e.1 == profile)
      = some e) :
    e.1 = profile ∧ profile < HSS_PORT_PROFILE_SIZE := by
  have h1 : e.1 = profile := by
    have := List.find?_some h
    simpa using this
  have h2 : e ∈ hssi_port_profiles.take HSS_PORT_PROFILE_SIZE := List.mem_of_find?_eq_some h
  have h3 : ∀ x ∈ hssi_port_profiles.take HSS_PORT_PROFILE_SIZE,
      x.1 < HSS_PORT_PROFILE_SIZE := by
    decide
  exact ⟨h1, h1 ▸ h3 e h2⟩

/-- What one iteration of the port loop does, by cases: nothing for a port
that is not enabled, an `N/A` line for a profile code above
`HSS_PORT_PROFILE_SIZE`, nothing for a code without an entry in the table, and
otherwise a line with the profile name and the link status taken at bit `k`. -/
theorem hssi_port_cases (mem : Nat → Nat) (port_enable port_status port_attr_offset : Nat)
    (s : Nat × List Call) (i : Nat) :
    (GET_BIT port_enable i = 0 →
      hssi_port mem port_enable port_status port_attr_offset s i = s)
    ∧ (GET_BIT port_enable i ≠ 0 →
      bit_field (load_le mem (port_attr_offset + i * 4) 4) 0 6 > HSS_PORT_PROFILE_SIZE →
      hssi_port mem port_enable port_status port_attr_offset s i
        = (s.1, s.2 ++ [Call.printf "Port%-28d :%s\n" [Arg.int i, Arg.str "N/A"]]))
    ∧ (GET_BIT port_enable i ≠ 0 →
      (hssi_port_profiles.take HSS_PORT_PROFILE_SIZE).find?
        (fun e => e.1 == bit_field (load_le mem (port_attr_offset + i * 4) 4) 0 6) = none →
      bit_field (load_le mem (port_attr_offset + i * 4) 4) 0 6 ≤ HSS_PORT_PROFILE_SIZE →
      hssi_port mem port_enable port_status port_attr_offset s i = s)
    ∧ (∀ e, GET_BIT port_enable i ≠ 0 →
      (hssi_port_profiles.take HSS_PORT_PROFILE_SIZE).find?
        (fun e => e.1 == bit_field (load_le mem (port_attr_offset + i * 4) 4) 0 6) = some e →
      hssi_port mem port_enable port_status port_attr_offset s i
        = (s.1 + 1,
            s.2 ++ [Call.printf "Port%-28d :%-12s %s\n"
              [Arg.int i, Arg.str e.2,
                Arg.str (if GET_BIT (bit_field port_status 0 16) s.1 = 1
                    ∧ GET_BIT (bit_field port_status 16 16) s.1 = 1
                    ∧ GET_BIT (bit_field port_status 32 16) s.1 = 1 then "UP"
                  else "DOWN")]])) := by
  refine ⟨?_, ?_, ?_, ?_⟩
  · intro h
    simp only [hssi_port, h, if_true]
  · intro h hp
    simp only [hssi_port, h, if_false, hp, if_true]
  · intro h hf hp
    have hp2 : ¬ bit_field (load_le mem (port_attr_offset + i * 4) 4) 0 6
        > HSS_PORT_PROFILE_SIZE := not_lt.mpr hp
    simp only [hssi_port, h, if_false, hp2, hf]
  · intro e h hf
    have hp2 : ¬ bit_field (load_le mem (port_attr_offset + i * 4) 4) 0 6
        > HSS_PORT_PROFILE_SIZE := by
      have := (profile_entry _ e hf).2
      omega
    simp only [hssi_port, h, if_false, hp2, hf]
    split <;> rfl

theorem named_port_lines_append (a b : List Call) :
    named_port_lines (a ++ b) = named_port_lines a + named_port_lines b := by
  simp [named_port_lines, List.countP_append]

theorem hssi_port_count (mem : Nat → Nat) (port_enable port_status port_attr_offset : Nat)
    (s : Nat × List Call) (i : Nat) :
    ∃ new, hssi_port mem port_enable port_status port_attr_offset s i
      = (s.1 + named_port_lines new, s.2 ++ new) := by
  obtain ⟨h1, h2, h3, h4⟩ :=
    hssi_port_cases mem port_enable port_status port_attr_offset s i
  by_cases hen : GET_BIT port_enable i = 0
  · exact ⟨[], by rw [h1 hen]; simp [named_port_lines]⟩
  · by_cases hp : bit_field (load_le mem (port_attr_offset + i * 4) 4) 0 6
        > HSS_PORT_PROFILE_SIZE
    · refine ⟨[Call.printf "Port%-28d :%s\n" [Arg.int i, Arg.str "N/A"]], ?_⟩
      have hc : named_port_lines [Call.printf "Port%-28d :%s\n" [Arg.int i, Arg.str "N/A"]]
          = 0 := rfl
      rw [h2 hen hp, hc, Nat.add_zero]
    · cases hf : (hssi_port_profiles.take HSS_PORT_PROFILE_SIZE).find?
          (fun e => e.1 == bit_field (load_le mem (port_attr_offset + i * 4) 4) 0 6) with
      | none => exact ⟨[], by rw [h3 hen hf (not_lt.mp hp)]; simp [named_port_lines]⟩
      | some e =>
        refine ⟨[Call.printf "Port%-28d :%-12s %s\n"
          [Arg.int i, Arg.str e.2,
            Arg.str (if GET_BIT (bit_field port_status 0 16) s.1 = 1
                ∧ GET_BIT (bit_field port_status 16 16) s.1 = 1
                ∧ GET_BIT (bit_field port_status 32 16) s.1 = 1 then "UP"
              else "DOWN")]], ?_⟩
        rw [h4 e hen hf]
        rfl

theorem hssi_ports_count (mem : Nat → Nat) (port_enable port_status port_attr_offset : Nat)
    (ports : List Nat) :
    ∀ s : Nat × List Call, ∃ new,
      ports.foldl (hssi_port mem port_enable port_status port_attr_offset) s
        = (s.1 + named_port_lines new, s.2 ++ new) := by
  induction ports with
  | nil =>
    intro s
    exact ⟨[], by simp [named_port_lines]⟩
  | cons i ports ih =>
    intro s
    obtain ⟨n1, h1⟩ := hssi_port_count mem port_enable port_status port_attr_offset s i
    obtain ⟨n2, h2⟩ := ih (s.1 + named_port_lines n1, s.2 ++ n1)
    refine ⟨n1 ++ n2, ?_⟩
    rw [List.foldl_cons, h1, h2, named_port_lines_append]
    simp only [List.append_assoc, Nat.add_assoc]

theorem port_lines_append (a b : List Call) :
    port_lines (a ++ b) = port_lines a ++ port_lines b := by
  simp [port_lines, List.filterMap_append]

theorem profile_without_entry (profile : Nat) :
    (hssi_port_profiles.take HSS_PORT_PROFILE_SIZE).find? (fun e => e.1 == profile) = none
      ↔ HSS_PORT_PROFILE_SIZE ≤ profile := by
  constructor
  · intro h
    by_contra hlt
    have hlt2 : profile < 34 := by
      simp only [HSS_PORT_PROFILE_SIZE] at hlt
      omega
    have hall : ∀ p : Fin 34,
        (hssi_port_profiles.take HSS_PORT_PROFILE_SIZE).find? (fun e => e.1 == p.val)
          ≠ none := by
      decide
    exact hall ⟨profile, hlt2⟩ h
  · intro h
    cases hf : (hssi_port_profiles.take HSS_PORT_PROFILE_SIZE).find?
        (fun e => e.1 == profile) with
    | none => rfl
    | some e =>
      have := (profile_entry profile e hf).2
      omega

/-- The line one iteration of the port loop prints: one for port `i` when
the port is enabled and its profile code is not 34, none otherwise. -/
theorem hssi_port_line (mem : Nat → Nat) (port_enable port_status port_attr_offset : Nat)
    (s : Nat × List Call) (i : Nat) :
    ∃ new, (hssi_port mem port_enable port_status port_attr_offset s i).2 = s.2 ++ new
      ∧ port_lines new
        = if GET_BIT port_enable i ≠ 0
            ∧ bit_field (load_le mem (port_attr_offset + i * 4) 4) 0 6 ≠ HSS_PORT_PROFILE_SIZE
          then [i] else [] := by
  obtain ⟨h1, h2, h3, h4⟩ :=
    hssi_port_cases mem port_enable port_status port_attr_offset s i
  by_cases hen : GET_BIT port_enable i = 0
  · refine ⟨[], by rw [h1 hen, List.append_nil], ?_⟩
    rw [if_neg (fun h => h.1 hen)]
    rfl
  · by_cases hp : bit_field (load_le mem (port_attr_offset + i * 4) 4) 0 6
        > HSS_PORT_PROFILE_SIZE
    · refine ⟨[Call.printf "Port%-28d :%s\n" [Arg.int i, Arg.str "N/A"]],
        by rw [h2 hen hp], ?_⟩
      rw [if_pos ⟨hen, by omega⟩]
      rfl
    · cases hf : (hssi_port_profiles.take HSS_PORT_PROFILE_SIZE).find?
          (fun e => e.1 == bit_field (load_le mem (port_attr_offset + i * 4) 4) 0 6) with
      | none =>
        have h34 := (profile_without_entry _).mp hf
        refine ⟨[], by rw [h3 hen hf (not_lt.mp hp), List.append_nil], ?_⟩
        rw [if_neg (fun h => h.2 (by omega))]
        rfl
      | some e =>
        have hlt := (profile_entry _ e hf).2
        refine ⟨[Call.printf "Port%-28d :%-12s %s\n"
          [Arg.int i, Arg.str e.2,
            Arg.str (if GET_BIT (bit_field port_status 0 16) s.1 = 1
                ∧ GET_BIT (bit_field port_status 16 16) s.1 = 1
                ∧ GET_BIT (bit_field port_status 32 16) s.1 = 1 then "UP"
              else "DOWN")]], by rw [h4 e hen hf], ?_⟩
        have hcond : GET_BIT port_enable i ≠ 0
            ∧ bit_field (load_le mem (port_attr_offset + i * 4) 4) 0 6
              ≠ HSS_PORT_PROFILE_SIZE := ⟨hen, by omega⟩
        rw [if_pos hcond]
        rfl

theorem hssi_ports_lines (mem : Nat → Nat) (port_enable port_status port_attr_offset : Nat)
    (ports : List Nat) :
    ∀ s : Nat × List Call, ∃ new,
      (ports.foldl (hssi_port mem port_enable port_status port_attr_offset) s).2
        = s.2 ++ new
      ∧ port_lines new
        = ports.filter fun i =>
            decide (GET_BIT port_enable i ≠ 0
              ∧ bit_field (load_le mem (port_attr_offset + i * 4) 4) 0 6
                ≠ HSS_PORT_PROFILE_SIZE) := by
  induction ports with
  | nil =>
    intro s
    exact ⟨[], by simp, rfl⟩
  | cons i ports ih =>
    intro s
    obtain ⟨n1, h1, l1⟩ := hssi_port_line mem port_enable port_status port_attr_offset s i
    obtain ⟨n2, h2, l2⟩ := ih (hssi_port mem port_enable port_status port_attr_offset s i)
    refine ⟨n1 ++ n2, ?_, ?_⟩
    · rw [List.foldl_cons, h2, h1, List.append_assoc]
    · rw [port_lines_append, l1, l2, List.filter_cons]
      by_cases hc : GET_BIT port_enable i ≠ 0
          ∧ bit_field (load_le mem (port_attr_offset + i * 4) 4) 0 6 ≠ HSS_PORT_PROFILE_SIZE
      · rw [if_pos hc, if_pos (decide_eq_true hc)]
        rfl
      · rw [if_neg hc, if_neg (fun h => hc (of_decide_eq_true h))]
        rfl

theorem hssi_offsets_none (mem : Nat → Nat) (junk : Nat) :
    hssi_offsets mem junk = none
      ↔ ¬ (bit_field (load_le mem 0 8) 12 4 = 0 ∨ bit_field (load_le mem 0 8) 12 4 = 1
          ∨ bit_field (load_le mem 0 8) 12 4 = 2) := by
  simp only [hssi_offsets]
  split
  · rename_i h
    simp only [reduceCtorEq, false_iff, not_not]
    rcases h with h | h
    · exact Or.inl h
    · exact Or.inr (Or.inl h)
  · rename_i h
    split
    · rename_i h2
      simp only [reduceCtorEq, false_iff, not_not]
      exact Or.inr (Or.inr h2)
    · rename_i h2
      simp only [true_iff]
      rintro (h3 | h3 | h3)
      · exact h (Or.inl h3)
      · exact h (Or.inr h3)
      · exact h2 h3

/-- What `print_hssi_port_status` prints about ports: nothing, with the
result `FPGA_NOT_SUPPORTED`, when the feature revision is not 0, 1 or 2, and
otherwise, with the result `FPGA_OK`, one line for each of the ports 0 to 19
that is enabled and whose profile code is not 34, in the order of the
ports. -/
theorem print_hssi_port_status_lines (mem : Nat → Nat) (junk : Nat) (tr : List Call) :
    (hssi_offsets mem junk = none →
      (print_hssi_port_status (some mem) junk tr).1 = FPGA_NOT_SUPPORTED
      ∧ port_lines ((print_hssi_port_status (some mem) junk tr).2.drop tr.length) = [])
    ∧ (∀ v f p a, hssi_offsets mem junk = some (v, f, p, a) →
      (print_hssi_port_status (some mem) junk tr).1 = FPGA_OK
      ∧ port_lines ((print_hssi_port_status (some mem) junk tr).2.drop tr.length)
        = (List.range PORT_ENABLE_COUNT).filter fun i =>
            decide (GET_BIT (bit_field (load_le mem f 4) 6 20) i ≠ 0
              ∧ bit_field (load_le mem (a + i * 4) 4) 0 6 ≠ HSS_PORT_PROFILE_SIZE)) := by
  refine ⟨?_, ?_⟩
  · intro h
    simp only [print_hssi_port_status, h, List.append_assoc, List.drop_left]
    exact ⟨trivial, rfl⟩
  · intro v f p a h
    simp only [print_hssi_port_status, h]
    obtain ⟨new, h1, h2⟩ := hssi_ports_lines mem (bit_field (load_le mem f 4) 6 20)
      (load_le mem p 8) a (List.range PORT_ENABLE_COUNT)
      (0, tr ++ [Call.enter "print_hssi_port_status"] ++
        [Call.printf "//****** HSSI information ******//\n" [],
         Call.printf "%-32s : %d.%d  \n"
           [Arg.str "HSSI version", Arg.int (bit_field (load_le mem v 4) 16 16),
             Arg.int (bit_field (load_le mem v 4) 8 8)],
         Call.printf "%-32s : %d  \n"
           [Arg.str "Number of ports", Arg.int (bit_field (load_le mem f 4) 1 5)]])
    refine ⟨trivial, ?_⟩
    rw [h1]
    simp only [List.append_assoc, List.drop_left, port_lines_append, h2]
    rfl

/-- C23: the register image `hssi_image` has DFH feature revision 0 and its
ports 0 to 3 are enabled. Port 2 has the profile code 34, which has no entry in
`hssi_port_profiles`; `print_hssi_port_status` prints no line for it, neither
a profile name nor `N/A`, while it prints one line for each of the ports 0, 1
and 3. -/
theorem print_hssi_port_status_skips_profile_34 :
    bit_field (load_le hssi_image 0 8) 12 4 = 0
    ∧ (List.range PORT_ENABLE_COUNT).filter
        (fun i => decide (GET_BIT (bit_field (load_le hssi_image HSSI_FEATURE_LIST 4) 6 20) i
          ≠ 0))
      = [0, 1, 2, 3]
    ∧ bit_field (load_le hssi_image (HSSI_PORT_ATTRIBUTE + 2 * 4) 4) 0 6 = 34
    ∧ hssi_port_profiles.find? (fun e => e.1 == 34) = none
    ∧ print_hssi_port_status (some hssi_image) 0 []
      = (FPGA_OK, [Call.enter "print_hssi_port_status",
          Call.printf "//****** HSSI information ******//\n" [],
          Call.printf "%-32s : %d.%d  \n" [Arg.str "HSSI version", Arg.int 2, Arg.int 1],
          Call.printf "%-32s : %d  \n" [Arg.str "Number of ports", Arg.int 4],
          Call.printf "Port%-28d :%s\n" [Arg.int 0, Arg.str "N/A"],
          Call.printf "Port%-28d :%-12s %s\n" [Arg.int 1, Arg.str "25GbE", Arg.str "UP"],
          Call.printf "Port%-28d :%-12s %s\n"
            [Arg.int 3, Arg.str "10GbE", Arg.str "DOWN"]])
    ∧ port_lines (print_hssi_port_status (some hssi_image) 0 []).2 = [0, 1, 3] := by
  decide

/-! ## The event log -/

theorem events_read_append (a b : List Call) :
    events_read (a ++ b) = events_read a ++ events_read b := by
  simp [events_read, List.filterMap_append]

theorem boot_labels_append (a b : List Call) :
    boot_labels (a ++ b) = boot_labels a ++ boot_labels b := by
  simp [boot_labels, List.filterMap_append]

/-- The read loop of `fpga_event_log` when every `bel_read` succeeds: from
index `i` and pointer `ptr` it reads `count - i` events, at `ptr` advanced 0,
1, 2, ... times, and prints them as boots `i`, `i + 1`, ... -/
theorem read_events_ok (env : Board) (obj : Nat) (print_list print_sensors print_bits : Bool)
    (count : Nat) (hread : ∀ tr ptr, (env.bel_read tr obj ptr).1 = FPGA_OK) :
    ∀ fuel i ptr tr, fuel = count - i →
      ∃ new, read_events env obj print_list print_sensors print_bits count fuel i ptr tr
          = (FPGA_OK, tr ++ new)
        ∧ events_read new = (List.range (count - i)).map (fun j => env.bel_ptr_next^[j] ptr)
        ∧ boot_labels new = (List.range (count - i)).map (fun j => i + j) := by
  intro fuel
  induction fuel with
  | zero =>
    intro i ptr tr h
    refine ⟨[], by simp [read_events], ?_, ?_⟩ <;> rw [← h] <;> rfl
  | succ fuel ih =>
    intro i ptr tr h
    have hlt : i < count := by omega
    have hfuel : fuel = count - (i + 1) := by omega
    have hcount : count - i = (count - (i + 1)) + 1 := by omega
    have hr := hread tr ptr
    obtain ⟨new, h1, h2, h3⟩ := ih (i + 1) (env.bel_ptr_next ptr)
      (tr ++ [Call.bel_read obj ptr] ++
        (if print_list then [Call.bel_timespan (env.bel_read tr obj ptr).2 i]
          else if env.bel_empty (env.bel_read tr obj ptr).2 then
            [Call.printf "Boot %i: Empty\n" [Arg.int i]]
          else
            [Call.printf "Boot %i\n" [Arg.int i],
              Call.bel_print (env.bel_read tr obj ptr).2 print_sensors print_bits]))
      hfuel
    refine ⟨[Call.bel_read obj ptr] ++
        (if print_list then [Call.bel_timespan (env.bel_read tr obj ptr).2 i]
          else if env.bel_empty (env.bel_read tr obj ptr).2 then
            [Call.printf "Boot %i: Empty\n" [Arg.int i]]
          else
            [Call.printf "Boot %i\n" [Arg.int i],
              Call.bel_print (env.bel_read tr obj ptr).2 print_sensors print_bits])
        ++ new, ?_, ?_, ?_⟩
    · simp only [read_events, hlt, if_true, hr, ne_eq, not_true_eq_false, if_false]
      rw [← List.append_assoc, ← List.append_assoc, ← h1]
      congr 1
      by_cases hl : print_list = true
      · simp [hl]
      · by_cases he : env.bel_empty (env.bel_read tr obj ptr).2 = true
        · simp [hl, he]
        · simp [hl, he]
    · rw [events_read_append, events_read_append, h2, hcount, List.range_succ_eq_map,
        List.map_cons, List.map_map]
      have hmid : events_read
          (if print_list then [Call.bel_timespan (env.bel_read tr obj ptr).2 i]
            else if env.bel_empty (env.bel_read tr obj ptr).2 then
              [Call.printf "Boot %i: Empty\n" [Arg.int i]]
            else
              [Call.printf "Boot %i\n" [Arg.int i],
                Call.bel_print (env.bel_read tr obj ptr).2 print_sensors print_bits])
          = [] := by
        split
        · rfl
        · split <;> rfl
      rw [hmid]
      rfl
    · rw [boot_labels_append, boot_labels_append, h3, hcount, List.range_succ_eq_map,
        List.map_cons, List.map_map]
      have hmid : boot_labels
          (if print_list then [Call.bel_timespan (env.bel_read tr obj ptr).2 i]
            else if env.bel_empty (env.bel_read tr obj ptr).2 then
              [Call.printf "Boot %i: Empty\n" [Arg.int i]]
            else
              [Call.printf "Boot %i\n" [Arg.int i],
                Call.bel_print (env.bel_read tr obj ptr).2 print_sensors print_bits])
          = [i] := by
        split
        · rfl
        · split <;> rfl
      have hb : boot_labels [Call.bel_read obj ptr] = [] := rfl
      rw [hmid, hb]
      simp only [List.nil_append, List.singleton_append, List.cons_append, Nat.add_zero,
        List.cons.injEq, true_and]
      apply List.map_congr_left
      intro j _
      simp only [Function.comp_apply]
      omega

theorem event_log_out_ok (env : Board) (obj : Nat) (tr : List Call) :
    ∃ new, event_log_out env obj tr = (FPGA_OK, tr ++ new)
      ∧ events_read new = [] ∧ boot_labels new = [] := by
  simp only [event_log_out]
  split
  · exact ⟨[Call.fpgaDestroyObject obj, Call.OPAE_ERR "Failed to Destroy Object"],
      by simp, rfl, rfl⟩
  · exact ⟨[Call.fpgaDestroyObject obj], rfl, rfl, rfl⟩

/-- What `fpga_event_log` reads and prints when `first` and `last` are in
range and the lookup and every device read succeed: it returns `FPGA_OK`;
with `count` and `i` as the special case leaves them (`bel_ptr_count()` and 0
when `first` equals `last`, else `last` and `first`) it reads `count - i`
events, the one printed as boot `i + j` at the latest pointer advanced
`first + j` times. -/
theorem fpga_event_log_reads (env : Board) (token first last : Nat)
    (print_list print_sensors print_bits : Bool) (tr : List Call) (obj p : Nat)
    (hfirst : first ≤ env.bel_ptr_count) (hlast : last ≤ env.bel_ptr_count)
    (hg : env.fpgaTokenGetObject (tr ++ [Call.enter "fpga_event_log"]) token
      DFL_SYSFS_EVENT_LOG_GLOB = (FPGA_OK, obj))
    (hp : env.bel_ptr (tr ++ [Call.enter "fpga_event_log",
      Call.fpgaTokenGetObject token DFL_SYSFS_EVENT_LOG_GLOB]) obj = (FPGA_OK, p))
    (hread : ∀ tr ptr, (env.bel_read tr obj ptr).1 = FPGA_OK) :
    (fpga_event_log env token first last print_list print_sensors print_bits tr).1 = FPGA_OK
    ∧ events_read
        ((fpga_event_log env token first last print_list print_sensors print_bits tr).2.drop
          tr.length)
      = (List.range ((if first = last then env.bel_ptr_count else last)
          - (if first = last then 0 else first))).map
          (fun j => env.bel_ptr_next^[first + j] p)
    ∧ boot_labels
        ((fpga_event_log env token first last print_list print_sensors print_bits tr).2.drop
          tr.length)
      = (List.range ((if first = last then env.bel_ptr_count else last)
          - (if first = last then 0 else first))).map
          (fun j => (if first = last then 0 else first) + j) := by
  have h1 : ¬ first > env.bel_ptr_count := not_lt.mpr hfirst
  have h2 : ¬ last > env.bel_ptr_count := not_lt.mpr hlast
  have hp2 : env.bel_ptr (tr ++ [Call.enter "fpga_event_log"] ++
      [Call.fpgaTokenGetObject token DFL_SYSFS_EVENT_LOG_GLOB]) obj = (FPGA_OK, p) := by
    rw [List.append_assoc]
    exact hp
  obtain ⟨n1, e1, r1, b1⟩ := read_events_ok env obj print_list print_sensors print_bits
    (if first = last then env.bel_ptr_count else last) hread
    ((if first = last then env.bel_ptr_count else last) - (if first = last then 0 else first))
    (if first = last then 0 else first) (env.bel_ptr_next^[first] p)
    (tr ++ [Call.enter "fpga_event_log"] ++
      [Call.fpgaTokenGetObject token DFL_SYSFS_EVENT_LOG_GLOB] ++ [Call.bel_ptr obj]) rfl
  obtain ⟨n2, e2, r2, b2⟩ := event_log_out_ok env obj
    (tr ++ [Call.enter "fpga_event_log"] ++
      [Call.fpgaTokenGetObject token DFL_SYSFS_EVENT_LOG_GLOB] ++ [Call.bel_ptr obj] ++ n1)
  have key : fpga_event_log env token first last print_list print_sensors print_bits tr
      = (FPGA_OK, tr ++ ([Call.enter "fpga_event_log",
          Call.fpgaTokenGetObject token DFL_SYSFS_EVENT_LOG_GLOB, Call.bel_ptr obj]
          ++ n1 ++ n2)) := by
    simp only [fpga_event_log, h1, h2, if_false, hg, hp2, ne_eq, not_true_eq_false, e1, e2]
    simp only [List.append_assoc, List.singleton_append, List.cons_append, List.nil_append]
  have hhead : events_read [Call.enter "fpga_event_log",
      Call.fpgaTokenGetObject token DFL_SYSFS_EVENT_LOG_GLOB, Call.bel_ptr obj] = [] := rfl
  have hhead2 : boot_labels [Call.enter "fpga_event_log",
      Call.fpgaTokenGetObject token DFL_SYSFS_EVENT_LOG_GLOB, Call.bel_ptr obj] = [] := rfl
  rw [key]
  refine ⟨rfl, ?_, ?_⟩
  · simp only [List.drop_left, events_read_append, hhead, r1, r2, List.nil_append,
      List.append_nil]
    apply List.map_congr_left
    intro j _
    rw [Nat.add_comm, Function.iterate_add_apply]
  · simp only [List.drop_left, boot_labels_append, hhead2, b1, b2, List.nil_append,
      List.append_nil]

/-- C21: on `mock_board`, whose log has 4 slots, whose latest pointer is 0
and whose reads all succeed, `fpga_event_log` with `first` = `last` = 2 returns
`FPGA_OK` and prints 4 events as boots 0 to 3, but reads them at the pointers
2, 3, 0 and 1: the special case sets `i` to 0 and the pointer is advanced
`first` = 2 times all the same, so the event printed as boot `i` is read at
the latest pointer advanced `2 + i` times, and boot 0 does not begin at the
latest pointer. -/
theorem fpga_event_log_all_events_begin_at_first :
    mock_board.bel_ptr_count = 4
    ∧ mock_board.bel_ptr [Call.enter "fpga_event_log",
        Call.fpgaTokenGetObject 0 DFL_SYSFS_EVENT_LOG_GLOB] 1 = (FPGA_OK, 0)
    ∧ fpga_event_log mock_board 0 2 2 false false false []
      = (FPGA_OK, [Call.enter "fpga_event_log",
          Call.fpgaTokenGetObject 0 DFL_SYSFS_EVENT_LOG_GLOB, Call.bel_ptr 1,
          Call.bel_read 1 2, Call.printf "Boot %i\n" [Arg.int 0],
          Call.bel_print [2] false false,
          Call.bel_read 1 3, Call.printf "Boot %i\n" [Arg.int 1],
          Call.bel_print [3] false false,
          Call.bel_read 1 0, Call.printf "Boot %i\n" [Arg.int 2],
          Call.bel_print [0] false false,
          Call.bel_read 1 1, Call.printf "Boot %i\n" [Arg.int 3],
          Call.bel_print [1] false false,
          Call.fpgaDestroyObject 1])
    ∧ events_read (fpga_event_log mock_board 0 2 2 false false false []).2 = [2, 3, 0, 1]
    ∧ boot_labels (fpga_event_log mock_board 0 2 2 false false false []).2 = [0, 1, 2, 3]
    ∧ (List.range 4).map (fun i => mock_board.bel_ptr_next^[i] 0) = [0, 1, 2, 3] := by
  decide

/-- The port loop inside `print_hssi_port_status`: for a supported feature
revision the calls made are those of the iterations of `hssi_port` for the
ports 0 to 19 in order, started with the counter `k` at 0 after the three
header lines, on the `port_enable` field of the feature list and the port
status register read at the offsets of that revision. -/
theorem print_hssi_port_status_loop (mem : Nat → Nat) (junk : Nat) (tr : List Call)
    (v f p a : Nat) (h : hssi_offsets mem junk = some (v, f, p, a)) :
    print_hssi_port_status (some mem) junk tr
      = (FPGA_OK,
          ((List.range PORT_ENABLE_COUNT).foldl
            (hssi_port mem (bit_field (load_le mem f 4) 6 20) (load_le mem p 8) a)
            (0, tr ++ [Call.enter "print_hssi_port_status"] ++
              [Call.printf "//****** HSSI information ******//\n" [],
               Call.printf "%-32s : %d.%d  \n"
                 [Arg.str "HSSI version", Arg.int (bit_field (load_le mem v 4) 16 16),
                   Arg.int (bit_field (load_le mem v 4) 8 8)],
               Call.printf "%-32s : %d  \n"
                 [Arg.str "Number of ports", Arg.int (bit_field (load_le mem f 4) 1 5)]])).2) := by
  simp only [print_hssi_port_status, h]

theorem hssi_offsets_status (mem : Nat → Nat) (junk v f p a : Nat)
    (h : hssi_offsets mem junk = some (v, f, p, a)) : p = HSSI_PORT_STATUS := by
  simp only [hssi_offsets] at h
  split at h
  · simp only [Option.some.injEq, Prod.mk.injEq] at h
    exact h.2.2.1.symm
  · split at h
    · simp only [Option.some.injEq, Prod.mk.injEq] at h
      exact h.2.2.1.symm
    · cases h

/-- The calls a run of port-loop iterations adds: `k` grows by the number of
lines with a named profile among them, and the ports they print a line for
are those that are enabled and whose profile code is not 34. -/
theorem hssi_ports_run (mem : Nat → Nat) (port_enable port_status port_attr_offset : Nat)
    (ports : List Nat) (s : Nat × List Call) :
    ∃ new,
      ports.foldl (hssi_port mem port_enable port_status port_attr_offset) s
        = (s.1 + named_port_lines new, s.2 ++ new)
      ∧ ∀ j ∈ port_lines new, j ∈ ports := by
  obtain ⟨n1, h1⟩ := hssi_ports_count mem port_enable port_status port_attr_offset ports s
  obtain ⟨n2, h2, l2⟩ := hssi_ports_lines mem port_enable port_status port_attr_offset ports s
  have heq : n1 = n2 := by
    rw [h1] at h2
    exact List.append_cancel_left h2
  refine ⟨n1, h1, ?_⟩
  intro j hj
  rw [heq, l2] at hj
  exact (List.mem_filter.mp hj).1

/-- C22: in `print_hssi_port_status`, for a register image with a supported
feature revision, every port `i` below 20 that is enabled in the feature list
and whose profile code has the table entry `e` gets exactly one line, with the
name of the profile, after the lines of the ports before it and before those
of the ports after it. With `k` the number of lines with a named profile that
the function has printed before this one, the line says `UP` if and only if
bit `k` of each of `txplllocked` (bits 15:0), `txlanestable` (bits 31:16) and
`rxpcsready` (bits 47:32) of the port status register, the 64-bit word at
`HSSI_PORT_STATUS`, is 1, that is, `k` is below 16 and bits `k`, `16 + k` and
`32 + k` of the register are set; otherwise it says `DOWN`, as it always does
when `k` is 16 or more. -/
theorem print_hssi_port_status_up_iff_status_bits (mem : Nat → Nat) (junk : Nat)
    (tr : List Call) (v f p a i : Nat) (e : Nat × String)
    (hoff : hssi_offsets mem junk = some (v, f, p, a))
    (hi : i < PORT_ENABLE_COUNT)
    (hen : GET_BIT (bit_field (load_le mem f 4) 6 20) i ≠ 0)
    (hfind : (hssi_port_profiles.take HSS_PORT_PROFILE_SIZE).find?
      (fun e => e.1 == bit_field (load_le mem (a + i * 4) 4) 0 6) = some e) :
    (print_hssi_port_status (some mem) junk tr).1 = FPGA_OK
    ∧ ∃ pre post,
      (print_hssi_port_status (some mem) junk tr).2
        = tr ++ pre ++ [Call.printf "Port%-28d :%-12s %s\n"
            [Arg.int i, Arg.str e.2,
              Arg.str (if GET_BIT (bit_field (load_le mem HSSI_PORT_STATUS 8) 0 16)
                    (named_port_lines pre) = 1
                  ∧ GET_BIT (bit_field (load_le mem HSSI_PORT_STATUS 8) 16 16)
                    (named_port_lines pre) = 1
                  ∧ GET_BIT (bit_field (load_le mem HSSI_PORT_STATUS 8) 32 16)
                    (named_port_lines pre) = 1 then "UP"
                else "DOWN")]] ++ post
      ∧ (∀ j ∈ port_lines pre, j < i)
      ∧ (∀ j ∈ port_lines post, i < j)
      ∧ ((GET_BIT (bit_field (load_le mem HSSI_PORT_STATUS 8) 0 16)
              (named_port_lines pre) = 1
            ∧ GET_BIT (bit_field (load_le mem HSSI_PORT_STATUS 8) 16 16)
              (named_port_lines pre) = 1
            ∧ GET_BIT (bit_field (load_le mem HSSI_PORT_STATUS 8) 32 16)
              (named_port_lines pre) = 1)
          ↔ (named_port_lines pre < 16
            ∧ (load_le mem HSSI_PORT_STATUS 8).testBit (named_port_lines pre) = true
            ∧ (load_le mem HSSI_PORT_STATUS 8).testBit (16 + named_port_lines pre) = true
            ∧ (load_le mem HSSI_PORT_STATUS 8).testBit (32 + named_port_lines pre) = true))
      ∧ (16 ≤ named_port_lines pre →
          ¬ (GET_BIT (bit_field (load_le mem HSSI_PORT_STATUS 8) 0 16)
              (named_port_lines pre) = 1
            ∧ GET_BIT (bit_field (load_le mem HSSI_PORT_STATUS 8) 16 16)
              (named_port_lines pre) = 1
            ∧ GET_BIT (bit_field (load_le mem HSSI_PORT_STATUS 8) 32 16)
              (named_port_lines pre) = 1)) := by
  have hp : p = HSSI_PORT_STATUS := hssi_offsets_status mem junk v f p a hoff
  subst hp
  have hloop := print_hssi_port_status_loop mem junk tr v f HSSI_PORT_STATUS a hoff
  have hrange : List.range PORT_ENABLE_COUNT
      = List.range i ++ ([i] ++ (List.range (PORT_ENABLE_COUNT - (i + 1))).map
          (fun j => i + 1 + j)) := by
    have h20 : PORT_ENABLE_COUNT = (i + 1) + (PORT_ENABLE_COUNT - (i + 1)) := by omega
    conv_lhs => rw [h20]
    rw [List.range_add, List.range_succ, List.append_assoc]
  obtain ⟨n1, e1, l1⟩ := hssi_ports_run mem (bit_field (load_le mem f 4) 6 20)
    (load_le mem HSSI_PORT_STATUS 8) a (List.range i)
    (0, tr ++ [Call.enter "print_hssi_port_status"] ++
      [Call.printf "//****** HSSI information ******//\n" [],
       Call.printf "%-32s : %d.%d  \n"
         [Arg.str "HSSI version", Arg.int (bit_field (load_le mem v 4) 16 16),
           Arg.int (bit_field (load_le mem v 4) 8 8)],
       Call.printf "%-32s : %d  \n"
         [Arg.str "Number of ports", Arg.int (bit_field (load_le mem f 4) 1 5)]])
  have estep := (hssi_port_cases mem (bit_field (load_le mem f 4) 6 20)
    (load_le mem HSSI_PORT_STATUS 8) a
    (0 + named_port_lines n1,
      tr ++ [Call.enter "print_hssi_port_status"] ++
        [Call.printf "//****** HSSI information ******//\n" [],
         Call.printf "%-32s : %d.%d  \n"
           [Arg.str "HSSI version", Arg.int (bit_field (load_le mem v 4) 16 16),
             Arg.int (bit_field (load_le mem v 4) 8 8)],
         Call.printf "%-32s : %d  \n"
           [Arg.str "Number of ports", Arg.int (bit_field (load_le mem f 4) 1 5)]] ++ n1)
    i).2.2.2 e hen hfind
  obtain ⟨n2, e2, l2⟩ := hssi_ports_run mem (bit_field (load_le mem f 4) 6 20)
    (load_le mem HSSI_PORT_STATUS 8) a
    ((List.range (PORT_ENABLE_COUNT - (i + 1))).map (fun j => i + 1 + j))
    (hssi_port mem (bit_field (load_le mem f 4) 6 20) (load_le mem HSSI_PORT_STATUS 8) a
      (0 + named_port_lines n1,
        tr ++ [Call.enter "print_hssi_port_status"] ++
          [Call.printf "//****** HSSI information ******//\n" [],
           Call.printf "%-32s : %d.%d  \n"
             [Arg.str "HSSI version", Arg.int (bit_field (load_le mem v 4) 16 16),
               Arg.int (bit_field (load_le mem v 4) 8 8)],
           Call.printf "%-32s : %d  \n"
             [Arg.str "Number of ports", Arg.int (bit_field (load_le mem f 4) 1 5)]] ++ n1)
      i)
  have hk : named_port_lines
      ([Call.enter "print_hssi_port_status",
        Call.printf "//****** HSSI information ******//\n" [],
        Call.printf "%-32s : %d.%d  \n"
          [Arg.str "HSSI version", Arg.int (bit_field (load_le mem v 4) 16 16),
            Arg.int (bit_field (load_le mem v 4) 8 8)],
        Call.printf "%-32s : %d  \n"
          [Arg.str "Number of ports", Arg.int (bit_field (load_le mem f 4) 1 5)]] ++ n1)
      = 0 + named_port_lines n1 := by
    rw [named_port_lines_append]
    rfl
  have hl : port_lines
      ([Call.enter "print_hssi_port_status",
        Call.printf "//****** HSSI information ******//\n" [],
        Call.printf "%-32s : %d.%d  \n"
          [Arg.str "HSSI version", Arg.int (bit_field (load_le mem v 4) 16 16),
            Arg.int (bit_field (load_le mem v 4) 8 8)],
        Call.printf "%-32s : %d  \n"
          [Arg.str "Number of ports", Arg.int (bit_field (load_le mem f 4) 1 5)]] ++ n1)
      = port_lines n1 := by
    rw [port_lines_append]
    rfl
  refine ⟨by rw [hloop],
    [Call.enter "print_hssi_port_status",
      Call.printf "//****** HSSI information ******//\n" [],
      Call.printf "%-32s : %d.%d  \n"
        [Arg.str "HSSI version", Arg.int (bit_field (load_le mem v 4) 16 16),
          Arg.int (bit_field (load_le mem v 4) 8 8)],
      Call.printf "%-32s : %d  \n"
        [Arg.str "Number of ports", Arg.int (bit_field (load_le mem f 4) 1 5)]] ++ n1,
    n2, ?_, ?_, ?_, ?_, ?_⟩
  · have e1b : List.foldl
        (hssi_port mem (bit_field (load_le mem f 4) 6 20) (load_le mem HSSI_PORT_STATUS 8) a)
        (0, tr ++ [Call.enter "print_hssi_port_status"] ++
          [Call.printf "//****** HSSI information ******//\n" [],
           Call.printf "%-32s : %d.%d  \n"
             [Arg.str "HSSI version", Arg.int (bit_field (load_le mem v 4) 16 16),
               Arg.int (bit_field (load_le mem v 4) 8 8)],
           Call.printf "%-32s : %d  \n"
             [Arg.str "Number of ports", Arg.int (bit_field (load_le mem f 4) 1 5)]])
        (List.range i)
        = (0 + named_port_lines n1,
            tr ++ [Call.enter "print_hssi_port_status"] ++
              [Call.printf "//****** HSSI information ******//\n" [],
               Call.printf "%-32s : %d.%d  \n"
                 [Arg.str "HSSI version", Arg.int (bit_field (load_le mem v 4) 16 16),
                   Arg.int (bit_field (load_le mem v 4) 8 8)],
               Call.printf "%-32s : %d  \n"
                 [Arg.str "Number of ports", Arg.int (bit_field (load_le mem f 4) 1 5)]]
              ++ n1) := e1
    rw [hloop, hrange, List.foldl_append, e1b, List.foldl_append, List.foldl_cons,
      List.foldl_nil, e2, estep, hk]
    simp only [List.append_assoc, List.singleton_append, List.cons_append, List.nil_append]
  · intro j hj
    rw [hl] at hj
    exact List.mem_range.mp (l1 j hj)
  · intro j hj
    obtain ⟨m, -, hm⟩ := List.mem_map.mp (l2 j hj)
    omega
  · rw [GET_BIT_field, GET_BIT_field, GET_BIT_field, Nat.zero_add]
    tauto
  · intro h16
    rw [GET_BIT_field]
    omega

/-- Witness for C22: on `hssi_image` port 1 is the first port with a named
profile (port 0 is printed as `N/A`), so its status is taken at bit 0 of the
three fields, which are all set: `UP`, although bit 1 of `txplllocked` is not
set. Port 3 is the second one (port 2 gets no line) and bit 1 of `txplllocked`
is clear: `DOWN`. -/
theorem print_hssi_port_status_up_iff_status_bits_witness :
    (∃ pre post,
      (print_hssi_port_status (some hssi_image) 0 []).2
        = [] ++ pre ++ [Call.printf "Port%-28d :%-12s %s\n"
            [Arg.int 1, Arg.str "25GbE",
              Arg.str (if GET_BIT (bit_field (load_le hssi_image HSSI_PORT_STATUS 8) 0 16)
                    (named_port_lines pre) = 1
                  ∧ GET_BIT (bit_field (load_le hssi_image HSSI_PORT_STATUS 8) 16 16)
                    (named_port_lines pre) = 1
                  ∧ GET_BIT (bit_field (load_le hssi_image HSSI_PORT_STATUS 8) 32 16)
                    (named_port_lines pre) = 1 then "UP"
                else "DOWN")]] ++ post
      ∧ (∀ j ∈ port_lines pre, j < 1) ∧ (∀ j ∈ port_lines post, 1 < j))
    ∧ (∃ pre post,
      (print_hssi_port_status (some hssi_image) 0 []).2
        = [] ++ pre ++ [Call.printf "Port%-28d :%-12s %s\n"
            [Arg.int 3, Arg.str "10GbE",
              Arg.str (if GET_BIT (bit_field (load_le hssi_image HSSI_PORT_STATUS 8) 0 16)
                    (named_port_lines pre) = 1
                  ∧ GET_BIT (bit_field (load_le hssi_image HSSI_PORT_STATUS 8) 16 16)
                    (named_port_lines pre) = 1
                  ∧ GET_BIT (bit_field (load_le hssi_image HSSI_PORT_STATUS 8) 32 16)
                    (named_port_lines pre) = 1 then "UP"
                else "DOWN")]] ++ post
      ∧ (∀ j ∈ port_lines pre, j < 3) ∧ (∀ j ∈ port_lines post, 3 < j))
    ∧ print_hssi_port_status (some hssi_image) 0 []
      = (FPGA_OK, [Call.enter "print_hssi_port_status",
          Call.printf "//****** HSSI information ******//\n" [],
          Call.printf "%-32s : %d.%d  \n" [Arg.str "HSSI version", Arg.int 2, Arg.int 1],
          Call.printf "%-32s : %d  \n" [Arg.str "Number of ports", Arg.int 4],
          Call.printf "Port%-28d :%s\n" [Arg.int 0, Arg.str "N/A"],
          Call.printf "Port%-28d :%-12s %s\n" [Arg.int 1, Arg.str "25GbE", Arg.str "UP"],
          Call.printf "Port%-28d :%-12s %s\n"
            [Arg.int 3, Arg.str "10GbE", Arg.str "DOWN"]])
    ∧ load_le hssi_image HSSI_PORT_STATUS 8 = 0x100030001 :=
  ⟨match (print_hssi_port_status_up_iff_status_bits hssi_image 0 [] HSSI_VERSION
      HSSI_FEATURE_LIST HSSI_PORT_STATUS HSSI_PORT_ATTRIBUTE 1 (21, "25GbE") (by decide)
      (by decide) (by decide) (by decide)).2 with
    | ⟨pre, post, h1, h2, h3, _⟩ => ⟨pre, post, h1, h2, h3⟩,
   match (print_hssi_port_status_up_iff_status_bits hssi_image 0 [] HSSI_VERSION
      HSSI_FEATURE_LIST HSSI_PORT_STATUS HSSI_PORT_ATTRIBUTE 3 (20, "10GbE") (by decide)
      (by decide) (by decide) (by decide)).2 with
    | ⟨pre, post, h1, h2, h3, _⟩ => ⟨pre, post, h1, h2, h3⟩,
   by decide, by decide⟩

end OPAE
